import Mathlib

/-!
Verification of the Flexbox-bootstrap-playground repository.

This file gives a shallow embedding, in Lean 4, of the logic of the
repository's Python sources:

* `src/.vscode/api/bootstrap_generator.py`       — namespace `VercelGen`
* `src/api/bootstrap_generator.py`               — namespace `CliGen`
* `src/api/project_manager.py`                   — namespace `PMApi`
* `src/css-learning-platform/project_manager.py` — namespace `PMCli`

Strings are modelled by Lean `String`; machine effects are made explicit:
file systems become association lists from path to content, every call to
`datetime.now()` becomes an explicit `Clock` parameter, and fallible Python
code (code that can raise) is embedded with `Option`/`Except`.  The large
literal template texts are transcribed exactly from the sources, with
`{`/`}`/`'`/`` ` `` written via `\xNN` escapes.
-/

/-! ## Shared helpers -/

/-- Explicit wall clock: the three renderings of `datetime.now()` used by the
sources (`isoformat()`, `strftime("%B %d, %Y")` and `str(_.year)`). -/
structure Clock where
  iso : String
  date : String
  year : String
deriving DecidableEq, Repr

/-- Leaf JSON value (string or boolean); all nested objects appearing in this
repository's configuration data have leaf values. -/
inductive JLeaf where
  | str (s : String)
  | jbool (b : Bool)
deriving DecidableEq, Repr

/-- JSON value as it appears in this repository's configuration mappings:
a string, a boolean, a list of strings, or a flat object of leaves.  The
tools never construct deeper nesting, so quantifying over this type covers
the configuration states the code itself can write. -/
inductive JVal where
  | str (s : String)
  | jbool (b : Bool)
  | strList (xs : List String)
  | leafMap (fields : List (String × JLeaf))
deriving DecidableEq, Repr

/-- Python truthiness of a JSON value (`bool(v)`): empty strings, empty lists
and empty dicts are falsy. -/
def jvalTruthy : JVal → Bool
  | .str s => !s.isEmpty
  | .jbool b => b
  | .strList xs => !xs.isEmpty
  | .leafMap m => !m.isEmpty

/-- Rendering of a JSON value inside a Python f-string (`str(v)`).  The list
and dict renderings follow Python's `repr`-based formatting for the simple
shapes that can occur here (no quote escaping inside elements, which the
tools never produce). -/
def pyStrOfJVal : JVal → String
  | .str s => s
  | .jbool b => if b then "True" else "False"
  | .strList xs => "[" ++ String.intercalate ", " (xs.map (fun s => "'" ++ s ++ "'")) ++ "]"
  | .leafMap m =>
      "\x7b" ++ String.intercalate ", "
        (m.map (fun kv => "'" ++ kv.1 ++ "': " ++
          match kv.2 with
          | .str s => "'" ++ s ++ "'"
          | .jbool b => if b then "True" else "False")) ++ "\x7d"

/-- Embeds Python string indexing `s[i]` as used on the constant
`"5.3.3"`; out-of-range indexing (which would raise `IndexError`) yields
the empty string and is unreachable in the flows modelled here. -/
def pyIndex (s : String) (i : Nat) : String :=
  match s.data.get? i with
  | some c => String.singleton c
  | none => ""

/-- Embeds Python `str.title()` for ASCII text: a character is uppercased
after a non-letter and lowercased after a letter. -/
def pyTitleGo : Bool → List Char → List Char
  | _, [] => []
  | prevAlpha, c :: cs =>
    (if prevAlpha then c.toLower else c.toUpper) :: pyTitleGo c.isAlpha cs

/-- Embeds Python `str.title()` (ASCII). -/
def pyTitle (s : String) : String := ⟨pyTitleGo false s.data⟩

/-- Embeds `name.lower().replace(' ', '-')` (ASCII lowering; replacing the
single-character pattern `' '` is a per-character map). -/
def pySlug (s : String) : String :=
  ⟨(s.data.map Char.toLower).map (fun c => if c = ' ' then '-' else c)⟩

/-- Lowercase hexadecimal digit character of a value below 16 (spec-side
encoder, also used by the JSON `\uXXXX` escapes). -/
def hexDigitChar (d : Nat) : Char :=
  if d < 10 then Char.ofNat (48 + d) else Char.ofNat (87 + d)

/-- Four-hex-digit `\uXXXX` escape used by Python's `json.dumps`. -/
def jsonU4 (n : Nat) : List Char :=
  ['\\', 'u', hexDigitChar (n / 4096 % 16), hexDigitChar (n / 256 % 16),
   hexDigitChar (n / 16 % 16), hexDigitChar (n % 16)]

/-- Escape of one character in a JSON string, following `json.dumps` with its
default `ensure_ascii=True`: printable ASCII other than `"` and `\` is kept,
the short escapes are used for the usual control characters, and everything
else becomes `\uXXXX` (with surrogate pairs above `U+FFFF`). -/
def jsonEscapeChar (c : Char) : List Char :=
  if c = '"' then ['\\', '"']
  else if c = '\\' then ['\\', '\\']
  else if c = '\n' then ['\\', 'n']
  else if c = '\t' then ['\\', 't']
  else if c = '\r' then ['\\', 'r']
  else if c.toNat = 8 then ['\\', 'b']
  else if c.toNat = 12 then ['\\', 'f']
  else if 32 ≤ c.toNat ∧ c.toNat ≤ 126 then [c]
  else if c.toNat < 65536 then jsonU4 c.toNat
  else
    jsonU4 (55296 + (c.toNat - 65536) / 1024) ++ jsonU4 (56320 + (c.toNat - 65536) % 1024)

/-- JSON string literal of a Lean string (`json.dumps` of a `str`). -/
def jsonStr (s : String) : String :=
  ⟨'"' :: ((s.data.map jsonEscapeChar).foldr (· ++ ·) []) ++ ['"']⟩

/-- JSON rendering of a boolean. -/
def jsonBool (b : Bool) : String := if b then "true" else "false"

/-- JSON rendering (`json.dumps(_, indent=2)`) of a list of strings sitting
at nesting depth 1, as in the `components`/`dependencies` fields. -/
def jsonStrListL1 (xs : List String) : String :=
  match xs with
  | [] => "[]"
  | _ => "[\n    " ++ String.intercalate ",\n    " (xs.map jsonStr) ++ "\n  ]"

/-- HTTP response with an explicit body type: status code, headers in the
order they are sent, and the body. -/
structure HResp (β : Type) where
  statusCode : Nat
  headers : List (String × String)
  body : β
deriving DecidableEq

/-- File system fragment: the set of directories and an association list
from file path to content.  `α` is the content type. -/
structure FileSys (α : Type) where
  dirs : List String
  files : List (String × α)
deriving DecidableEq

/-- Embeds `Path.mkdir(exist_ok=True)`: records the directory, never failing
when it already exists. -/
def FileSys.mkdirExistOk (fs : FileSys α) (d : String) : FileSys α :=
  if fs.dirs.contains d then fs else { fs with dirs := fs.dirs ++ [d] }

/-- Embeds `Path.mkdir()` on a path known not to exist (the callers below
only reach it after the existence check). -/
def FileSys.mkdir (fs : FileSys α) (d : String) : FileSys α :=
  { fs with dirs := fs.dirs ++ [d] }

/-- Overwriting update of an association list (`d[k] = v` on a Python dict):
replaces in place if the key is present, appends otherwise. -/
def dictSet (m : List (String × α)) (k : String) (v : α) : List (String × α) :=
  if (m.lookup k).isSome then m.map (fun kv => if kv.1 = k then (k, v) else kv)
  else m ++ [(k, v)]

/-- Embeds `open(p, 'w')` followed by a full write: create or overwrite. -/
def FileSys.write (fs : FileSys α) (p : String) (content : α) : FileSys α :=
  { fs with files := dictSet fs.files p content }

/-! ## `src/css-learning-platform/project_manager.py` — the advanced CLI -/

namespace PMCli

/-- Configuration mapping: a JSON object, as an association list in key
insertion order (Python dicts preserve insertion order). -/
abbrev ConfigMap := List (String × JVal)

/-- Content of a file on disk as far as the tool can observe it: either a
JSON object it can parse into a configuration mapping, or text (anything
`json.load` rejects as a configuration object is summarised by `text`). -/
inductive FileContent where
  | jsonMap (m : ConfigMap)
  | text (s : String)
deriving DecidableEq, Repr

/-- Outcome of `json.load` on a configuration file's content. -/
def parseConfigFile : FileContent → Option ConfigMap
  | .jsonMap m => some m
  | .text _ => none

/-- Embeds the `default_config` dictionary of `ProjectConfig.load_config`;
`name` defaults to the project directory's name. -/
def default_config (dirName : String) : ConfigMap :=
  [("name", .str dirName),
   ("version", .str "1.0.0"),
   ("description", .str "Bootstrap project"),
   ("author", .str ""),
   ("bootstrap_version", .str "5.3.3"),
   ("bootstrap_icons", .jbool true),
   ("custom_css", .jbool true),
   ("custom_js", .jbool true),
   ("live_reload", .jbool true),
   ("minify_assets", .jbool false),
   ("deployment", .leafMap [("type", .str "static"), ("build_dir", .str "dist")]),
   ("components", .strList []),
   ("dependencies", .strList [])]

/-- Embeds the merge loop of `ProjectConfig.load_config`:
`for key, value in default_config.items(): if key not in config:
config[key] = value` — each missing default key is appended, existing keys
are left untouched. -/
def mergeDefaults (defaults config : ConfigMap) : ConfigMap :=
  defaults.foldl
    (fun acc kv => if (acc.lookup kv.1).isSome then acc else acc ++ [kv])
    config

/-- Embeds `ProjectConfig.load_config`: defaults when the file is absent,
defaults merged under the parsed mapping when it parses, and bare defaults
(after a printed warning) when parsing raises. -/
def load_config (dirName : String) (file : Option FileContent) : ConfigMap :=
  match file with
  | none => default_config dirName
  | some fc =>
    match parseConfigFile fc with
    | some config => mergeDefaults (default_config dirName) config
    | none => default_config dirName

/-- Embeds `ProjectConfig.load_config` in explicit state-passing style: the
function only reads the configuration file, so the file state it returns is
the one it was given. -/
def load_config_fs (dirName : String) (file : Option FileContent) :
    ConfigMap × Option FileContent :=
  (load_config dirName file, file)

/-- Embeds `ProjectConfig.save_config`: serialises the mapping and
overwrites the configuration file (the I/O-failure branch, which leaves the
previous file untouched and only logs, is owned by the platform and not
modelled). -/
def save_config (config : ConfigMap) : Option FileContent :=
  some (.jsonMap config)

/-- Embeds Python `dict.update` (used by `ProjectConfig.update`): each given
key replaces an existing entry in place or is appended. -/
def dictUpdate (config kwargs : ConfigMap) : ConfigMap :=
  kwargs.foldl (fun acc kv => dictSet acc kv.1 kv.2) config

/-- File-modification event as delivered to
`LiveReloadHandler.on_modified`: the directory flag, the source path and the
value of `time.time()` when the event is handled. -/
structure FileEvent where
  dirFlag : Bool
  src_path : String
  time : ℚ
deriving DecidableEq

/-- Embeds the extension filter of `LiveReloadHandler.on_modified`:
`any(event.src_path.endswith(ext) for ext in relevant_extensions)`. -/
def relevantPath (p : String) : Bool :=
  [".html", ".css", ".js", ".scss", ".sass"].any
    (fun ext => ext.data.isSuffixOf p.data)

/-- State of a `LiveReloadHandler`: its `last_modified` dictionary mapping a
path to the time of the last event that reached the callback. -/
abbrev WatchState := List (String × ℚ)

/-- Embeds `LiveReloadHandler.on_modified`: directory events and events for
irrelevant extensions are dropped; an event within 0.5 seconds of the last
callback-triggering event for the same path is dropped; otherwise
`last_modified` is updated and the callback fires (second component
`true`). -/
def on_modified (st : WatchState) (e : FileEvent) : WatchState × Bool :=
  if e.dirFlag then (st, false)
  else if !relevantPath e.src_path then (st, false)
  else
    match st.lookup e.src_path with
    | some t =>
      if e.time - t < 1/2 then (st, false)
      else (dictSet st e.src_path e.time, true)
    | none => (dictSet st e.src_path e.time, true)

/-- Runs `on_modified` over a sequence of events from a given state,
returning the list of callback decisions, in order. -/
def runWatcher (st : WatchState) : List FileEvent → List Bool
  | [] => []
  | e :: es =>
    let r := on_modified st e
    r.2 :: runWatcher r.1 es

/-- Spec-side restatement of the debounce contract, written exactly as the
specification describes it: an event fires if and only if it is a
non-directory event with a recognised extension and no earlier
callback-triggering event for the same path lies within the preceding
0.5 seconds.  `past` carries the already-processed events with their
decisions. -/
def debounceSpecFires (past : List (FileEvent × Bool)) (e : FileEvent) : Bool :=
  !e.dirFlag && relevantPath e.src_path &&
    decide (∀ pe ∈ past, pe.2 = true → pe.1.src_path = e.src_path →
      ¬(e.time - pe.1.time < 1/2))

/-- Spec-side runner for `debounceSpecFires`. -/
def debounceSpecRun (past : List (FileEvent × Bool)) : List FileEvent → List Bool
  | [] => []
  | e :: es =>
    let f := debounceSpecFires past e
    f :: debounceSpecRun (past ++ [(e, f)]) es

/-- Time of the last fired event for a path in a processed history (the
value `last_modified[path]` should hold). -/
def lastFired : List (FileEvent × Bool) → String → Option ℚ
  | [], _ => none
  | pe :: rest, p =>
    match lastFired rest p with
    | some t => some t
    | none => if pe.2 = true ∧ pe.1.src_path = p then some pe.1.time else none

end PMCli

namespace PMCli

/-- Value of a configuration key as read by `config["k"]` in the f-strings of
this file; the flows modelled always have the key present (defaults are
merged first), so the `KeyError` case is represented by an empty string. -/
def cfgGet (config : ConfigMap) (k : String) : JVal :=
  (config.lookup k).getD (.str "")

/-- f-string rendering of a configuration value. -/
def cfgStr (config : ConfigMap) (k : String) : String :=
  pyStrOfJVal (cfgGet config k)

/-- Truthiness of a configuration value (`if config["k"]`). -/
def cfgTruthy (config : ConfigMap) (k : String) : Bool :=
  jvalTruthy (cfgGet config k)

/-- Jinja rendering of `{{ k }}` against a configuration mapping: an
undefined variable renders as the empty string. -/
def jinjaStr (config : ConfigMap) (k : String) : String :=
  match config.lookup k with
  | some v => pyStrOfJVal v
  | none => ""

/-- Jinja truth of `{% if k %}`: an undefined variable is falsy. -/
def jinjaTruthy (config : ConfigMap) (k : String) : Bool :=
  match config.lookup k with
  | some v => jvalTruthy v
  | none => false

/-- Embeds the Jinja rendering of the `basic.html` template written by
`AdvancedProjectManager.ensure_templates_dir`
(`src/css-learning-platform/project_manager.py`): `{{ var }}` renders the
configuration value (empty for an undefined variable, e.g. `title`, which is
not a configuration key), and `{% if flag %}` blocks are included when the
value is truthy (false for an undefined variable). -/
def renderBasicTemplate (config : ConfigMap) : String :=
  "<!DOCTYPE html>\n<html lang=\"en\">\n<head>\n    <meta charset=\"UTF-8\">\n    <meta name=\"viewport\" content=\"width=device-width, initial-scale=1.0\">\n    <title>" ++
    (jinjaStr config "title") ++
    "</title>\n    <link href=\"https://cdn.jsdelivr.net/npm/bootstrap@" ++
    (jinjaStr config "bootstrap_version") ++
    "/dist/css/bootstrap.min.css\" rel=\"stylesheet\">\n    " ++
    (if jinjaTruthy config "bootstrap_icons" then
      "<link href=\"https://cdn.jsdelivr.net/npm/bootstrap-icons@1.11.0/font/bootstrap-icons.css\" rel=\"stylesheet\">"
    else "") ++
    "\n    " ++
    (if jinjaTruthy config "custom_css" then
      "<link href=\"css/style.css\" rel=\"stylesheet\">"
    else "") ++
    "\n</head>\n<body>\n    <div class=\"container mt-4\">\n        <h1>" ++
    (jinjaStr config "title") ++
    "</h1>\n        <p class=\"lead\">" ++
    (jinjaStr config "description") ++
    "</p>\n        \n        <div class=\"row\">\n            <div class=\"col-md-8\">\n                <div class=\"card\">\n                    <div class=\"card-header\">\n                        <h5 class=\"mb-0\">Welcome to " ++
    (jinjaStr config "title") ++
    "</h5>\n                    </div>\n                    <div class=\"card-body\">\n                        <p>This project was generated with the Bootstrap Project Manager.</p>\n                        <a href=\"#\" class=\"btn btn-primary\">Get Started</a>\n                    </div>\n                </div>\n            </div>\n            <div class=\"col-md-4\">\n                <div class=\"list-group\">\n                    <div class=\"list-group-item\">\n                        <h6 class=\"mb-1\">Bootstrap " ++
    (jinjaStr config "bootstrap_version") ++
    "</h6>\n                        <small>Latest Bootstrap framework</small>\n                    </div>\n                    " ++
    (if jinjaTruthy config "bootstrap_icons" then
      "\n                    <div class=\"list-group-item\">\n                        <h6 class=\"mb-1\"><i class=\"bi bi-icons\"></i> Bootstrap Icons</h6>\n                        <small>Icon library included</small>\n                    </div>\n                    "
    else "") ++
    "\n                    " ++
    (if jinjaTruthy config "custom_css" then
      "\n                    <div class=\"list-group-item\">\n                        <h6 class=\"mb-1\"><i class=\"bi bi-palette\"></i> Custom CSS</h6>\n                        <small>Ready for customization</small>\n                    </div>\n                    "
    else "") ++
    "\n                </div>\n            </div>\n        </div>\n    </div>\n    \n    <script src=\"https://cdn.jsdelivr.net/npm/bootstrap@" ++
    (jinjaStr config "bootstrap_version") ++
    "/dist/js/bootstrap.bundle.min.js\"></script>\n    " ++
    (if jinjaTruthy config "custom_js" then
      "<script src=\"js/script.js\"></script>"
    else "") ++
    "\n    " ++
    (if jinjaTruthy config "live_reload" then
      "\n    <script>\n        // Live reload functionality\n        (function() \x7b\n            let ws = null;\n            function connect() \x7b\n                try \x7b\n                    ws = new WebSocket(\x27ws://localhost:8081\x27);\n                    ws.onmessage = function(event) \x7b\n                        if (event.data === \x27reload\x27) \x7b\n                            location.reload();\n                        \x7d\n                    \x7d;\n                    ws.onclose = function() \x7b\n                        setTimeout(connect, 1000);\n                    \x7d;\n                \x7d catch (e) \x7b\n                    setTimeout(connect, 1000);\n                \x7d\n            \x7d\n            connect();\n        \x7d)();\n    </script>\n    "
    else "") ++
    "\n</body>\n</html>"

/-- Embeds the constant stylesheet written by
`AdvancedProjectManager.create_css_file`. -/
def style_css_content : String :=
  "/* Custom CSS for your Bootstrap project */\n\n:root \x7b\n  /* Custom color palette */\n  --primary-color: #667eea;\n  --secondary-color: #764ba2;\n  --success-color: #28a745;\n  --danger-color: #dc3545;\n  --warning-color: #ffc107;\n  --info-color: #17a2b8;\n  --light-color: #f8f9fa;\n  --dark-color: #343a40;\n  \n  /* Custom spacing */\n  --spacing-xs: 0.25rem;\n  --spacing-sm: 0.5rem;\n  --spacing-md: 1rem;\n  --spacing-lg: 1.5rem;\n  --spacing-xl: 3rem;\n  \n  /* Custom typography */\n  --font-family-sans: system-ui, -apple-system, \"Segoe UI\", Roboto, sans-serif;\n  --font-family-mono: \"Consolas\", \"Monaco\", \"Courier New\", monospace;\n  \n  /* Shadows */\n  --shadow-sm: 0 1px 2px 0 rgba(0, 0, 0, 0.05);\n  --shadow-md: 0 4px 6px -1px rgba(0, 0, 0, 0.1);\n  --shadow-lg: 0 10px 15px -3px rgba(0, 0, 0, 0.1);\n  \n  /* Transitions */\n  --transition-base: all 0.2s ease-in-out;\n  --transition-colors: color, background-color, border-color 0.15s ease-in-out;\n\x7d\n\n/* Global styles */\nbody \x7b\n  font-family: var(--font-family-sans);\n  line-height: 1.6;\n\x7d\n\n/* Custom utility classes */\n.text-gradient \x7b\n  background: linear-gradient(135deg, var(--primary-color), var(--secondary-color));\n  -webkit-background-clip: text;\n  -webkit-text-fill-color: transparent;\n  background-clip: text;\n\x7d\n\n.bg-gradient-primary \x7b\n  background: linear-gradient(135deg, var(--primary-color), var(--secondary-color));\n\x7d\n\n.shadow-custom \x7b\n  box-shadow: var(--shadow-md);\n\x7d\n\n.transition-all \x7b\n  transition: var(--transition-base);\n\x7d\n\n.hover-lift \x7b\n  transition: transform 0.2s ease;\n\x7d\n\n.hover-lift:hover \x7b\n  transform: translateY(-2px);\n\x7d\n\n.hover-scale:hover \x7b\n  transform: scale(1.05);\n\x7d\n\n/* Custom card styles */\n.card-custom \x7b\n  border: none;\n  box-shadow: var(--shadow-sm);\n  transition: var(--transition-base);\n\x7d\n\n.card-custom:hover \x7b\n  box-shadow: var(--shadow-lg);\n  transform: translateY(-2px);\n\x7d\n\n/* Custom button styles */\n.btn-gradient \x7b\n  background: linear-gradient(135deg, var(--primary-color), var(--secondary-color));\n  border: none;\n  color: white;\n  transition: var(--transition-base);\n\x7d\n\n.btn-gradient:hover \x7b\n  background: linear-gradient(135deg, var(--secondary-color), var(--primary-color));\n  color: white;\n  transform: translateY(-1px);\n  box-shadow: var(--shadow-md);\n\x7d\n\n/* Custom navbar styles */\n.navbar-custom \x7b\n  backdrop-filter: blur(10px);\n  background: rgba(255, 255, 255, 0.95);\n  box-shadow: var(--shadow-sm);\n\x7d\n\n/* Custom animations */\n@keyframes fadeInUp \x7b\n  from \x7b\n    opacity: 0;\n    transform: translateY(30px);\n  \x7d\n  to \x7b\n    opacity: 1;\n    transform: translateY(0);\n  \x7d\n\x7d\n\n.fade-in-up \x7b\n  animation: fadeInUp 0.6s ease-out;\n\x7d\n\n@keyframes pulse \x7b\n  0%, 100% \x7b\n    opacity: 1;\n  \x7d\n  50% \x7b\n    opacity: 0.5;\n  \x7d\n\x7d\n\n.pulse \x7b\n  animation: pulse 2s infinite;\n\x7d\n\n/* Responsive utilities */\n@media (max-width: 768px) \x7b\n  .mobile-center \x7b\n    text-align: center;\n  \x7d\n  \n  .mobile-stack > * \x7b\n    margin-bottom: var(--spacing-md);\n  \x7d\n\x7d\n\n/* Dark mode support */\n@media (prefers-color-scheme: dark) \x7b\n  :root \x7b\n    --bs-body-bg: #1a1a1a;\n    --bs-body-color: #ffffff;\n  \x7d\n  \n  .navbar-custom \x7b\n    background: rgba(26, 26, 26, 0.95);\n  \x7d\n  \n  .card-custom \x7b\n    background: #2d2d2d;\n    color: #ffffff;\n  \x7d\n\x7d\n\n/* Print styles */\n@media print \x7b\n  .no-print \x7b\n    display: none !important;\n  \x7d\n  \n  .card \x7b\n    break-inside: avoid;\n  \x7d\n\x7d\n"

/-- Embeds the constant script written by
`AdvancedProjectManager.create_js_file`. -/
def script_js_content : String :=
  "// Custom JavaScript for your Bootstrap project\n\n// Wait for DOM to be ready\ndocument.addEventListener(\x27DOMContentLoaded\x27, function() \x7b\n    console.log(\x27Bootstrap project loaded successfully!\x27);\n    \n    // Initialize tooltips\n    initializeTooltips();\n    \n    // Initialize smooth scrolling\n    initializeSmoothScrolling();\n    \n    // Initialize form validation\n    initializeFormValidation();\n    \n    // Initialize animations\n    initializeAnimations();\n\x7d);\n\n/**\n * Initialize Bootstrap tooltips\n */\nfunction initializeTooltips() \x7b\n    const tooltipTriggerList = [].slice.call(document.querySelectorAll(\x27[data-bs-toggle=\"tooltip\"]\x27));\n    tooltipTriggerList.map(function (tooltipTriggerEl) \x7b\n        return new bootstrap.Tooltip(tooltipTriggerEl);\n    \x7d);\n\x7d\n\n/**\n * Initialize smooth scrolling for anchor links\n */\nfunction initializeSmoothScrolling() \x7b\n    document.querySelectorAll(\x27a[href^=\"#\"]\x27).forEach(anchor => \x7b\n        anchor.addEventListener(\x27click\x27, function (e) \x7b\n            e.preventDefault();\n            const target = document.querySelector(this.getAttribute(\x27href\x27));\n            if (target) \x7b\n                target.scrollIntoView(\x7b\n                    behavior: \x27smooth\x27,\n                    block: \x27start\x27\n                \x7d);\n            \x7d\n        \x7d);\n    \x7d);\n\x7d\n\n/**\n * Initialize form validation with Bootstrap classes\n */\nfunction initializeFormValidation() \x7b\n    const forms = document.querySelectorAll(\x27.needs-validation\x27);\n    \n    Array.from(forms).forEach(form => \x7b\n        form.addEventListener(\x27submit\x27, event => \x7b\n            if (!form.checkValidity()) \x7b\n                event.preventDefault();\n                event.stopPropagation();\n            \x7d\n            \n            form.classList.add(\x27was-validated\x27);\n        \x7d, false);\n    \x7d);\n\x7d\n\n/**\n * Initialize scroll-triggered animations\n */\nfunction initializeAnimations() \x7b\n    const observerOptions = \x7b\n        threshold: 0.1,\n        rootMargin: \x270px 0px -50px 0px\x27\n    \x7d;\n    \n    const observer = new IntersectionObserver(function(entries) \x7b\n        entries.forEach(entry => \x7b\n            if (entry.isIntersecting) \x7b\n                entry.target.classList.add(\x27fade-in-up\x27);\n                observer.unobserve(entry.target);\n            \x7d\n        \x7d);\n    \x7d, observerOptions);\n    \n    // Observe elements with animation class\n    document.querySelectorAll(\x27.animate-on-scroll\x27).forEach(el => \x7b\n        observer.observe(el);\n    \x7d);\n\x7d\n\n/**\n * Utility function to show toast notifications\n */\nfunction showToast(message, type = \x27primary\x27) \x7b\n    const toastContainer = document.getElementById(\x27toast-container\x27) || createToastContainer();\n    \n    const toastElement = document.createElement(\x27div\x27);\n    toastElement.className = \x60toast align-items-center text-white bg-$\x7btype\x7d border-0\x60;\n    toastElement.setAttribute(\x27role\x27, \x27alert\x27);\n    toastElement.innerHTML = \x60\n        <div class=\"d-flex\">\n            <div class=\"toast-body\">$\x7bmessage\x7d</div>\n            <button type=\"button\" class=\"btn-close btn-close-white me-2 m-auto\" data-bs-dismiss=\"toast\"></button>\n        </div>\n    \x60;\n    \n    toastContainer.appendChild(toastElement);\n    \n    const toast = new bootstrap.Toast(toastElement);\n    toast.show();\n    \n    // Remove toast element after it\x27s hidden\n    toastElement.addEventListener(\x27hidden.bs.toast\x27, function() \x7b\n        toastElement.remove();\n    \x7d);\n\x7d\n\n/**\n * Create toast container if it doesn\x27t exist\n */\nfunction createToastContainer() \x7b\n    const container = document.createElement(\x27div\x27);\n    container.id = \x27toast-container\x27;\n    container.className = \x27toast-container position-fixed bottom-0 end-0 p-3\x27;\n    document.body.appendChild(container);\n    return container;\n\x7d\n\n/**\n * Utility function to copy text to clipboard\n */\nasync function copyToClipboard(text) \x7b\n    try \x7b\n        await navigator.clipboard.writeText(text);\n        showToast(\x27Copied to clipboard!\x27, \x27success\x27);\n        return true;\n    \x7d catch (err) \x7b\n        console.error(\x27Failed to copy: \x27, err);\n        showToast(\x27Failed to copy to clipboard\x27, \x27danger\x27);\n        return false;\n    \x7d\n\x7d\n\n/**\n * Utility function for making API requests\n */\nasync function apiRequest(url, options = \x7b\x7d) \x7b\n    const defaultOptions = \x7b\n        headers: \x7b\n            \x27Content-Type\x27: \x27application/json\x27\n        \x7d\n    \x7d;\n    \n    const config = \x7b ...defaultOptions, ...options \x7d;\n    \n    try \x7b\n        const response = await fetch(url, config);\n        \n        if (!response.ok) \x7b\n            throw new Error(\x60HTTP error! status: $\x7bresponse.status\x7d\x60);\n        \x7d\n        \n        return await response.json();\n    \x7d catch (error) \x7b\n        console.error(\x27API request failed:\x27, error);\n        showToast(\x27Request failed. Please try again.\x27, \x27danger\x27);\n        throw error;\n    \x7d\n\x7d\n\n/**\n * Utility function to format dates\n */\nfunction formatDate(date, options = \x7b\x7d) \x7b\n    const defaultOptions = \x7b\n        year: \x27numeric\x27,\n        month: \x27long\x27,\n        day: \x27numeric\x27\n    \x7d;\n    \n    return new Intl.DateTimeFormat(\x27en-US\x27, \x7b ...defaultOptions, ...options \x7d).format(new Date(date));\n\x7d\n\n/**\n * Utility function to debounce function calls\n */\nfunction debounce(func, wait, immediate) \x7b\n    let timeout;\n    return function executedFunction(...args) \x7b\n        const later = () => \x7b\n            timeout = null;\n            if (!immediate) func.apply(this, args);\n        \x7d;\n        const callNow = immediate && !timeout;\n        clearTimeout(timeout);\n        timeout = setTimeout(later, wait);\n        if (callNow) func.apply(this, args);\n    \x7d;\n\x7d\n\n/**\n * Utility function for local storage with error handling\n */\nconst storage = \x7b\n    set(key, value) \x7b\n        try \x7b\n            localStorage.setItem(key, JSON.stringify(value));\n            return true;\n        \x7d catch (error) \x7b\n            console.error(\x27Failed to save to localStorage:\x27, error);\n            return false;\n        \x7d\n    \x7d,\n    \n    get(key, defaultValue = null) \x7b\n        try \x7b\n            const item = localStorage.getItem(key);\n            return item ? JSON.parse(item) : defaultValue;\n        \x7d catch (error) \x7b\n            console.error(\x27Failed to read from localStorage:\x27, error);\n            return defaultValue;\n        \x7d\n    \x7d,\n    \n    remove(key) \x7b\n        try \x7b\n            localStorage.removeItem(key);\n            return true;\n        \x7d catch (error) \x7b\n            console.error(\x27Failed to remove from localStorage:\x27, error);\n            return false;\n        \x7d\n    \x7d\n\x7d;\n\n// Export utilities for module systems\nif (typeof module !== \x27undefined\x27 && module.exports) \x7b\n    module.exports = \x7b\n        showToast,\n        copyToClipboard,\n        apiRequest,\n        formatDate,\n        debounce,\n        storage\n    \x7d;\n\x7d\n"

/-- Embeds the `readme_content` written by
`AdvancedProjectManager.create_readme`; configuration values are rendered the
way a Python f-string renders them (`cfgStr`). -/
def readme_content (config : ConfigMap) (dirName : String) (clock : Clock) : String :=
  "# " ++
    (cfgStr config "name") ++
    "\n\n" ++
    (cfgStr config "description") ++
    "\n\n## 🚀 Quick Start\n\n\x60\x60\x60bash\n# Start development server with live reload\npython project_manager.py dev " ++
    dirName ++
    "\n\n# Build for production\npython project_manager.py build " ++
    dirName ++
    "\n\n# Serve built files\npython project_manager.py serve " ++
    dirName ++
    " --production\n\x60\x60\x60\n\n## 📁 Project Structure\n\n\x60\x60\x60\n" ++
    dirName ++
    "/\n├── index.html              # Main HTML file\n├── css/\n│   └── style.css          # Custom styles\n├── js/\n│   └── script.js          # Custom JavaScript\n├── images/                # Image assets\n├── components/            # Reusable components\n├── project.json          # Project configuration\n├── .bootstrap-config.json # Bootstrap generator config\n└── README.md             # This file\n\x60\x60\x60\n\n## ✨ Features\n\n- **Bootstrap " ++
    (cfgStr config "bootstrap_version") ++
    "** - Latest Bootstrap framework\n- **" ++
    (if cfgTruthy config "bootstrap_icons" then "✅" else "❌") ++
    " Bootstrap Icons** - Icon library " ++
    (if cfgTruthy config "bootstrap_icons" then "included" else "not included") ++
    "\n- **" ++
    (if cfgTruthy config "custom_css" then "✅" else "❌") ++
    " Custom CSS** - Custom styling with CSS variables\n- **" ++
    (if cfgTruthy config "custom_js" then "✅" else "❌") ++
    " Custom JavaScript** - Utility functions and helpers\n- **" ++
    (if cfgTruthy config "live_reload" then "✅" else "❌") ++
    " Live Reload** - Automatic browser refresh during development\n- **Responsive Design** - Mobile-first approach\n- **Accessibility** - ARIA labels and semantic HTML\n- **Modern JavaScript** - ES6+ features and utilities\n\n## 🎨 Customization\n\n### Colors\n\nEdit CSS variables in \x60css/style.css\x60:\n\n\x60\x60\x60css\n:root \x7b\n  --primary-color: #667eea;\n  --secondary-color: #764ba2;\n  /* Add your custom colors */\n\x7d\n\x60\x60\x60\n\n### Components\n\nAdd reusable components in the \x60components/\x60 directory and include them in your HTML.\n\n### JavaScript\n\nThe project includes utility functions in \x60js/script.js\x60:\n\n- \x60showToast(message, type)\x60 - Show toast notifications\n- \x60copyToClipboard(text)\x60 - Copy text to clipboard\n- \x60apiRequest(url, options)\x60 - Make API requests\n- \x60storage\x60 - LocalStorage utilities\n\n## 🛠️ Development\n\n### Live Development\n\n\x60\x60\x60bash\npython project_manager.py dev " ++
    dirName ++
    "\n\x60\x60\x60\n\nThis starts a development server with:\n- Live reload on file changes\n- Hot CSS injection\n- Error reporting\n\n### Building for Production\n\n\x60\x60\x60bash\npython project_manager.py build " ++
    dirName ++
    "\n\x60\x60\x60\n\nThis creates a \x60dist/\x60 folder with:\n- Minified CSS and JavaScript\n- Optimized images\n- Production-ready HTML\n\n### Adding Components\n\n\x60\x60\x60bash\npython project_manager.py add-component " ++
    dirName ++
    " --name navbar --type navigation\n\x60\x60\x60\n\n### Project Information\n\n\x60\x60\x60bash\npython project_manager.py info " ++
    dirName ++
    "\n\x60\x60\x60\n\n## 📦 Dependencies\n\n- **Bootstrap " ++
    (cfgStr config "bootstrap_version") ++
    "** - CSS Framework\n- **Bootstrap Icons** - Icon library\n- **Modern browsers** - ES6+ support required\n\n## 🚀 Deployment\n\n### Static Hosting\n\nUpload the \x60dist/\x60 folder contents to any static hosting service:\n\n- **Netlify**: Drag and drop the \x60dist/\x60 folder\n- **Vercel**: Connect your Git repository\n- **GitHub Pages**: Push to a \x60gh-pages\x60 branch\n- **AWS S3**: Upload files to an S3 bucket\n\n### Custom Server\n\nThe built files work with any web server that can serve static files.\n\n## 📚 Resources\n\n- [Bootstrap Documentation](https://getbootstrap.com/docs/" ++
    (pyIndex (cfgStr config "bootstrap_version") 0) ++
    "." ++
    (pyIndex (cfgStr config "bootstrap_version") 2) ++
    "/)\n- [Bootstrap Icons](https://icons.getbootstrap.com/)\n- [MDN Web Docs](https://developer.mozilla.org/)\n\n## 📄 License\n\nThis project template is free to use and modify.\n\n---\n\n*Generated with Bootstrap Project Manager v1.0.0*\n*Created on " ++
    clock.date ++
    "*\n"

/-- JSON value restricted to a leaf, as `json.dump` serialises the nested
`bootstrap`/`features` objects of `create_package_file`; list- or map-valued
entries cannot occur there in the modelled flows. -/
def jvalToLeaf : JVal → JLeaf
  | .str s => .str s
  | .jbool b => .jbool b
  | .strList _ => .str ""
  | .leafMap _ => .str ""

/-- Embeds the `package_data` dictionary of
`AdvancedProjectManager.create_package_file` (written to `project.json`). -/
def package_data (config : ConfigMap) (dirName : String) (clock : Clock) : ConfigMap :=
  [("name", cfgGet config "name"),
   ("version", cfgGet config "version"),
   ("description", cfgGet config "description"),
   ("author", cfgGet config "author"),
   ("bootstrap", .leafMap
     [("version", jvalToLeaf (cfgGet config "bootstrap_version")),
      ("icons", jvalToLeaf (cfgGet config "bootstrap_icons"))]),
   ("scripts", .leafMap
     [("dev", .str ("python project_manager.py dev " ++ dirName)),
      ("build", .str ("python project_manager.py build " ++ dirName)),
      ("serve", .str ("python project_manager.py serve " ++ dirName))]),
   ("features", .leafMap
     [("custom_css", jvalToLeaf (cfgGet config "custom_css")),
      ("custom_js", jvalToLeaf (cfgGet config "custom_js")),
      ("live_reload", jvalToLeaf (cfgGet config "live_reload")),
      ("minify_assets", jvalToLeaf (cfgGet config "minify_assets"))]),
   ("created", .str clock.iso),
   ("dependencies", (config.lookup "dependencies").getD (.strList []))]

/-- Outcome of `AdvancedProjectManager.create_project`: the early
already-exists failure (printed error, `return False`), the `TypeError`
raised by `config.update(name=..., description=..., author=..., **options)`
when `options` itself carries one of those keywords (the CLI always passes
`description` and `author`, so the CLI path raises), or successful creation
(`return True`). -/
inductive CreateOutcome where
  | alreadyExists
  | typeErr
  | created
deriving DecidableEq, Repr

/-- File system of the advanced manager: paths are relative to the working
directory, contents are `FileContent`. -/
abbrev PFS := FileSys FileContent

/-- Embeds `AdvancedProjectManager.create_project`.  The project directory is
`name.lower().replace(' ', '-')`.  If it exists the function prints the
already-exists error and returns `False` leaving the file system untouched.
Otherwise it creates the directory tree, loads the (fresh) configuration,
merges `name`/`description`/`author` and `options` into it — a step that
raises `TypeError` when `options` contains `name`, `description` or `author`
(duplicate keyword argument) — saves the configuration, renders the basic
template (the templates directory is modelled in the state
`ensure_templates_dir` guarantees, holding the shipped `basic.html`; a
missing template name falls back to it) and writes the generated files. -/
def create_project (fs : PFS) (name : String) (options : ConfigMap)
    (clock : Clock) : PFS × CreateOutcome :=
  let project_dir := pySlug name
  if fs.dirs.contains project_dir then (fs, .alreadyExists)
  else
    let fs := fs.mkdir project_dir
    let fs := fs.mkdir (project_dir ++ "/css")
    let fs := fs.mkdir (project_dir ++ "/js")
    let fs := fs.mkdir (project_dir ++ "/images")
    let fs := fs.mkdir (project_dir ++ "/components")
    let config0 := load_config project_dir
      (fs.files.lookup (project_dir ++ "/.bootstrap-config.json"))
    if (options.lookup "name").isSome || (options.lookup "description").isSome
        || (options.lookup "author").isSome then
      (fs, .typeErr)
    else
      let kwargs : ConfigMap :=
        [("name", .str name),
         ("description",
           (options.lookup "description").getD (.str ("Bootstrap project: " ++ name))),
         ("author", (options.lookup "author").getD (.str ""))] ++ options
      let config := dictUpdate config0 kwargs
      let fs := fs.write (project_dir ++ "/.bootstrap-config.json") (.jsonMap config)
      let fs := fs.write (project_dir ++ "/index.html")
        (.text (renderBasicTemplate config))
      let fs := fs.write (project_dir ++ "/css/style.css") (.text style_css_content)
      let fs := fs.write (project_dir ++ "/js/script.js") (.text script_js_content)
      let fs := fs.write (project_dir ++ "/project.json")
        (.jsonMap (package_data config project_dir clock))
      let fs := fs.write (project_dir ++ "/README.md")
        (.text (readme_content config project_dir clock))
      (fs, .created)

end PMCli

/-! ## `src/.vscode/api/bootstrap_generator.py` — the serverless generator -/

namespace VercelGen

/-- Value of a single hexadecimal digit character, as accepted by Python's
`int(_, 16)`: `0`-`9`, `a`-`f` and `A`-`F`; `none` on any other character. -/
def hexDigitVal (c : Char) : Option Nat :=
  if '0' ≤ c ∧ c ≤ '9' then some (c.toNat - 48)
  else if 'a' ≤ c ∧ c ≤ 'f' then some (c.toNat - 87)
  else if 'A' ≤ c ∧ c ≤ 'F' then some (c.toNat - 55)
  else none

/-- Accumulating base-16 parse of a digit string; `none` as soon as one
character is not a hex digit. -/
def parseHexDigits (l : List Char) : Option Nat :=
  l.foldl
    (fun acc c =>
      match acc, hexDigitVal c with
      | some a, some d => some (16 * a + d)
      | _, _ => none)
    (some 0)

/-- Embeds Python's `int(s, 16)` on the digit strings produced by slicing a
hex colour: the empty slice raises (`none`), otherwise every character must
be a hex digit. -/
def parseHexNat (l : List Char) : Option Nat :=
  if l.isEmpty then none else parseHexDigits l

/-- Embeds `handler.hex_to_rgb` of `src/.vscode/api/bootstrap_generator.py`,
factored through the triple of parsed channel values:
`hex_color.lstrip('#')` drops every leading `'#'` and the slices `[0:2]`,
`[2:4]`, `[4:6]` are parsed with `int(_, 16)`.  A slice that fails to parse
makes Python raise `ValueError`, embedded as `none`. -/
def hexToRgbVals (hex_color : String) : Option (Nat × Nat × Nat) :=
  let h := hex_color.data.dropWhile (fun c => c = '#')
  match parseHexNat (h.take 2), parseHexNat ((h.drop 2).take 2),
      parseHexNat ((h.drop 4).take 2) with
  | some r, some g, some b => some (r, g, b)
  | _, _, _ => none

/-- Embeds `handler.hex_to_rgb`: the string
`','.join(str(int(hex_color[i:i+2], 16)) for i in (0, 2, 4))`. -/
def hex_to_rgb (hex_color : String) : Option String :=
  (hexToRgbVals hex_color).map
    (fun v => Nat.repr v.1 ++ "," ++ Nat.repr v.2.1 ++ "," ++ Nat.repr v.2.2)

/-- Property of a string: a 6-hex-digit colour, with or without one leading
`'#'` — the claim's input domain for `hex_to_rgb`. -/
def IsHexColorString (s : String) : Prop :=
  ∃ ds : List Char, (s.data = ds ∨ s.data = '#' :: ds) ∧ ds.length = 6 ∧
    ∀ c ∈ ds, (hexDigitVal c).isSome = true

/-- Spec-side encoder (the source has no hex encoder): two lowercase hex
digits of a byte. -/
def byteToHexChars (b : Nat) : List Char :=
  [hexDigitChar (b / 16), hexDigitChar (b % 16)]

/-- Spec-side encoder: canonical `#rrggbb` string of an RGB triple. -/
def rgbToHexColor (r g b : Nat) : String :=
  ⟨'#' :: (byteToHexChars r ++ byteToHexChars g ++ byteToHexChars b)⟩

/-- Embeds the `theme_colors` dictionary shared by
`generate_bootstrap_template` and `generate_custom_css`. -/
def theme_colors : List (String × String) :=
  [("primary", "#0d6efd"), ("success", "#198754"), ("info", "#0dcaf0"),
   ("warning", "#ffc107"), ("danger", "#dc3545"), ("dark", "#212529"),
   ("purple", "#6f42c1"), ("pink", "#d63384"), ("teal", "#20c997")]

/-- Embeds `theme_colors.get(theme_color, theme_colors['primary'])`. -/
def themeColorsGet (theme_color : String) : String :=
  (theme_colors.lookup theme_color).getD "#0d6efd"

/-- Literal segment of the template. -/
def navSeg0 : String :=
  "\n    <!-- Navigation -->\n    <nav class=\"navbar navbar-expand-lg navbar-dark bg-"

/-- Literal segment of the template. -/
def navSeg1 : String :=
  "\">\n        <div class=\"container\">\n            <a class=\"navbar-brand\" href=\"#\"><i class=\"bi bi-bootstrap me-2\"></i>"

/-- Piece 0 of literal segment `navSeg2`. -/
def navSeg2p0 : String :=
  "</a>\n            \n            <button class=\"navbar-toggler\" type=\"button\" data-bs-toggle=\"collapse\" data-bs-target=\"#navbarNav\">\n                <span class=\"navbar-toggler-icon\"></span>\n            </button>\n            \n            <div class=\"collapse navbar-collapse\" id=\"navbarNav\">\n                <ul class=\"navbar-nav ms-auto\">\n                    <li class=\"nav-item\">\n                     "

/-- Piece 1 of literal segment `navSeg2`. -/
def navSeg2p1 : String :=
  "   <a class=\"nav-link active\" href=\"#home\">Home</a>\n                    </li>\n                    <li class=\"nav-item\">\n                        <a class=\"nav-link\" href=\"#about\">About</a>\n                    </li>\n                    <li class=\"nav-item\">\n                        <a class=\"nav-link\" href=\"#services\">Services</a>\n                    </li>\n                    <li class=\"nav-item\">\n  "

/-- Piece 2 of literal segment `navSeg2`. -/
def navSeg2p2 : String :=
  "                      <a class=\"nav-link\" href=\"#contact\">Contact</a>\n                    </li>\n                </ul>\n            </div>\n        </div>\n    </nav>\n"

/-- Literal segment of the template, assembled from its pieces. -/
def navSeg2 : String :=
  navSeg2p0 ++ navSeg2p1 ++ navSeg2p2

/-- Embeds the `nav_html` block of `handler.generate_bootstrap_template`
(`src/.vscode/api/bootstrap_generator.py`). -/
def nav_html_block (name theme_color : String) : String :=
  navSeg0 ++
    theme_color ++
    navSeg1 ++
    name ++
    navSeg2

/-- Literal segment of the template. -/
def ftSeg0 : String :=
  "\n    <!-- Footer -->\n    <footer class=\"bg-dark text-white py-4 mt-5\">\n        <div class=\"container\">\n            <div class=\"row\">\n                <div class=\"col-md-6\">\n                    <h5><i class=\"bi bi-bootstrap me-2\"></i>"

/-- Literal segment of the template. -/
def ftSeg1 : String :=
  "</h5>\n                    <p class=\"mb-0\">Built with Bootstrap 5 and modern web technologies.</p>\n                </div>\n                <div class=\"col-md-6 text-md-end\">\n                    <p class=\"mb-0\">&copy; "

/-- Piece 0 of literal segment `ftSeg2`. -/
def ftSeg2p0 : String :=
  " All rights reserved.</p>\n                    <div class=\"social-links mt-2\">\n                        <a href=\"#\" class=\"text-white me-3\"><i class=\"bi bi-github\"></i></a>\n                        <a href=\"#\" class=\"text-white me-3\"><i class=\"bi bi-linkedin\"></i></a>\n                        <a href=\"#\" class=\"text-white\"><i class=\"bi bi-twitter\"></i></a>\n                    </div>\n                </"

/-- Piece 1 of literal segment `ftSeg2`. -/
def ftSeg2p1 : String :=
  "div>\n            </div>\n        </div>\n    </footer>\n"

/-- Literal segment of the template, assembled from its pieces. -/
def ftSeg2 : String :=
  ftSeg2p0 ++ ftSeg2p1

/-- Embeds the `footer_html` block of `handler.generate_bootstrap_template`.
The call `datetime.datetime.now().year` is the explicit `year` parameter. -/
def footer_html_block (name year : String) : String :=
  ftSeg0 ++
    name ++
    ftSeg1 ++
    year ++
    ftSeg2

/-- Literal segment of the template. -/
def tplSeg0 : String :=
  "<!DOCTYPE html>\n<html lang=\"en\">\n<head>\n    <meta charset=\"UTF-8\">\n    <meta name=\"viewport\" content=\"width=device-width, initial-scale=1.0\">\n    <meta name=\"description\" content=\""

/-- Literal segment of the template. -/
def tplSeg1 : String :=
  " - Modern Bootstrap template\">\n    <title>"

/-- Literal segment of the template. -/
def tplSeg2 : String :=
  "</title>\n    \n    <!-- Bootstrap CSS -->\n    <link href=\"https://cdn.jsdelivr.net/npm/bootstrap@5.3.3/dist/css/bootstrap.min.css\" rel=\"stylesheet\">\n    <!-- Bootstrap Icons -->\n    <link href=\"https://cdn.jsdelivr.net/npm/bootstrap-icons@1.11.0/font/bootstrap-icons.css\" rel=\"stylesheet\">\n    \n    <!-- Custom CSS -->\n    <style>\n        :root \x7b\n            --theme-color: "

/-- Literal segment of the template. -/
def tplSeg3 : String :=
  ";\n            --theme-rgb: "

/-- Piece 0 of literal segment `tplSeg4`. -/
def tplSeg4p0 : String :=
  ";\n        \x7d\n        \n        body \x7b\n            font-family: system-ui, -apple-system, \x27Segoe UI\x27, Roboto, sans-serif;\n            line-height: 1.6;\n        \x7d\n        \n        .hero-section \x7b\n            background: linear-gradient(135deg, var(--theme-color), rgba(var(--theme-rgb), 0.8));\n            color: white;\n            padding: 4rem 0;\n            position: relative;\n            overflow: h"

/-- Piece 1 of literal segment `tplSeg4`. -/
def tplSeg4p1 : String :=
  "idden;\n        \x7d\n        \n        .hero-section::before \x7b\n            content: \x27\x27;\n            position: absolute;\n            top: 0;\n            left: 0;\n            right: 0;\n            bottom: 0;\n            background: url(\"data:image/svg+xml,%3Csvg width=\x2760\x27 height=\x2760\x27 viewBox=\x270 0 60 60\x27 xmlns=\x27http://www.w3.org/2000/svg\x27%3E%3Cg fill=\x27none\x27 fill-rule=\x27evenodd\x27%3E%3Cg fill=\x27%23ffffff\x27 fil"

/-- Piece 2 of literal segment `tplSeg4`. -/
def tplSeg4p2 : String :=
  "l-opacity=\x270.1\x27%3E%3Cpath d=\x27m36 34v-4h-2v4h-4v2h4v4h2v-4h4v-2h-4zm0-30V0h-2v4h-4v2h4v4h2V6h4V4h-4zM6 34v-4H4v4H0v2h4v4h2v-4h4v-2H6zM6 4V0H4v4H0v2h4v4h2V6h4V4H6z\x27/%3E%3C/g%3E%3C/g%3E%3C/svg%3E\");\n            opacity: 0.1;\n        \x7d\n        \n        .card \x7b\n            transition: all 0.3s ease;\n            border: none;\n            box-shadow: 0 2px 15px rgba(0,0,0,0.1);\n        \x7d\n        \n       "

/-- Piece 3 of literal segment `tplSeg4`. -/
def tplSeg4p3 : String :=
  " .card:hover \x7b\n            transform: translateY(-5px);\n            box-shadow: 0 5px 30px rgba(0,0,0,0.15);\n        \x7d\n        \n        .btn-theme \x7b\n            background: var(--theme-color);\n            border-color: var(--theme-color);\n            color: white;\n        \x7d\n        \n        .btn-theme:hover \x7b\n            background: rgba(var(--theme-rgb), 0.9);\n            border-color: rgba(var(-"

/-- Piece 4 of literal segment `tplSeg4`. -/
def tplSeg4p4 : String :=
  "-theme-rgb), 0.9);\n            color: white;\n        \x7d\n        \n        .text-theme \x7b\n            color: var(--theme-color) !important;\n        \x7d\n        \n        .section-padding \x7b\n            padding: 4rem 0;\n        \x7d\n        \n        @media (max-width: 768px) \x7b\n            .hero-section \x7b\n                padding: 2rem 0;\n            \x7d\n            .section-padding \x7b\n                padding: 2re"

/-- Piece 5 of literal segment `tplSeg4`. -/
def tplSeg4p5 : String :=
  "m 0;\n            \x7d\n        \x7d\n    </style>\n</head>\n<body>"

/-- Literal segment of the template, assembled from its pieces. -/
def tplSeg4 : String :=
  tplSeg4p0 ++ tplSeg4p1 ++ tplSeg4p2 ++ tplSeg4p3 ++ tplSeg4p4 ++ tplSeg4p5

/-- Literal segment of the template. -/
def tplSeg5 : String :=
  "\n\n    <!-- Hero Section -->\n    <section class=\"hero-section\" id=\"home\">\n        <div class=\"container\">\n            <div class=\"row align-items-center\">\n                <div class=\"col-lg-6\">\n                    <h1 class=\"display-4 fw-bold mb-3\">Welcome to "

/-- Piece 0 of literal segment `tplSeg6`. -/
def tplSeg6p0 : String :=
  "</h1>\n                    <p class=\"lead mb-4\">This is a modern Bootstrap template created with our educational platform. Customize it to fit your project needs.</p>\n                    <div class=\"d-flex gap-3 flex-wrap\">\n                        <a href=\"#about\" class=\"btn btn-light btn-lg\">\n                            <i class=\"bi bi-arrow-down me-2\"></i>Learn More\n                        </a>\n "

/-- Piece 1 of literal segment `tplSeg6`. -/
def tplSeg6p1 : String :=
  "                       <a href=\"#contact\" class=\"btn btn-outline-light btn-lg\">\n                            <i class=\"bi bi-envelope me-2\"></i>Get Started\n                        </a>\n                    </div>\n                </div>\n                <div class=\"col-lg-6 text-center\">\n                    <i class=\"bi bi-laptop display-1 opacity-75\"></i>\n                </div>\n            </div>\n   "

/-- Piece 2 of literal segment `tplSeg6`. -/
def tplSeg6p2 : String :=
  "     </div>\n    </section>\n\n    <!-- Features Section -->\n    <section class=\"section-padding bg-light\" id=\"about\">\n        <div class=\"container\">\n            <div class=\"row text-center mb-5\">\n                <div class=\"col-lg-8 mx-auto\">\n                    <h2 class=\"display-6 fw-bold\">Key Features</h2>\n                    <p class=\"lead text-muted\">Everything you need to build modern, respon"

/-- Piece 3 of literal segment `tplSeg6`. -/
def tplSeg6p3 : String :=
  "sive websites.</p>\n                </div>\n            </div>\n            \n            <div class=\"row g-4\">\n                <div class=\"col-md-4\">\n                    <div class=\"card h-100\">\n                        <div class=\"card-body text-center p-4\">\n                            <div class=\"bg-"

/-- Literal segment of the template, assembled from its pieces. -/
def tplSeg6 : String :=
  tplSeg6p0 ++ tplSeg6p1 ++ tplSeg6p2 ++ tplSeg6p3

/-- Literal segment of the template. -/
def tplSeg7 : String :=
  " bg-opacity-10 rounded-circle d-inline-flex align-items-center justify-content-center mb-3\" style=\"width: 60px; height: 60px;\">\n                                <i class=\"bi bi-phone text-"

/-- Piece 0 of literal segment `tplSeg8`. -/
def tplSeg8p0 : String :=
  " fs-4\"></i>\n                            </div>\n                            <h5 class=\"card-title\">Responsive Design</h5>\n                            <p class=\"card-text text-muted\">Built with Bootstrap\x27s responsive grid system for all devices.</p>\n                        </div>\n                    </div>\n                </div>\n                \n                <div class=\"col-md-4\">\n               "

/-- Piece 1 of literal segment `tplSeg8`. -/
def tplSeg8p1 : String :=
  "     <div class=\"card h-100\">\n                        <div class=\"card-body text-center p-4\">\n                            <div class=\"bg-success bg-opacity-10 rounded-circle d-inline-flex align-items-center justify-content-center mb-3\" style=\"width: 60px; height: 60px;\">\n                                <i class=\"bi bi-speedometer2 text-success fs-4\"></i>\n                            </div>\n        "

/-- Piece 2 of literal segment `tplSeg8`. -/
def tplSeg8p2 : String :=
  "                    <h5 class=\"card-title\">Fast Loading</h5>\n                            <p class=\"card-text text-muted\">Optimized for performance with modern web standards.</p>\n                        </div>\n                    </div>\n                </div>\n                \n                <div class=\"col-md-4\">\n                    <div class=\"card h-100\">\n                        <div class=\"card"

/-- Piece 3 of literal segment `tplSeg8`. -/
def tplSeg8p3 : String :=
  "-body text-center p-4\">\n                            <div class=\"bg-info bg-opacity-10 rounded-circle d-inline-flex align-items-center justify-content-center mb-3\" style=\"width: 60px; height: 60px;\">\n                                <i class=\"bi bi-palette text-info fs-4\"></i>\n                            </div>\n                            <h5 class=\"card-title\">Customizable</h5>\n                    "

/-- Piece 4 of literal segment `tplSeg8`. -/
def tplSeg8p4 : String :=
  "        <p class=\"card-text text-muted\">Easy to customize with CSS variables and Bootstrap utilities.</p>\n                        </div>\n                    </div>\n                </div>\n            </div>\n        </div>\n    </section>\n\n    <!-- Services Section -->\n    <section class=\"section-padding\" id=\"services\">\n        <div class=\"container\">\n            <div class=\"row align-items-center\">\n"

/-- Piece 5 of literal segment `tplSeg8`. -/
def tplSeg8p5 : String :=
  "                <div class=\"col-lg-6\">\n                    <h2 class=\"display-6 fw-bold mb-4\">Ready to Customize</h2>\n                    <p class=\"lead mb-4\">This template includes everything you need to get started quickly:</p>\n                    <ul class=\"list-unstyled\">\n                        <li class=\"mb-2\"><i class=\"bi bi-check-circle text-"

/-- Literal segment of the template, assembled from its pieces. -/
def tplSeg8 : String :=
  tplSeg8p0 ++ tplSeg8p1 ++ tplSeg8p2 ++ tplSeg8p3 ++ tplSeg8p4 ++ tplSeg8p5

/-- Literal segment of the template. -/
def tplSeg9 : String :=
  " me-2\"></i>Bootstrap 5.3.3 integration</li>\n                        <li class=\"mb-2\"><i class=\"bi bi-check-circle text-"

/-- Literal segment of the template. -/
def tplSeg10 : String :=
  " me-2\"></i>Responsive navigation with hamburger menu</li>\n                        <li class=\"mb-2\"><i class=\"bi bi-check-circle text-"

/-- Literal segment of the template. -/
def tplSeg11 : String :=
  " me-2\"></i>Modern gradient hero section</li>\n                        <li class=\"mb-2\"><i class=\"bi bi-check-circle text-"

/-- Literal segment of the template. -/
def tplSeg12 : String :=
  " me-2\"></i>Card-based feature showcase</li>\n                        <li class=\"mb-2\"><i class=\"bi bi-check-circle text-"

/-- Literal segment of the template. -/
def tplSeg13 : String :=
  " me-2\"></i>Professional footer with social links</li>\n                        <li class=\"mb-2\"><i class=\"bi bi-check-circle text-"

/-- Piece 0 of literal segment `tplSeg14`. -/
def tplSeg14p0 : String :=
  " me-2\"></i>Bootstrap Icons integration</li>\n                    </ul>\n                    <a href=\"#contact\" class=\"btn btn-theme btn-lg\">\n                        <i class=\"bi bi-rocket me-2\"></i>Get Started\n                    </a>\n                </div>\n                <div class=\"col-lg-6\">\n                    <div class=\"bg-light p-4 rounded\">\n                        <h5 class=\"text-theme\"><i "

/-- Piece 1 of literal segment `tplSeg14`. -/
def tplSeg14p1 : String :=
  "class=\"bi bi-code-slash me-2\"></i>Quick Start</h5>\n                        <pre class=\"bg-dark text-light p-3 rounded\"><code># Download template\ncurl -O template.zip\n\n# Extract files\nunzip template.zip\n\n# Open in browser\nopen index.html</code></pre>\n                    </div>\n                </div>\n            </div>\n        </div>\n    </section>\n\n    <!-- Contact Section -->\n    <section class=\"s"

/-- Piece 2 of literal segment `tplSeg14`. -/
def tplSeg14p2 : String :=
  "ection-padding bg-light\" id=\"contact\">\n        <div class=\"container\">\n            <div class=\"row text-center\">\n                <div class=\"col-lg-8 mx-auto\">\n                    <h2 class=\"display-6 fw-bold mb-4\">Get Started Today</h2>\n                    <p class=\"lead mb-4\">Ready to build something amazing? This template is perfect for your next project.</p>\n                    <div class=\"d-f"

/-- Piece 3 of literal segment `tplSeg14`. -/
def tplSeg14p3 : String :=
  "lex gap-3 justify-content-center flex-wrap\">\n                        <a href=\"#\" class=\"btn btn-theme btn-lg\">\n                            <i class=\"bi bi-download me-2\"></i>Download Template\n                        </a>\n                        <a href=\"#\" class=\"btn btn-outline-"

/-- Literal segment of the template, assembled from its pieces. -/
def tplSeg14 : String :=
  tplSeg14p0 ++ tplSeg14p1 ++ tplSeg14p2 ++ tplSeg14p3

/-- Literal segment of the template. -/
def tplSeg15 : String :=
  " btn-lg\">\n                            <i class=\"bi bi-github me-2\"></i>View on GitHub\n                        </a>\n                    </div>\n                </div>\n            </div>\n        </div>\n    </section>"

/-- Piece 0 of literal segment `tplSeg16`. -/
def tplSeg16p0 : String :=
  "\n\n    <!-- Bootstrap JavaScript -->\n    <script src=\"https://cdn.jsdelivr.net/npm/bootstrap@5.3.3/dist/js/bootstrap.bundle.min.js\"></script>\n    \n    <!-- Custom JavaScript -->\n    <script>\n        // Smooth scrolling for anchor links\n        document.querySelectorAll(\x27a[href^=\"#\"]\x27).forEach(anchor => \x7b\n            anchor.addEventListener(\x27click\x27, function (e) \x7b\n                e.preventDefault();"

/-- Piece 1 of literal segment `tplSeg16`. -/
def tplSeg16p1 : String :=
  "\n                const target = document.querySelector(this.getAttribute(\x27href\x27));\n                if (target) \x7b\n                    target.scrollIntoView(\x7b\n                        behavior: \x27smooth\x27,\n                        block: \x27start\x27\n                    \x7d);\n                \x7d\n            \x7d);\n        \x7d);\n        \n        // Navbar scroll effect\n        window.addEventListener(\x27scroll\x27, functio"

/-- Piece 2 of literal segment `tplSeg16`. -/
def tplSeg16p2 : String :=
  "n() \x7b\n            const navbar = document.querySelector(\x27.navbar\x27);\n            if (navbar && window.scrollY > 50) \x7b\n                navbar.style.background = \x27rgba(var(--theme-rgb), 0.95)\x27;\n                navbar.style.backdropFilter = \x27blur(10px)\x27;\n            \x7d else if (navbar) \x7b\n                navbar.style.background = \x27\x27;\n                navbar.style.backdropFilter = \x27\x27;\n            \x7d\n      "

/-- Piece 3 of literal segment `tplSeg16`. -/
def tplSeg16p3 : String :=
  "  \x7d);\n        \n        console.log(\x27✅ "

/-- Literal segment of the template, assembled from its pieces. -/
def tplSeg16 : String :=
  tplSeg16p0 ++ tplSeg16p1 ++ tplSeg16p2 ++ tplSeg16p3

/-- Literal segment of the template. -/
def tplSeg17 : String :=
  " template loaded successfully!\x27);\n    </script>\n</body>\n</html>"

/-- Embeds `handler.generate_bootstrap_template` of
`src/.vscode/api/bootstrap_generator.py`: the colour is resolved through the
`theme_colors` table with `primary` as default, the navigation and footer
blocks are spliced in if and only if their flags are set, and the clock
(`datetime.datetime.now().year`) is the explicit `year` parameter.  The
`.getD ""` arm of the RGB conversion is unreachable: `primary_color` is
always a 6-hex-digit table entry (see `hex_to_rgb_theme_total`). -/
def generate_bootstrap_template (name theme_color : String)
    (include_nav include_footer : Bool) (year : String) : String :=
  let primary_color := themeColorsGet theme_color
  let theme_rgb := (hex_to_rgb primary_color).getD ""
  let nav_html := if include_nav then nav_html_block name theme_color else ""
  let footer_html := if include_footer then footer_html_block name year else ""
  tplSeg0 ++
    name ++
    tplSeg1 ++
    name ++
    tplSeg2 ++
    primary_color ++
    tplSeg3 ++
    theme_rgb ++
    tplSeg4 ++
    nav_html ++
    tplSeg5 ++
    name ++
    tplSeg6 ++
    theme_color ++
    tplSeg7 ++
    theme_color ++
    tplSeg8 ++
    theme_color ++
    tplSeg9 ++
    theme_color ++
    tplSeg10 ++
    theme_color ++
    tplSeg11 ++
    theme_color ++
    tplSeg12 ++
    theme_color ++
    tplSeg13 ++
    theme_color ++
    tplSeg14 ++
    theme_color ++
    tplSeg15 ++
    footer_html ++
    tplSeg16 ++
    name ++
    tplSeg17

/-- Literal segment of the template. -/
def cssSeg0 : String :=
  "/* Custom CSS for Bootstrap Theme */\n\n:root \x7b\n    --theme-primary: "

/-- Literal segment of the template. -/
def cssSeg1 : String :=
  ";\n    --theme-rgb: "

/-- Piece 0 of literal segment `cssSeg2`. -/
def cssSeg2p0 : String :=
  ";\n    --theme-light: rgba(var(--theme-rgb), 0.1);\n    --theme-dark: rgba(var(--theme-rgb), 0.9);\n\x7d\n\n/* Enhanced button styles */\n.btn-theme \x7b\n    background: var(--theme-primary);\n    border-color: var(--theme-primary);\n    color: white;\n    transition: all 0.3s ease;\n\x7d\n\n.btn-theme:hover \x7b\n    background: var(--theme-dark);\n    border-color: var(--theme-dark);\n    color: white;\n    transform: tran"

/-- Piece 1 of literal segment `cssSeg2`. -/
def cssSeg2p1 : String :=
  "slateY(-2px);\n    box-shadow: 0 4px 15px rgba(var(--theme-rgb), 0.3);\n\x7d\n\n/* Card enhancements */\n.card-theme \x7b\n    border-left: 4px solid var(--theme-primary);\n    transition: all 0.3s ease;\n\x7d\n\n.card-theme:hover \x7b\n    transform: translateY(-5px);\n    box-shadow: 0 10px 30px rgba(0,0,0,0.1);\n\x7d\n\n/* Utility classes */\n.text-theme \x7b color: var(--theme-primary) !important; \x7d\n.bg-theme \x7b background-colo"

/-- Piece 2 of literal segment `cssSeg2`. -/
def cssSeg2p2 : String :=
  "r: var(--theme-primary) !important; \x7d\n.border-theme \x7b border-color: var(--theme-primary) !important; \x7d\n\n/* Animation classes */\n.fade-in \x7b\n    animation: fadeIn 0.6s ease-out;\n\x7d\n\n@keyframes fadeIn \x7b\n    from \x7b opacity: 0; transform: translateY(30px); \x7d\n    to \x7b opacity: 1; transform: translateY(0); \x7d\n\x7d\n\n.hover-lift \x7b\n    transition: transform 0.3s ease;\n\x7d\n\n.hover-lift:hover \x7b\n    transform: transl"

/-- Piece 3 of literal segment `cssSeg2`. -/
def cssSeg2p3 : String :=
  "ateY(-3px);\n\x7d\n\n/* Responsive enhancements */\n@media (max-width: 768px) \x7b\n    .display-4 \x7b font-size: 2.5rem; \x7d\n    .section-padding \x7b padding: 2rem 0; \x7d\n\x7d"

/-- Literal segment of the template, assembled from its pieces. -/
def cssSeg2 : String :=
  cssSeg2p0 ++ cssSeg2p1 ++ cssSeg2p2 ++ cssSeg2p3

/-- Embeds `handler.generate_custom_css`: same theme resolution as the main
template, rendered into a standalone stylesheet. -/
def generate_custom_css (theme_color : String) : String :=
  let primary_color := themeColorsGet theme_color
  let theme_rgb := (hex_to_rgb primary_color).getD ""
  cssSeg0 ++
    primary_color ++
    cssSeg1 ++
    theme_rgb ++
    cssSeg2

/-- Embeds `handler.generate_custom_js` (a constant script). -/
def generate_custom_js : String :=
  "// Custom JavaScript for Bootstrap Theme\n\ndocument.addEventListener(\x27DOMContentLoaded\x27, function() \x7b\n    console.log(\x27Theme loaded successfully!\x27);\n    \n    // Initialize animations\n    initializeAnimations();\n    \n    // Initialize smooth scrolling\n    initializeSmoothScrolling();\n    \n    // Initialize navbar effects\n    initializeNavbarEffects();\n\x7d);\n\nfunction initializeAnimations() \x7b\n    // Add fade-in animation to elements when they come into view\n    const observerOptions = \x7b\n        threshold: 0.1,\n        rootMargin: \x270px 0px -50px 0px\x27\n    \x7d;\n    \n    const observer = new IntersectionObserver(function(entries) \x7b\n        entries.forEach(entry => \x7b\n            if (entry.isIntersecting) \x7b\n                entry.target.classList.add(\x27fade-in\x27);\n                observer.unobserve(entry.target);\n            \x7d\n        \x7d);\n    \x7d, observerOptions);\n    \n    // Observe cards and sections\n    document.querySelectorAll(\x27.card, .section-padding\x27).forEach(el => \x7b\n        observer.observe(el);\n    \x7d);\n\x7d\n\nfunction initializeSmoothScrolling() \x7b\n    document.querySelectorAll(\x27a[href^=\"#\"]\x27).forEach(anchor => \x7b\n        anchor.addEventListener(\x27click\x27, function (e) \x7b\n            e.preventDefault();\n            const target = document.querySelector(this.getAttribute(\x27href\x27));\n            if (target) \x7b\n                target.scrollIntoView(\x7b\n                    behavior: \x27smooth\x27,\n                    block: \x27start\x27\n                \x7d);\n            \x7d\n        \x7d);\n    \x7d);\n\x7d\n\nfunction initializeNavbarEffects() \x7b\n    const navbar = document.querySelector(\x27.navbar\x27);\n    if (!navbar) return;\n    \n    window.addEventListener(\x27scroll\x27, function() \x7b\n        if (window.scrollY > 50) \x7b\n            navbar.classList.add(\x27navbar-scrolled\x27);\n        \x7d else \x7b\n            navbar.classList.remove(\x27navbar-scrolled\x27);\n        \x7d\n    \x7d);\n\x7d\n\n// Utility functions\nfunction showToast(message, type = \x27success\x27) \x7b\n    // Create toast notification\n    const toast = document.createElement(\x27div\x27);\n    toast.className = \x60alert alert-$\x7btype\x7d alert-dismissible fade show position-fixed\x60;\n    toast.style.cssText = \x27top: 20px; right: 20px; z-index: 1050; min-width: 300px;\x27;\n    toast.innerHTML = \x60\n        $\x7bmessage\x7d\n        <button type=\"button\" class=\"btn-close\" data-bs-dismiss=\"alert\"></button>\n    \x60;\n    \n    document.body.appendChild(toast);\n    \n    setTimeout(() => \x7b\n        if (toast.parentNode) \x7b\n            toast.remove();\n        \x7d\n    \x7d, 5000);\n\x7d"

/-- Embeds `handler.generate_readme`: `theme_color.title()` is `pyTitle`,
`", ".join(components)` is `String.intercalate`, and
`name.lower().replace(' ', '-')` is `pySlug`. -/
def generate_readme (name theme_color : String) (components : List String) : String :=
  "# " ++
    name ++
    "\n\nA modern Bootstrap template generated with CSS Learning Platform.\n\n## Features\n\n- Bootstrap 5.3.3\n- Responsive design\n- " ++
    (pyTitle theme_color) ++
    " theme\n- Modern components: " ++
    (String.intercalate ", " components) ++
    "\n- Cross-browser compatibility\n\n## Quick Start\n\n1. Open \x60index.html\x60 in your browser\n2. Customize the content in HTML files\n3. Modify styles in \x60css/custom.css\x60\n4. Add functionality in \x60js/custom.js\x60\n\n## File Structure\n\n\x60\x60\x60\n" ++
    (pySlug name) ++
    "/\n├── index.html          # Main page\n├── css/\n│   └── custom.css      # Custom styles\n├── js/\n│   └── custom.js       # Custom JavaScript\n├── components/         # Reusable components\n└── README.md          # This file\n\x60\x60\x60\n\n## Customization\n\n### Colors\nEdit CSS variables in \x60css/custom.css\x60:\n\x60\x60\x60css\n:root \x7b\n    --theme-primary: #your-color;\n\x7d\n\x60\x60\x60\n\n### Components\nIndividual components are in the \x60components/\x60 folder for easy reuse.\n\n## Deployment\n\nUpload all files to your web server or use:\n- Netlify (drag & drop)\n- Vercel (GitHub integration)\n- GitHub Pages\n\n## Support\n\nGenerated with CSS Learning Platform\nVisit: https://css-learning-platform.vercel.app\n\n## License\n\nFree to use and modify for any purpose.\n"

/-- Embeds `handler.generate_navbar_component`: standalone navbar fragment. -/
def generate_navbar_component (theme_color : String) : String :=
  "<!-- Navbar Component -->\n<nav class=\"navbar navbar-expand-lg navbar-dark bg-" ++
    theme_color ++
    "\">\n    <div class=\"container\">\n        <a class=\"navbar-brand\" href=\"#\"><i class=\"bi bi-bootstrap me-2\"></i>Brand</a>\n        \n        <button class=\"navbar-toggler\" type=\"button\" data-bs-toggle=\"collapse\" data-bs-target=\"#navbarNav\">\n            <span class=\"navbar-toggler-icon\"></span>\n        </button>\n        \n        <div class=\"collapse navbar-collapse\" id=\"navbarNav\">\n            <ul class=\"navbar-nav ms-auto\">\n                <li class=\"nav-item\">\n                    <a class=\"nav-link active\" href=\"#home\">Home</a>\n                </li>\n                <li class=\"nav-item\">\n                    <a class=\"nav-link\" href=\"#about\">About</a>\n                </li>\n                <li class=\"nav-item\">\n                    <a class=\"nav-link\" href=\"#services\">Services</a>\n                </li>\n                <li class=\"nav-item\">\n                    <a class=\"nav-link\" href=\"#contact\">Contact</a>\n                </li>\n            </ul>\n        </div>\n    </div>\n</nav>"

/-- Embeds `handler.generate_cards_component`: card components fragment. -/
def generate_cards_component (theme_color : String) : String :=
  "<!-- Card Components -->\n<div class=\"row g-4\">\n    <div class=\"col-md-4\">\n        <div class=\"card card-theme h-100\">\n            <div class=\"card-body\">\n                <div class=\"bg-" ++
    theme_color ++
    " bg-opacity-10 rounded-circle d-inline-flex align-items-center justify-content-center mb-3\" style=\"width: 50px; height: 50px;\">\n                    <i class=\"bi bi-star text-" ++
    theme_color ++
    "\"></i>\n                </div>\n                <h5 class=\"card-title\">Feature One</h5>\n                <p class=\"card-text\">Description of your first feature or service.</p>\n                <a href=\"#\" class=\"btn btn-theme\">Learn More</a>\n            </div>\n        </div>\n    </div>\n    \n    <div class=\"col-md-4\">\n        <div class=\"card card-theme h-100\">\n            <div class=\"card-body\">\n                <div class=\"bg-" ++
    theme_color ++
    " bg-opacity-10 rounded-circle d-inline-flex align-items-center justify-content-center mb-3\" style=\"width: 50px; height: 50px;\">\n                    <i class=\"bi bi-heart text-" ++
    theme_color ++
    "\"></i>\n                </div>\n                <h5 class=\"card-title\">Feature Two</h5>\n                <p class=\"card-text\">Description of your second feature or service.</p>\n                <a href=\"#\" class=\"btn btn-theme\">Learn More</a>\n            </div>\n        </div>\n    </div>\n    \n    <div class=\"col-md-4\">\n        <div class=\"card card-theme h-100\">\n            <div class=\"card-body\">\n                <div class=\"bg-" ++
    theme_color ++
    " bg-opacity-10 rounded-circle d-inline-flex align-items-center justify-content-center mb-3\" style=\"width: 50px; height: 50px;\">\n                    <i class=\"bi bi-rocket text-" ++
    theme_color ++
    "\"></i>\n                </div>\n                <h5 class=\"card-title\">Feature Three</h5>\n                <p class=\"card-text\">Description of your third feature or service.</p>\n                <a href=\"#\" class=\"btn btn-theme\">Learn More</a>\n            </div>\n        </div>\n    </div>\n</div>"

/-- Embeds `handler.generate_buttons_component`: button components fragment. -/
def generate_buttons_component (theme_color : String) : String :=
  "<!-- Button Components -->\n<div class=\"btn-group-demo\">\n    <h5>Primary Buttons</h5>\n    <div class=\"mb-3\">\n        <button type=\"button\" class=\"btn btn-" ++
    theme_color ++
    " me-2\">Primary</button>\n        <button type=\"button\" class=\"btn btn-outline-" ++
    theme_color ++
    " me-2\">Outline</button>\n        <button type=\"button\" class=\"btn btn-theme me-2\">Custom Theme</button>\n    </div>\n    \n    <h5>Button Sizes</h5>\n    <div class=\"mb-3\">\n        <button type=\"button\" class=\"btn btn-" ++
    theme_color ++
    " btn-lg me-2\">Large</button>\n        <button type=\"button\" class=\"btn btn-" ++
    theme_color ++
    " me-2\">Default</button>\n        <button type=\"button\" class=\"btn btn-" ++
    theme_color ++
    " btn-sm me-2\">Small</button>\n    </div>\n    \n    <h5>Icon Buttons</h5>\n    <div class=\"mb-3\">\n        <button type=\"button\" class=\"btn btn-" ++
    theme_color ++
    " me-2\">\n            <i class=\"bi bi-download me-1\"></i>Download\n        </button>\n        <button type=\"button\" class=\"btn btn-outline-" ++
    theme_color ++
    " me-2\">\n            <i class=\"bi bi-share me-1\"></i>Share\n        </button>\n        <button type=\"button\" class=\"btn btn-theme\">\n            <i class=\"bi bi-heart me-1\"></i>Like\n        </button>\n    </div>\n</div>"

/-- Embeds `handler.generate_theme_package`: the archive entries written, in
order — the four base files, then one fragment per requested component
(`'x' in components` is list membership). -/
def generate_theme_package (name theme_color : String) (components : List String)
    (year : String) : List (String × String) :=
  [("index.html", generate_bootstrap_template name theme_color true true year),
   ("css/custom.css", generate_custom_css theme_color),
   ("js/custom.js", generate_custom_js),
   ("README.md", generate_readme name theme_color components)] ++
  (if components.contains "navbar" then
    [("components/navbar.html", generate_navbar_component theme_color)] else []) ++
  (if components.contains "cards" then
    [("components/cards.html", generate_cards_component theme_color)] else []) ++
  (if components.contains "buttons" then
    [("components/buttons.html", generate_buttons_component theme_color)] else [])

/-- Fields of the JSON body of a POST request, each absent when the parsed
object lacks the key (`data.get(k, default)` supplies the default). -/
structure PostBody where
  name : Option String
  theme : Option String
  components : Option (List String)
deriving DecidableEq

/-- Input to `handler.do_POST` as the handler observes it: an empty body
(`Content-Length: 0`, giving `data = {}`), a body `json.loads` raises on
(the exception text is carried), or a parsed JSON object. -/
inductive PostInput where
  | empty
  | invalid (msg : String)
  | objBody (b : PostBody)
deriving DecidableEq

/-- Body of a response of this adapter: a JSON object or a zip archive
(modelled by its entry list; the byte-level zip encoding is the external
`zipfile` library, so the `Content-Length` of the compressed stream is not
modelled). -/
inductive RespBody where
  | json (fields : List (String × JVal))
  | zip (entries : List (String × String))
deriving DecidableEq

/-- Embeds `handler.send_error_response`: HTTP 500, JSON content type, the
permissive CORS header, and the `{'success': False, 'error': ...,
'timestamp': ...}` body. -/
def send_error_response (error_message : String) (clock : Clock) : HResp RespBody :=
  { statusCode := 500,
    headers := [("Content-Type", "application/json"),
                ("Access-Control-Allow-Origin", "*")],
    body := .json [("success", .jbool false), ("error", .str error_message),
                   ("timestamp", .str clock.iso)] }

/-- Embeds the success path of `handler.do_POST` on parsed POST data: the
parameters are read with their defaults and the zip package is returned with
the attachment headers. -/
def handlePostData (b : PostBody) (clock : Clock) : HResp RespBody :=
  let template_name := b.name.getD "Bootstrap Template"
  let theme_color := b.theme.getD "primary"
  let components := b.components.getD ["navbar", "cards", "buttons"]
  { statusCode := 200,
    headers := [("Content-Type", "application/zip"),
                ("Content-Disposition",
                  "attachment; filename=\"" ++ pySlug template_name ++ "-theme.zip\""),
                ("Access-Control-Allow-Origin", "*")],
    body := .zip (generate_theme_package template_name theme_color components clock.year) }

/-- Embeds `handler.do_POST`: a body that fails to parse raises inside the
`try` block and is converted by `send_error_response`; an empty body gives
`data = {}`, so every parameter takes its default. -/
def do_POST (input : PostInput) (clock : Clock) : HResp RespBody :=
  match input with
  | .invalid msg => send_error_response msg clock
  | .empty => handlePostData ⟨none, none, none⟩ clock
  | .objBody b => handlePostData b clock

/-- Query parameters of a GET request as extracted by `handler.do_GET`
(`query_params.get(k, [default])[0]`). -/
structure GetParams where
  name : Option String
  theme : Option String
  nav : Option String
  footer : Option String
deriving DecidableEq

/-- Embeds the flag parsing of `handler.do_GET`:
`value.lower() == 'true'`. -/
def parseFlag (v : Option String) : Bool :=
  (v.getD "true").data.map Char.toLower = "true".data

/-- Embeds the success path of `handler.do_GET`: parameter extraction with
defaults, template generation and the JSON envelope. -/
def do_GET (p : GetParams) (clock : Clock) : HResp RespBody :=
  let template_name := p.name.getD "Bootstrap Template"
  let theme_color := p.theme.getD "primary"
  let include_nav := parseFlag p.nav
  let include_footer := parseFlag p.footer
  { statusCode := 200,
    headers := [("Content-Type", "application/json"),
                ("Access-Control-Allow-Origin", "*"),
                ("Cache-Control", "s-maxage=3600, stale-while-revalidate=86400")],
    body := .json
      [("success", .jbool true),
       ("template", .str (generate_bootstrap_template template_name theme_color
          include_nav include_footer clock.year)),
       ("generated_at", .str clock.iso),
       ("parameters", .leafMap
         [("name", .str template_name), ("theme", .str theme_color),
          ("navigation", .jbool include_nav), ("footer", .jbool include_footer)])] }

end VercelGen

/-! ## `src/api/bootstrap_generator.py` — the CLI generator -/

namespace CliGen

/-- Embeds `self.bootstrap_version` of `BootstrapGenerator.__init__`. -/
def bootstrap_version : String := "5.3.3"

/-- Embeds `self.bootstrap_css`. -/
def bootstrap_css : String :=
  "https://cdn.jsdelivr.net/npm/bootstrap@" ++ bootstrap_version ++
    "/dist/css/bootstrap.min.css"

/-- Embeds `self.bootstrap_js`. -/
def bootstrap_js : String :=
  "https://cdn.jsdelivr.net/npm/bootstrap@" ++ bootstrap_version ++
    "/dist/js/bootstrap.bundle.min.js"

/-- Embeds `self.bootstrap_icons`. -/
def bootstrap_icons_url : String :=
  "https://cdn.jsdelivr.net/npm/bootstrap-icons@1.11.0/font/bootstrap-icons.css"

/-- Embeds the constant `navbar_html` block of
`BootstrapGenerator.create_base_template` (`src/api/bootstrap_generator.py`). -/
def navbar_html_block : String :=
  "\n    <!-- Navigation -->\n    <nav class=\"navbar navbar-expand-lg navbar-dark bg-primary\">\n        <div class=\"container\">\n            <a class=\"navbar-brand\" href=\"#\"><i class=\"bi bi-bootstrap me-2\"></i>My Site</a>\n            \n            <button class=\"navbar-toggler\" type=\"button\" data-bs-toggle=\"collapse\" data-bs-target=\"#navbarNav\">\n                <span class=\"navbar-toggler-icon\"></span>\n            </button>\n            \n            <div class=\"collapse navbar-collapse\" id=\"navbarNav\">\n                <ul class=\"navbar-nav ms-auto\">\n                    <li class=\"nav-item\">\n                        <a class=\"nav-link active\" href=\"#\"><i class=\"bi bi-house me-1\"></i>Home</a>\n                    </li>\n                    <li class=\"nav-item\">\n                        <a class=\"nav-link\" href=\"#\"><i class=\"bi bi-info-circle me-1\"></i>About</a>\n                    </li>\n                    <li class=\"nav-item\">\n                        <a class=\"nav-link\" href=\"#\"><i class=\"bi bi-envelope me-1\"></i>Contact</a>\n                    </li>\n                </ul>\n            </div>\n        </div>\n    </nav>\n"

/-- Embeds the `footer_html` block of
`BootstrapGenerator.create_base_template`; `str(datetime.now().year)` is the
explicit `year` parameter. -/
def cli_footer_html_block (year : String) : String :=
  "\n    <!-- Footer -->\n    <footer class=\"bg-dark text-white py-4 mt-5\">\n        <div class=\"container\">\n            <div class=\"row\">\n                <div class=\"col-md-6\">\n                    <h5><i class=\"bi bi-bootstrap me-2\"></i>My Website</h5>\n                    <p class=\"mb-0\">Built with Bootstrap and modern web technologies.</p>\n                </div>\n                <div class=\"col-md-6 text-md-end\">\n                    <p class=\"mb-0\">&copy; " ++
    year ++
    " All rights reserved.</p>\n                    <div class=\"social-links mt-2\">\n                        <a href=\"#\" class=\"text-white me-3\"><i class=\"bi bi-github\"></i></a>\n                        <a href=\"#\" class=\"text-white me-3\"><i class=\"bi bi-linkedin\"></i></a>\n                        <a href=\"#\" class=\"text-white\"><i class=\"bi bi-twitter\"></i></a>\n                    </div>\n                </div>\n            </div>\n        </div>\n    </footer>\n"

/-- Embeds `BootstrapGenerator.create_base_template`. -/
def create_base_template (title : String) (include_navbar include_footer : Bool)
    (year : String) : String :=
  let navbar_html := if include_navbar then navbar_html_block else ""
  let footer_html := if include_footer then cli_footer_html_block year else ""
  "<!DOCTYPE html>\n<html lang=\"en\">\n<head>\n    <meta charset=\"UTF-8\">\n    <meta name=\"viewport\" content=\"width=device-width, initial-scale=1.0\">\n    <title>" ++
    title ++
    "</title>\n    \n    <!-- Bootstrap CSS -->\n    <link href=\"" ++
    bootstrap_css ++
    "\" rel=\"stylesheet\">\n    <!-- Bootstrap Icons -->\n    <link href=\"" ++
    bootstrap_icons_url ++
    "\" rel=\"stylesheet\">\n    \n    <!-- Custom CSS -->\n    <style>\n        body \x7b\n            min-height: 100vh;\n            display: flex;\n            flex-direction: column;\n        \x7d\n        \n        main \x7b\n            flex: 1;\n        \x7d\n        \n        .hero-section \x7b\n            background: linear-gradient(135deg, #667eea 0%, #764ba2 100%);\n            color: white;\n            padding: 4rem 0;\n        \x7d\n        \n        .feature-card \x7b\n            transition: transform 0.3s ease, box-shadow 0.3s ease;\n            height: 100%;\n        \x7d\n        \n        .feature-card:hover \x7b\n            transform: translateY(-5px);\n            box-shadow: 0 8px 25px rgba(0,0,0,0.15);\n        \x7d\n        \n        .section-padding \x7b\n            padding: 4rem 0;\n        \x7d\n    </style>\n</head>\n<body>" ++
    navbar_html ++
    "\n\n    <!-- Main Content -->\n    <main>\n        <!-- Hero Section -->\n        <section class=\"hero-section\">\n            <div class=\"container\">\n                <div class=\"row align-items-center\">\n                    <div class=\"col-lg-6\">\n                        <h1 class=\"display-4 fw-bold mb-3\">Welcome to " ++
    title ++
    "</h1>\n                        <p class=\"lead mb-4\">This is a Bootstrap template generated with Python tools. Customize it to match your project needs.</p>\n                        <div class=\"d-flex gap-3\">\n                            <a href=\"#features\" class=\"btn btn-light btn-lg\">\n                                <i class=\"bi bi-arrow-down me-2\"></i>Learn More\n                            </a>\n                            <a href=\"#contact\" class=\"btn btn-outline-light btn-lg\">\n                                <i class=\"bi bi-envelope me-2\"></i>Get Started\n                            </a>\n                        </div>\n                    </div>\n                    <div class=\"col-lg-6 text-center\">\n                        <i class=\"bi bi-laptop display-1 opacity-75\"></i>\n                    </div>\n                </div>\n            </div>\n        </section>\n\n        <!-- Features Section -->\n        <section id=\"features\" class=\"section-padding bg-light\">\n            <div class=\"container\">\n                <div class=\"row text-center mb-5\">\n                    <div class=\"col-lg-8 mx-auto\">\n                        <h2 class=\"display-6 fw-bold\">Key Features</h2>\n                        <p class=\"lead text-muted\">Everything you need to build modern, responsive websites.</p>\n                    </div>\n                </div>\n                \n                <div class=\"row g-4\">\n                    <div class=\"col-md-4\">\n                        <div class=\"card feature-card border-0 shadow-sm\">\n                            <div class=\"card-body text-center p-4\">\n                                <div class=\"bg-primary bg-opacity-10 rounded-circle d-inline-flex align-items-center justify-content-center mb-3\" style=\"width: 60px; height: 60px;\">\n                                    <i class=\"bi bi-phone text-primary fs-4\"></i>\n                                </div>\n                                <h5 class=\"card-title\">Responsive Design</h5>\n                                <p class=\"card-text text-muted\">Built with Bootstrap\x27s responsive grid system for all devices.</p>\n                            </div>\n                        </div>\n                    </div>\n                    \n                    <div class=\"col-md-4\">\n                        <div class=\"card feature-card border-0 shadow-sm\">\n                            <div class=\"card-body text-center p-4\">\n                                <div class=\"bg-success bg-opacity-10 rounded-circle d-inline-flex align-items-center justify-content-center mb-3\" style=\"width: 60px; height: 60px;\">\n                                    <i class=\"bi bi-speedometer2 text-success fs-4\"></i>\n                                </div>\n                                <h5 class=\"card-title\">Fast Loading</h5>\n                                <p class=\"card-text text-muted\">Optimized for performance with modern web standards.</p>\n                            </div>\n                        </div>\n                    </div>\n                    \n                    <div class=\"col-md-4\">\n                        <div class=\"card feature-card border-0 shadow-sm\">\n                            <div class=\"card-body text-center p-4\">\n                                <div class=\"bg-info bg-opacity-10 rounded-circle d-inline-flex align-items-center justify-content-center mb-3\" style=\"width: 60px; height: 60px;\">\n                                    <i class=\"bi bi-palette text-info fs-4\"></i>\n                                </div>\n                                <h5 class=\"card-title\">Customizable</h5>\n                                <p class=\"card-text text-muted\">Easy to customize with CSS variables and Bootstrap utilities.</p>\n                            </div>\n                        </div>\n                    </div>\n                </div>\n            </div>\n        </section>\n\n        <!-- Content Section -->\n        <section class=\"section-padding\">\n            <div class=\"container\">\n                <div class=\"row align-items-center\">\n                    <div class=\"col-lg-6\">\n                        <h2 class=\"display-6 fw-bold mb-4\">Ready to Customize</h2>\n                        <p class=\"lead mb-4\">This template includes everything you need to get started quickly:</p>\n                        <ul class=\"list-unstyled\">\n                            <li class=\"mb-2\"><i class=\"bi bi-check-circle text-success me-2\"></i>Bootstrap 5.3.3 integration</li>\n                            <li class=\"mb-2\"><i class=\"bi bi-check-circle text-success me-2\"></i>Responsive navigation with hamburger menu</li>\n                            <li class=\"mb-2\"><i class=\"bi bi-check-circle text-success me-2\"></i>Modern gradient hero section</li>\n                            <li class=\"mb-2\"><i class=\"bi bi-check-circle text-success me-2\"></i>Card-based feature showcase</li>\n                            <li class=\"mb-2\"><i class=\"bi bi-check-circle text-success me-2\"></i>Professional footer with social links</li>\n                            <li class=\"mb-2\"><i class=\"bi bi-check-circle text-success me-2\"></i>Bootstrap Icons integration</li>\n                        </ul>\n                    </div>\n                    <div class=\"col-lg-6\">\n                        <div class=\"bg-light p-4 rounded\">\n                            <h5><i class=\"bi bi-code-slash me-2\"></i>Quick Start</h5>\n                            <pre class=\"bg-dark text-light p-3 rounded\"><code># Generate a new template\npython bootstrap_generator.py create --name \"My Project\"\n\n# Validate HTML\npython bootstrap_generator.py validate index.html\n\n# Open in browser\npython bootstrap_generator.py serve --port 8000</code></pre>\n                        </div>\n                    </div>\n                </div>\n            </div>\n        </section>\n    </main>" ++
    footer_html ++
    "\n\n    <!-- Bootstrap JavaScript -->\n    <script src=\"" ++
    bootstrap_js ++
    "\"></script>\n    \n    <!-- Custom JavaScript -->\n    <script>\n        // Smooth scrolling for anchor links\n        document.querySelectorAll(\x27a[href^=\"#\"]\x27).forEach(anchor => \x7b\n            anchor.addEventListener(\x27click\x27, function (e) \x7b\n                e.preventDefault();\n                const target = document.querySelector(this.getAttribute(\x27href\x27));\n                if (target) \x7b\n                    target.scrollIntoView(\x7b\n                        behavior: \x27smooth\x27\n                    \x7d);\n                \x7d\n            \x7d);\n        \x7d);\n        \n        // Navbar scroll effect\n        window.addEventListener(\x27scroll\x27, function() \x7b\n            const navbar = document.querySelector(\x27.navbar\x27);\n            if (navbar) \x7b\n                if (window.scrollY > 50) \x7b\n                    navbar.classList.add(\x27navbar-scrolled\x27);\n                \x7d else \x7b\n                    navbar.classList.remove(\x27navbar-scrolled\x27);\n                \x7d\n            \x7d\n        \x7d);\n        \n        console.log(\x27Bootstrap template loaded successfully!\x27);\n    </script>\n</body>\n</html>"

/-- Embeds the `cards` entry of `BootstrapGenerator.create_component_library`. -/
def component_cards : String :=
  "\n<!-- Card Examples -->\n<div class=\"row g-4 mb-5\">\n    <div class=\"col-md-6 col-lg-4\">\n        <div class=\"card h-100\">\n            <img src=\"https://via.placeholder.com/400x200\" class=\"card-img-top\" alt=\"Placeholder\">\n            <div class=\"card-body\">\n                <h5 class=\"card-title\">Image Card</h5>\n                <p class=\"card-text\">Card with image, title, text, and button.</p>\n                <a href=\"#\" class=\"btn btn-primary\">Learn More</a>\n            </div>\n        </div>\n    </div>\n    \n    <div class=\"col-md-6 col-lg-4\">\n        <div class=\"card h-100\">\n            <div class=\"card-header bg-success text-white\">\n                <i class=\"bi bi-star me-2\"></i>Featured\n            </div>\n            <div class=\"card-body\">\n                <h5 class=\"card-title\">Header Card</h5>\n                <p class=\"card-text\">Card with header and footer sections.</p>\n            </div>\n            <div class=\"card-footer text-muted\">\n                Last updated 3 mins ago\n            </div>\n        </div>\n    </div>\n    \n    <div class=\"col-md-6 col-lg-4\">\n        <div class=\"card h-100 border-primary\">\n            <div class=\"card-body text-center\">\n                <i class=\"bi bi-heart display-4 text-danger mb-3\"></i>\n                <h5 class=\"card-title\">Icon Card</h5>\n                <p class=\"card-text\">Card with centered icon and content.</p>\n                <a href=\"#\" class=\"btn btn-outline-primary\">Action</a>\n            </div>\n        </div>\n    </div>\n</div>\n            "

/-- Embeds the `alerts` entry of `BootstrapGenerator.create_component_library`. -/
def component_alerts : String :=
  "\n<!-- Alert Examples -->\n<div class=\"row g-3 mb-5\">\n    <div class=\"col-12\">\n        <div class=\"alert alert-primary d-flex align-items-center\" role=\"alert\">\n            <i class=\"bi bi-info-circle me-2\"></i>\n            <div>A simple primary alert with an icon—check it out!</div>\n        </div>\n    </div>\n    <div class=\"col-12\">\n        <div class=\"alert alert-success alert-dismissible fade show\" role=\"alert\">\n            <i class=\"bi bi-check-circle me-2\"></i>\n            <strong>Well done!</strong> You successfully read this important alert message.\n            <button type=\"button\" class=\"btn-close\" data-bs-dismiss=\"alert\"></button>\n        </div>\n    </div>\n    <div class=\"col-12\">\n        <div class=\"alert alert-warning d-flex align-items-center\" role=\"alert\">\n            <i class=\"bi bi-exclamation-triangle me-2\"></i>\n            <div>\n                <h4 class=\"alert-heading\">Warning!</h4>\n                This is a warning alert with additional content and a <a href=\"#\" class=\"alert-link\">link</a>.\n            </div>\n        </div>\n    </div>\n</div>\n            "

/-- Embeds the `buttons` entry of `BootstrapGenerator.create_component_library`. -/
def component_buttons : String :=
  "\n<!-- Button Examples -->\n<div class=\"mb-5\">\n    <h3>Button Styles</h3>\n    <div class=\"mb-3\">\n        <button type=\"button\" class=\"btn btn-primary me-2\">Primary</button>\n        <button type=\"button\" class=\"btn btn-secondary me-2\">Secondary</button>\n        <button type=\"button\" class=\"btn btn-success me-2\">Success</button>\n        <button type=\"button\" class=\"btn btn-danger me-2\">Danger</button>\n        <button type=\"button\" class=\"btn btn-warning me-2\">Warning</button>\n        <button type=\"button\" class=\"btn btn-info me-2\">Info</button>\n    </div>\n    \n    <h4>Outline Buttons</h4>\n    <div class=\"mb-3\">\n        <button type=\"button\" class=\"btn btn-outline-primary me-2\">Primary</button>\n        <button type=\"button\" class=\"btn btn-outline-secondary me-2\">Secondary</button>\n        <button type=\"button\" class=\"btn btn-outline-success me-2\">Success</button>\n    </div>\n    \n    <h4>Button Sizes</h4>\n    <div class=\"mb-3\">\n        <button type=\"button\" class=\"btn btn-primary btn-lg me-2\">Large</button>\n        <button type=\"button\" class=\"btn btn-primary me-2\">Default</button>\n        <button type=\"button\" class=\"btn btn-primary btn-sm\">Small</button>\n    </div>\n    \n    <h4>Icon Buttons</h4>\n    <div class=\"mb-3\">\n        <button type=\"button\" class=\"btn btn-success me-2\">\n            <i class=\"bi bi-download me-1\"></i>Download\n        </button>\n        <button type=\"button\" class=\"btn btn-info me-2\">\n            <i class=\"bi bi-share me-1\"></i>Share\n        </button>\n        <button type=\"button\" class=\"btn btn-warning\">\n            <i class=\"bi bi-star me-1\"></i>Favorite\n        </button>\n    </div>\n</div>\n            "

/-- Embeds the `forms` entry of `BootstrapGenerator.create_component_library`. -/
def component_forms : String :=
  "\n<!-- Form Examples -->\n<div class=\"row g-4 mb-5\">\n    <div class=\"col-md-6\">\n        <h3>Contact Form</h3>\n        <form>\n            <div class=\"mb-3\">\n                <label for=\"name\" class=\"form-label\">Full Name</label>\n                <input type=\"text\" class=\"form-control\" id=\"name\" required>\n            </div>\n            <div class=\"mb-3\">\n                <label for=\"email\" class=\"form-label\">Email address</label>\n                <input type=\"email\" class=\"form-control\" id=\"email\" required>\n            </div>\n            <div class=\"mb-3\">\n                <label for=\"subject\" class=\"form-label\">Subject</label>\n                <select class=\"form-select\" id=\"subject\">\n                    <option selected>Choose...</option>\n                    <option value=\"1\">General Inquiry</option>\n                    <option value=\"2\">Support</option>\n                    <option value=\"3\">Feedback</option>\n                </select>\n            </div>\n            <div class=\"mb-3\">\n                <label for=\"message\" class=\"form-label\">Message</label>\n                <textarea class=\"form-control\" id=\"message\" rows=\"4\"></textarea>\n            </div>\n            <div class=\"mb-3 form-check\">\n                <input type=\"checkbox\" class=\"form-check-input\" id=\"newsletter\">\n                <label class=\"form-check-label\" for=\"newsletter\">\n                    Subscribe to newsletter\n                </label>\n            </div>\n            <button type=\"submit\" class=\"btn btn-primary\">\n                <i class=\"bi bi-send me-1\"></i>Send Message\n            </button>\n        </form>\n    </div>\n    \n    <div class=\"col-md-6\">\n        <h3>Input Groups</h3>\n        <div class=\"mb-3\">\n            <label for=\"username\" class=\"form-label\">Username</label>\n            <div class=\"input-group\">\n                <span class=\"input-group-text\">@</span>\n                <input type=\"text\" class=\"form-control\" id=\"username\" placeholder=\"Username\">\n            </div>\n        </div>\n        \n        <div class=\"mb-3\">\n            <label for=\"website\" class=\"form-label\">Website</label>\n            <div class=\"input-group\">\n                <span class=\"input-group-text\">https://</span>\n                <input type=\"text\" class=\"form-control\" id=\"website\" placeholder=\"example.com\">\n            </div>\n        </div>\n        \n        <div class=\"mb-3\">\n            <label for=\"price\" class=\"form-label\">Price</label>\n            <div class=\"input-group\">\n                <span class=\"input-group-text\">$</span>\n                <input type=\"number\" class=\"form-control\" id=\"price\" placeholder=\"0.00\">\n                <span class=\"input-group-text\">.00</span>\n            </div>\n        </div>\n        \n        <div class=\"mb-3\">\n            <label for=\"search\" class=\"form-label\">Search</label>\n            <div class=\"input-group\">\n                <input type=\"text\" class=\"form-control\" id=\"search\" placeholder=\"Search...\">\n                <button class=\"btn btn-outline-secondary\" type=\"button\">\n                    <i class=\"bi bi-search\"></i>\n                </button>\n            </div>\n        </div>\n    </div>\n</div>\n            "

/-- Embeds `BootstrapGenerator.create_component_library`: the dictionary of
component fragments, as an association list in insertion order. -/
def create_component_library : List (String × String) :=
  [("cards", component_cards), ("alerts", component_alerts), ("buttons", component_buttons), ("forms", component_forms)]

/-- Embeds the `component_html` insert of `BootstrapGenerator.create_project`
(the `component-library` branch). -/
def cli_component_html : String :=
  "\n        <!-- Component Library -->\n        <section class=\"section-padding\">\n            <div class=\"container\">\n                <h2 class=\"display-6 fw-bold text-center mb-5\">Component Library</h2>\n                \n                <h3>Cards</h3>\n                " ++
    component_cards ++
    "\n                \n                <h3>Alerts</h3>\n                " ++
    component_alerts ++
    "\n                \n                <h3>Buttons</h3>\n                " ++
    component_buttons ++
    "\n                \n                <h3>Forms</h3>\n                " ++
    component_forms ++
    "\n            </div>\n        </section>\n            "

/-- Embeds the constant `css_content` written by
`BootstrapGenerator.create_project`. -/
def cli_css_content : String :=
  "/* Custom CSS for your project */\n\n/* Custom color variables */\n:root \x7b\n    --primary-color: #667eea;\n    --secondary-color: #764ba2;\n    --success-color: #28a745;\n    --danger-color: #dc3545;\n    --warning-color: #ffc107;\n    --info-color: #17a2b8;\n    --light-color: #f8f9fa;\n    --dark-color: #343a40;\n\x7d\n\n/* Custom animations */\n.fade-in \x7b\n    animation: fadeIn 0.5s ease-in;\n\x7d\n\n@keyframes fadeIn \x7b\n    from \x7b opacity: 0; transform: translateY(20px); \x7d\n    to \x7b opacity: 1; transform: translateY(0); \x7d\n\x7d\n\n.hover-lift \x7b\n    transition: transform 0.3s ease, box-shadow 0.3s ease;\n\x7d\n\n.hover-lift:hover \x7b\n    transform: translateY(-5px);\n    box-shadow: 0 8px 25px rgba(0,0,0,0.15);\n\x7d\n\n/* Navbar scroll effect */\n.navbar-scrolled \x7b\n    background-color: rgba(52, 58, 64, 0.95) !important;\n    backdrop-filter: blur(10px);\n\x7d\n\n/* Custom button styles */\n.btn-gradient \x7b\n    background: linear-gradient(135deg, var(--primary-color), var(--secondary-color));\n    border: none;\n    color: white;\n\x7d\n\n.btn-gradient:hover \x7b\n    background: linear-gradient(135deg, var(--secondary-color), var(--primary-color));\n    color: white;\n\x7d\n\n/* Utility classes */\n.text-gradient \x7b\n    background: linear-gradient(135deg, var(--primary-color), var(--secondary-color));\n    -webkit-background-clip: text;\n    -webkit-text-fill-color: transparent;\n    background-clip: text;\n\x7d\n\n.section-padding \x7b\n    padding: 4rem 0;\n\x7d\n\n/* Responsive adjustments */\n@media (max-width: 768px) \x7b\n    .display-4 \x7b\n        font-size: 2.5rem;\n    \x7d\n    \n    .section-padding \x7b\n        padding: 2rem 0;\n    \x7d\n\x7d\n"

/-- Embeds the constant `js_content` written by
`BootstrapGenerator.create_project`. -/
def cli_js_content : String :=
  "// Custom JavaScript for your project\n\n// DOM Ready function\ndocument.addEventListener(\x27DOMContentLoaded\x27, function() \x7b\n    console.log(\x27Project loaded successfully!\x27);\n    \n    // Initialize animations\n    initializeAnimations();\n    \n    // Initialize navbar scroll effect\n    initializeNavbarScroll();\n    \n    // Initialize form validation\n    initializeFormValidation();\n\x7d);\n\n// Animation initialization\nfunction initializeAnimations() \x7b\n    // Add fade-in animation to elements when they come into view\n    const observerOptions = \x7b\n        threshold: 0.1,\n        rootMargin: \x270px 0px -50px 0px\x27\n    \x7d;\n    \n    const observer = new IntersectionObserver(function(entries) \x7b\n        entries.forEach(entry => \x7b\n            if (entry.isIntersecting) \x7b\n                entry.target.classList.add(\x27fade-in\x27);\n                observer.unobserve(entry.target);\n            \x7d\n        \x7d);\n    \x7d, observerOptions);\n    \n    // Observe all cards and feature elements\n    document.querySelectorAll(\x27.card, .feature-card, .alert\x27).forEach(el => \x7b\n        observer.observe(el);\n    \x7d);\n\x7d\n\n// Navbar scroll effect\nfunction initializeNavbarScroll() \x7b\n    const navbar = document.querySelector(\x27.navbar\x27);\n    if (!navbar) return;\n    \n    window.addEventListener(\x27scroll\x27, function() \x7b\n        if (window.scrollY > 50) \x7b\n            navbar.classList.add(\x27navbar-scrolled\x27);\n        \x7d else \x7b\n            navbar.classList.remove(\x27navbar-scrolled\x27);\n        \x7d\n    \x7d);\n\x7d\n\n// Form validation\nfunction initializeFormValidation() \x7b\n    const forms = document.querySelectorAll(\x27form\x27);\n    \n    forms.forEach(form => \x7b\n        form.addEventListener(\x27submit\x27, function(event) \x7b\n            if (!form.checkValidity()) \x7b\n                event.preventDefault();\n                event.stopPropagation();\n            \x7d else \x7b\n                // Show success message\n                showNotification(\x27Form submitted successfully!\x27, \x27success\x27);\n            \x7d\n            \n            form.classList.add(\x27was-validated\x27);\n        \x7d);\n    \x7d);\n\x7d\n\n// Utility function to show notifications\nfunction showNotification(message, type = \x27info\x27) \x7b\n    const alertDiv = document.createElement(\x27div\x27);\n    alertDiv.className = \x60alert alert-$\x7btype\x7d alert-dismissible fade show position-fixed\x60;\n    alertDiv.style.cssText = \x27top: 20px; right: 20px; z-index: 1050; min-width: 300px;\x27;\n    \n    alertDiv.innerHTML = \x60\n        $\x7bmessage\x7d\n        <button type=\"button\" class=\"btn-close\" data-bs-dismiss=\"alert\"></button>\n    \x60;\n    \n    document.body.appendChild(alertDiv);\n    \n    // Auto remove after 5 seconds\n    setTimeout(() => \x7b\n        if (alertDiv.parentNode) \x7b\n            alertDiv.remove();\n        \x7d\n    \x7d, 5000);\n\x7d\n\n// Smooth scrolling for anchor links\ndocument.querySelectorAll(\x27a[href^=\"#\"]\x27).forEach(anchor => \x7b\n    anchor.addEventListener(\x27click\x27, function (e) \x7b\n        e.preventDefault();\n        const target = document.querySelector(this.getAttribute(\x27href\x27));\n        if (target) \x7b\n            target.scrollIntoView(\x7b\n                behavior: \x27smooth\x27,\n                block: \x27start\x27\n            \x7d);\n        \x7d\n    \x7d);\n\x7d);\n\n// Copy to clipboard function\nfunction copyToClipboard(text) \x7b\n    navigator.clipboard.writeText(text).then(function() \x7b\n        showNotification(\x27Copied to clipboard!\x27, \x27success\x27);\n    \x7d).catch(function(err) \x7b\n        showNotification(\x27Failed to copy to clipboard\x27, \x27danger\x27);\n    \x7d);\n\x7d\n"

/-- Embeds the `readme_content` written by
`BootstrapGenerator.create_project`. -/
def cli_readme_content (name : String) : String :=
  "# " ++
    name ++
    "\n\nA Bootstrap 5 project generated with Python tools.\n\n## Project Structure\n\n\x60\x60\x60\n" ++
    (pySlug name) ++
    "/\n├── index.html          # Main HTML file\n├── css/\n│   └── custom.css      # Custom styles\n├── js/\n│   └── custom.js       # Custom JavaScript\n├── images/             # Image assets\n└── README.md           # This file\n\x60\x60\x60\n\n## Features\n\n- **Bootstrap 5.3.3** - Latest version with all components\n- **Responsive Design** - Mobile-first approach\n- **Modern Components** - Cards, alerts, forms, navigation\n- **Custom Animations** - Fade-in effects and hover animations\n- **Icon Support** - Bootstrap Icons included\n- **Form Validation** - Client-side validation with feedback\n- **Accessibility** - ARIA labels and semantic HTML\n\n## Getting Started\n\n1. Open \x60index.html\x60 in your web browser\n2. Customize the content in the HTML file\n3. Modify styles in \x60css/custom.css\x60\n4. Add functionality in \x60js/custom.js\x60\n\n## Development\n\nTo serve the project locally with Python:\n\n\x60\x60\x60bash\n# Python 3\npython -m http.server 8000\n\n# Then open http://localhost:8000\n\x60\x60\x60\n\n## Customization\n\n### Colors\n\nEdit the CSS variables in \x60css/custom.css\x60:\n\n\x60\x60\x60css\n:root \x7b\n    --primary-color: #your-color;\n    --secondary-color: #your-color;\n\x7d\n\x60\x60\x60\n\n### Components\n\nAdd Bootstrap components by copying from the official documentation:\nhttps://getbootstrap.com/docs/5.3/components/\n\n### JavaScript\n\nAdd custom functionality in \x60js/custom.js\x60. The file includes:\n- Animation initialization\n- Form validation\n- Smooth scrolling\n- Notification system\n\n## Resources\n\n- [Bootstrap Documentation](https://getbootstrap.com/docs/5.3/)\n- [Bootstrap Icons](https://icons.getbootstrap.com/)\n- [MDN Web Docs](https://developer.mozilla.org/)\n\n## License\n\nThis project template is free to use and modify.\n"

/-- File system of this CLI: text files. -/
abbrev TFS := FileSys String

/-- Embeds `BootstrapGenerator.create_project`: the project directory
`generated/<slug>` and its subdirectories are created with `exist_ok=True`
(never failing when they already exist), and `index.html`,
`css/custom.css`, `js/custom.js` and `README.md` are written with `open(_,
'w')`, overwriting whatever was there.  Returns the new file system and the
project directory path (the function's return value). -/
def create_project (fs : TFS) (name : String) (template_type : String)
    (year : String) : TFS × String :=
  let project_dir := "generated/" ++ pySlug name
  let fs := fs.mkdirExistOk project_dir
  let fs := fs.mkdirExistOk (project_dir ++ "/css")
  let fs := fs.mkdirExistOk (project_dir ++ "/js")
  let fs := fs.mkdirExistOk (project_dir ++ "/images")
  let html_content :=
    if template_type = "component-library" then
      (create_base_template name true true year).replace "    </main>"
        ("        " ++ cli_component_html ++ "\n    </main>")
    else create_base_template name true true year
  let fs := fs.write (project_dir ++ "/index.html") html_content
  let fs := fs.write (project_dir ++ "/css/custom.css") cli_css_content
  let fs := fs.write (project_dir ++ "/js/custom.js") cli_js_content
  let fs := fs.write (project_dir ++ "/README.md") (cli_readme_content name)
  (fs, project_dir)

end CliGen

/-! ## `src/api/project_manager.py` — the serverless project manager -/

namespace PMApi

/-- Embeds `self.version` of `ProjectManager.__init__`. -/
def version : String := "1.0.0"

/-- Embeds `self.bootstrap_version`. -/
def bootstrap_version : String := "5.3.3"

/-- Project configuration as built by `ProjectManager.create_project_config`:
the dictionary has this fixed key set, embedded as a structure whose field
order is the dictionary's insertion order. -/
structure Config where
  name : String
  version : String
  description : String
  author : String
  bootstrap_version : String
  bootstrap_icons : Bool
  custom_css : Bool
  custom_js : Bool
  live_reload : Bool
  minify_assets : Bool
  deployment_type : String
  build_dir : String
  components : List String
  dependencies : List String
  created : String
deriving DecidableEq, Repr

/-- Keyword options of `create_project_config` (`options.get(k, default)`:
`none` means the keyword was not passed). -/
structure Options where
  description : Option String
  author : Option String
  bootstrap_icons : Option Bool
  custom_css : Option Bool
  custom_js : Option Bool
  live_reload : Option Bool
  minify_assets : Option Bool
  components : Option (List String)
  dependencies : Option (List String)
deriving DecidableEq

/-- Embeds `ProjectManager.create_project_config`;
`datetime.now().isoformat()` is the explicit `createdIso` parameter. -/
def create_project_config (name : String) (options : Options)
    (createdIso : String) : Config :=
  { name := name,
    version := "1.0.0",
    description := options.description.getD ("Bootstrap project: " ++ name),
    author := options.author.getD "",
    bootstrap_version := bootstrap_version,
    bootstrap_icons := options.bootstrap_icons.getD true,
    custom_css := options.custom_css.getD true,
    custom_js := options.custom_js.getD true,
    live_reload := options.live_reload.getD true,
    minify_assets := options.minify_assets.getD false,
    deployment_type := "static",
    build_dir := "dist",
    components := options.components.getD [],
    dependencies := options.dependencies.getD [],
    created := createdIso }

/-- Embeds `json.dumps(config, indent=2)` for the configuration dictionary,
key by key in its insertion order. -/
def jsonDumpsConfig (config : Config) : String :=
  "\x7b\n  \"name\": " ++ jsonStr config.name ++
  ",\n  \"version\": " ++ jsonStr config.version ++
  ",\n  \"description\": " ++ jsonStr config.description ++
  ",\n  \"author\": " ++ jsonStr config.author ++
  ",\n  \"bootstrap_version\": " ++ jsonStr config.bootstrap_version ++
  ",\n  \"bootstrap_icons\": " ++ jsonBool config.bootstrap_icons ++
  ",\n  \"custom_css\": " ++ jsonBool config.custom_css ++
  ",\n  \"custom_js\": " ++ jsonBool config.custom_js ++
  ",\n  \"live_reload\": " ++ jsonBool config.live_reload ++
  ",\n  \"minify_assets\": " ++ jsonBool config.minify_assets ++
  ",\n  \"deployment\": \x7b\n    \"type\": " ++ jsonStr config.deployment_type ++
  ",\n    \"build_dir\": " ++ jsonStr config.build_dir ++
  "\n  \x7d,\n  \"components\": " ++ jsonStrListL1 config.components ++
  ",\n  \"dependencies\": " ++ jsonStrListL1 config.dependencies ++
  ",\n  \"created\": " ++ jsonStr config.created ++ "\n\x7d"

/-- Embeds the `.bootstrap-config.json` content written by
`create_project_structure` (`json.dumps(_, indent=2)` of four string
fields; `last_modified` is `datetime.now().isoformat()`). -/
def bootstrapConfigJson (config : Config) (clock : Clock) : String :=
  "\x7b\n  \"generator_version\": " ++ jsonStr version ++
  ",\n  \"bootstrap_version\": " ++ jsonStr config.bootstrap_version ++
  ",\n  \"created\": " ++ jsonStr config.created ++
  ",\n  \"last_modified\": " ++ jsonStr clock.iso ++ "\n\x7d"

/-- Embeds the `bootstrap_icons_link` block of `ProjectManager.generate_advanced_template`
(`src/api/project_manager.py`), spliced in when `config['bootstrap_icons']` is set. -/
def bootstrap_icons_link_block : String :=
  "\n    <link href=\"https://cdn.jsdelivr.net/npm/bootstrap-icons@1.11.0/font/bootstrap-icons.css\" rel=\"stylesheet\">"

/-- Embeds the `custom_css_link` block of `ProjectManager.generate_advanced_template`
(`src/api/project_manager.py`), spliced in when `config['custom_css']` is set. -/
def custom_css_link_block : String :=
  "\n    <link href=\"css/style.css\" rel=\"stylesheet\">"

/-- Embeds the `custom_js_script` block of `ProjectManager.generate_advanced_template`
(`src/api/project_manager.py`), spliced in when `config['custom_js']` is set. -/
def custom_js_script_block : String :=
  "\n    <script src=\"js/script.js\"></script>"

/-- Embeds the `live_reload_script` block of `ProjectManager.generate_advanced_template`
(`src/api/project_manager.py`), spliced in when `config['live_reload']` is set. -/
def live_reload_script_block : String :=
  "\n    <script>\n        // Live reload functionality (development only)\n        (function() \x7b\n            if (location.hostname === \x27localhost\x27 || location.hostname === \x27127.0.0.1\x27) \x7b\n                let lastCheck = Date.now();\n                setInterval(() => \x7b\n                    fetch(\x27/api/project_manager?action=check_reload&last=\x27 + lastCheck)\n                        .then(r => r.json())\n                        .then(data => \x7b\n                            if (data.reload) \x7b\n                                location.reload();\n                            \x7d\n                            lastCheck = Date.now();\n                        \x7d)\n                        .catch(() => \x7b\x7d); // Ignore errors in production\n                \x7d, 1000);\n            \x7d\n        \x7d)();\n    </script>"

/-- Embeds `ProjectManager.generate_advanced_template`.  The wall clock
(`datetime.now()`) is the explicit `clock` parameter, and the inline
`json.dumps(config, indent=2)` is `jsonDumpsConfig`. -/
def generate_advanced_template (config : Config) (clock : Clock) : String :=
  let bootstrap_icons_link := if config.bootstrap_icons then bootstrap_icons_link_block else ""
  let custom_css_link := if config.custom_css then custom_css_link_block else ""
  let custom_js_script := if config.custom_js then custom_js_script_block else ""
  let live_reload_script := if config.live_reload then live_reload_script_block else ""
  "<!DOCTYPE html>\n<html lang=\"en\">\n<head>\n    <meta charset=\"UTF-8\">\n    <meta name=\"viewport\" content=\"width=device-width, initial-scale=1.0\">\n    <meta name=\"description\" content=\"" ++
    config.description ++
    "\">\n    <meta name=\"author\" content=\"" ++
    config.author ++
    "\">\n    <title>" ++
    config.name ++
    "</title>\n    \n    <!-- Bootstrap CSS -->\n    <link href=\"https://cdn.jsdelivr.net/npm/bootstrap@" ++
    config.bootstrap_version ++
    "/dist/css/bootstrap.min.css\" rel=\"stylesheet\">" ++
    bootstrap_icons_link ++
    custom_css_link ++
    "\n</head>\n<body>\n    <!-- Navigation -->\n    <nav class=\"navbar navbar-expand-lg navbar-dark bg-primary sticky-top\">\n        <div class=\"container\">\n            <a class=\"navbar-brand fw-bold\" href=\"#\">\n                <i class=\"bi bi-rocket-takeoff me-2\"></i>" ++
    config.name ++
    "\n            </a>\n            \n            <button class=\"navbar-toggler\" type=\"button\" data-bs-toggle=\"collapse\" data-bs-target=\"#navbarNav\">\n                <span class=\"navbar-toggler-icon\"></span>\n            </button>\n            \n            <div class=\"collapse navbar-collapse\" id=\"navbarNav\">\n                <ul class=\"navbar-nav ms-auto\">\n                    <li class=\"nav-item\">\n                        <a class=\"nav-link active\" href=\"#home\">\n                            <i class=\"bi bi-house me-1\"></i>Home\n                        </a>\n                    </li>\n                    <li class=\"nav-item\">\n                        <a class=\"nav-link\" href=\"#features\">\n                            <i class=\"bi bi-star me-1\"></i>Features\n                        </a>\n                    </li>\n                    <li class=\"nav-item\">\n                        <a class=\"nav-link\" href=\"#contact\">\n                            <i class=\"bi bi-envelope me-1\"></i>Contact\n                        </a>\n                    </li>\n                    <li class=\"nav-item\">\n                        <a class=\"nav-link\" href=\"#\" data-bs-toggle=\"modal\" data-bs-target=\"#aboutModal\">\n                            <i class=\"bi bi-info-circle me-1\"></i>About\n                        </a>\n                    </li>\n                </ul>\n            </div>\n        </div>\n    </nav>\n\n    <!-- Hero Section -->\n    <section id=\"home\" class=\"bg-gradient-primary text-white py-5\">\n        <div class=\"container\">\n            <div class=\"row align-items-center min-vh-50\">\n                <div class=\"col-lg-6\">\n                    <h1 class=\"display-3 fw-bold mb-4 animate-on-scroll\">\n                        Welcome to " ++
    config.name ++
    "\n                    </h1>\n                    <p class=\"lead mb-4 animate-on-scroll\">\n                        " ++
    config.description ++
    " Built with Bootstrap " ++
    config.bootstrap_version ++
    " and modern web technologies.\n                    </p>\n                    <div class=\"d-flex flex-wrap gap-3 animate-on-scroll\">\n                        <a href=\"#features\" class=\"btn btn-light btn-lg\">\n                            <i class=\"bi bi-arrow-down me-2\"></i>Explore Features\n                        </a>\n                        <a href=\"#contact\" class=\"btn btn-outline-light btn-lg\">\n                            <i class=\"bi bi-envelope me-2\"></i>Get Started\n                        </a>\n                    </div>\n                </div>\n                <div class=\"col-lg-6 text-center\">\n                    <div class=\"position-relative\">\n                        <i class=\"bi bi-laptop display-1 opacity-75 pulse\"></i>\n                        <div class=\"position-absolute top-50 start-50 translate-middle\">\n                            <i class=\"bi bi-code-slash fs-1 text-warning\"></i>\n                        </div>\n                    </div>\n                </div>\n            </div>\n        </div>\n    </section>\n\n    <!-- Features Section -->\n    <section id=\"features\" class=\"py-5 bg-light\">\n        <div class=\"container\">\n            <div class=\"text-center mb-5\">\n                <h2 class=\"display-5 fw-bold animate-on-scroll\">Project Features</h2>\n                <p class=\"lead text-muted animate-on-scroll\">Everything you need for modern web development</p>\n            </div>\n            \n            <div class=\"row g-4\">\n                <div class=\"col-md-6 col-lg-3\">\n                    <div class=\"card card-custom h-100 text-center animate-on-scroll\">\n                        <div class=\"card-body\">\n                            <div class=\"bg-primary bg-opacity-10 rounded-circle d-inline-flex align-items-center justify-content-center mb-3\" style=\"width: 60px; height: 60px;\">\n                                <i class=\"bi bi-phone text-primary fs-4\"></i>\n                            </div>\n                            <h5 class=\"card-title\">Responsive</h5>\n                            <p class=\"card-text\">Mobile-first responsive design that works on all devices.</p>\n                        </div>\n                    </div>\n                </div>\n                \n                <div class=\"col-md-6 col-lg-3\">\n                    <div class=\"card card-custom h-100 text-center animate-on-scroll\">\n                        <div class=\"card-body\">\n                            <div class=\"bg-success bg-opacity-10 rounded-circle d-inline-flex align-items-center justify-content-center mb-3\" style=\"width: 60px; height: 60px;\">\n                                <i class=\"bi bi-speedometer2 text-success fs-4\"></i>\n                            </div>\n                            <h5 class=\"card-title\">Fast</h5>\n                            <p class=\"card-text\">Optimized for performance with modern web standards.</p>\n                        </div>\n                    </div>\n                </div>\n                \n                <div class=\"col-md-6 col-lg-3\">\n                    <div class=\"card card-custom h-100 text-center animate-on-scroll\">\n                        <div class=\"card-body\">\n                            <div class=\"bg-info bg-opacity-10 rounded-circle d-inline-flex align-items-center justify-content-center mb-3\" style=\"width: 60px; height: 60px;\">\n                                <i class=\"bi bi-palette text-info fs-4\"></i>\n                            </div>\n                            <h5 class=\"card-title\">Customizable</h5>\n                            <p class=\"card-text\">Easy to customize with CSS variables and components.</p>\n                        </div>\n                    </div>\n                </div>\n                \n                <div class=\"col-md-6 col-lg-3\">\n                    <div class=\"card card-custom h-100 text-center animate-on-scroll\">\n                        <div class=\"card-body\">\n                            <div class=\"bg-warning bg-opacity-10 rounded-circle d-inline-flex align-items-center justify-content-center mb-3\" style=\"width: 60px; height: 60px;\">\n                                <i class=\"bi bi-shield-check text-warning fs-4\"></i>\n                            </div>\n                            <h5 class=\"card-title\">Secure</h5>\n                            <p class=\"card-text\">Built with security best practices and modern standards.</p>\n                        </div>\n                    </div>\n                </div>\n            </div>\n            \n            <!-- Technology Stack -->\n            <div class=\"row mt-5\">\n                <div class=\"col-12\">\n                    <div class=\"card card-custom animate-on-scroll\">\n                        <div class=\"card-header\">\n                            <h5 class=\"mb-0\"><i class=\"bi bi-stack me-2\"></i>Technology Stack</h5>\n                        </div>\n                        <div class=\"card-body\">\n                            <div class=\"row text-center\">\n                                <div class=\"col-6 col-md-3 mb-3\">\n                                    <div class=\"p-3\">\n                                        <i class=\"bi bi-bootstrap display-6 text-primary\"></i>\n                                        <h6 class=\"mt-2\">Bootstrap " ++
    config.bootstrap_version ++
    "</h6>\n                                    </div>\n                                </div>\n                                <div class=\"col-6 col-md-3 mb-3\">\n                                    <div class=\"p-3\">\n                                        <i class=\"bi bi-filetype-html display-6 text-danger\"></i>\n                                        <h6 class=\"mt-2\">HTML5</h6>\n                                    </div>\n                                </div>\n                                <div class=\"col-6 col-md-3 mb-3\">\n                                    <div class=\"p-3\">\n                                        <i class=\"bi bi-filetype-css display-6 text-info\"></i>\n                                        <h6 class=\"mt-2\">CSS3</h6>\n                                    </div>\n                                </div>\n                                <div class=\"col-6 col-md-3 mb-3\">\n                                    <div class=\"p-3\">\n                                        <i class=\"bi bi-filetype-js display-6 text-warning\"></i>\n                                        <h6 class=\"mt-2\">JavaScript ES6+</h6>\n                                    </div>\n                                </div>\n                            </div>\n                        </div>\n                    </div>\n                </div>\n            </div>\n        </div>\n    </section>\n\n    <!-- Contact Section -->\n    <section id=\"contact\" class=\"py-5\">\n        <div class=\"container\">\n            <div class=\"row justify-content-center\">\n                <div class=\"col-lg-8\">\n                    <div class=\"text-center mb-5\">\n                        <h2 class=\"display-5 fw-bold animate-on-scroll\">Get In Touch</h2>\n                        <p class=\"lead text-muted animate-on-scroll\">Ready to start your project? Let\x27s connect!</p>\n                    </div>\n                    \n                    <div class=\"card card-custom animate-on-scroll\">\n                        <div class=\"card-body p-4\">\n                            <div class=\"needs-validation\" novalidate>\n                                <div class=\"row g-3\">\n                                    <div class=\"col-md-6\">\n                                        <label for=\"firstName\" class=\"form-label\">First Name</label>\n                                        <input type=\"text\" class=\"form-control\" id=\"firstName\" required>\n                                        <div class=\"invalid-feedback\">\n                                            Please provide a valid first name.\n                                        </div>\n                                    </div>\n                                    <div class=\"col-md-6\">\n                                        <label for=\"lastName\" class=\"form-label\">Last Name</label>\n                                        <input type=\"text\" class=\"form-control\" id=\"lastName\" required>\n                                        <div class=\"invalid-feedback\">\n                                            Please provide a valid last name.\n                                        </div>\n                                    </div>\n                                    <div class=\"col-12\">\n                                        <label for=\"email\" class=\"form-label\">Email</label>\n                                        <input type=\"email\" class=\"form-control\" id=\"email\" required>\n                                        <div class=\"invalid-feedback\">\n                                            Please provide a valid email address.\n                                        </div>\n                                    </div>\n                                    <div class=\"col-12\">\n                                        <label for=\"projectType\" class=\"form-label\">Project Type</label>\n                                        <select class=\"form-select\" id=\"projectType\" required>\n                                            <option selected disabled value=\"\">Choose...</option>\n                                            <option value=\"business\">Business Website</option>\n                                            <option value=\"portfolio\">Portfolio</option>\n                                            <option value=\"ecommerce\">E-commerce</option>\n                                            <option value=\"blog\">Blog</option>\n                                            <option value=\"landing\">Landing Page</option>\n                                            <option value=\"other\">Other</option>\n                                        </select>\n                                        <div class=\"invalid-feedback\">\n                                            Please select a project type.\n                                        </div>\n                                    </div>\n                                    <div class=\"col-12\">\n                                        <label for=\"message\" class=\"form-label\">Project Details</label>\n                                        <textarea class=\"form-control\" id=\"message\" rows=\"4\" placeholder=\"Tell us about your project...\" required></textarea>\n                                        <div class=\"invalid-feedback\">\n                                            Please provide project details.\n                                        </div>\n                                    </div>\n                                    <div class=\"col-12\">\n                                        <div class=\"form-check\">\n                                            <input class=\"form-check-input\" type=\"checkbox\" id=\"newsletter\">\n                                            <label class=\"form-check-label\" for=\"newsletter\">\n                                                Subscribe to project updates and Bootstrap tips\n                                            </label>\n                                        </div>\n                                    </div>\n                                </div>\n                                \n                                <div class=\"text-center mt-4\">\n                                    <button class=\"btn btn-gradient btn-lg\" type=\"submit\">\n                                        <i class=\"bi bi-send me-2\"></i>Send Message\n                                    </button>\n                                </div>\n                            </div>\n                        </div>\n                    </div>\n                </div>\n            </div>\n        </div>\n    </section>\n\n    <!-- Footer -->\n    <footer class=\"bg-dark text-white py-5\">\n        <div class=\"container\">\n            <div class=\"row\">\n                <div class=\"col-lg-4 mb-4\">\n                    <h5 class=\"fw-bold\">\n                        <i class=\"bi bi-rocket-takeoff me-2\"></i>" ++
    config.name ++
    "\n                    </h5>\n                    <p class=\"text-light opacity-75\">\n                        " ++
    config.description ++
    "\n                    </p>\n                    <div class=\"d-flex gap-3\">\n                        <a href=\"#\" class=\"text-white\">\n                            <i class=\"bi bi-github fs-5\"></i>\n                        </a>\n                        <a href=\"#\" class=\"text-white\">\n                            <i class=\"bi bi-linkedin fs-5\"></i>\n                        </a>\n                        <a href=\"#\" class=\"text-white\">\n                            <i class=\"bi bi-twitter fs-5\"></i>\n                        </a>\n                    </div>\n                </div>\n                \n                <div class=\"col-lg-2 col-md-3 mb-4\">\n                    <h6 class=\"fw-bold\">Quick Links</h6>\n                    <ul class=\"list-unstyled\">\n                        <li><a href=\"#home\" class=\"text-light opacity-75 text-decoration-none\">Home</a></li>\n                        <li><a href=\"#features\" class=\"text-light opacity-75 text-decoration-none\">Features</a></li>\n                        <li><a href=\"#contact\" class=\"text-light opacity-75 text-decoration-none\">Contact</a></li>\n                        <li><a href=\"#\" class=\"text-light opacity-75 text-decoration-none\">Documentation</a></li>\n                    </ul>\n                </div>\n                \n                <div class=\"col-lg-2 col-md-3 mb-4\">\n                    <h6 class=\"fw-bold\">Resources</h6>\n                    <ul class=\"list-unstyled\">\n                        <li><a href=\"https://getbootstrap.com/\" class=\"text-light opacity-75 text-decoration-none\">Bootstrap</a></li>\n                        <li><a href=\"https://icons.getbootstrap.com/\" class=\"text-light opacity-75 text-decoration-none\">Icons</a></li>\n                        <li><a href=\"https://github.com/\" class=\"text-light opacity-75 text-decoration-none\">GitHub</a></li>\n                        <li><a href=\"https://vercel.com/\" class=\"text-light opacity-75 text-decoration-none\">Vercel</a></li>\n                    </ul>\n                </div>\n                \n                <div class=\"col-lg-4 col-md-6 mb-4\">\n                    <h6 class=\"fw-bold\">Project Info</h6>\n                    <ul class=\"list-unstyled small\">\n                        <li><strong>Version:</strong> " ++
    config.version ++
    "</li>\n                        <li><strong>Bootstrap:</strong> " ++
    config.bootstrap_version ++
    "</li>\n                        <li><strong>Created:</strong> " ++
    clock.date ++
    "</li>\n                        <li><strong>Author:</strong> " ++
    (if config.author = "" then "Anonymous" else config.author) ++
    "</li>\n                    </ul>\n                </div>\n            </div>\n            \n            <hr class=\"my-4 opacity-25\">\n            \n            <div class=\"row align-items-center\">\n                <div class=\"col-md-6\">\n                    <p class=\"mb-0 opacity-75\">\n                        &copy; " ++
    clock.year ++
    " " ++
    config.name ++
    ". All rights reserved.\n                    </p>\n                </div>\n                <div class=\"col-md-6 text-md-end\">\n                    <small class=\"opacity-50\">\n                        Generated with Bootstrap Project Manager v" ++
    version ++
    "\n                    </small>\n                </div>\n            </div>\n        </div>\n    </footer>\n\n    <!-- About Modal -->\n    <div class=\"modal fade\" id=\"aboutModal\" tabindex=\"-1\">\n        <div class=\"modal-dialog modal-lg\">\n            <div class=\"modal-content\">\n                <div class=\"modal-header\">\n                    <h5 class=\"modal-title\">\n                        <i class=\"bi bi-info-circle me-2\"></i>About " ++
    config.name ++
    "\n                    </h5>\n                    <button type=\"button\" class=\"btn-close\" data-bs-dismiss=\"modal\"></button>\n                </div>\n                <div class=\"modal-body\">\n                    <div class=\"row\">\n                        <div class=\"col-md-8\">\n                            <h6>Project Details</h6>\n                            <p>" ++
    config.description ++
    "</p>\n                            \n                            <h6>Features Included</h6>\n                            <ul class=\"list-unstyled\">\n                                <li><i class=\"bi bi-check-circle text-success me-2\"></i>Bootstrap " ++
    config.bootstrap_version ++
    "</li>\n                                <li><i class=\"bi bi-" ++
    (if config.bootstrap_icons then "check" else "x") ++
    "-circle text-" ++
    (if config.bootstrap_icons then "success" else "muted") ++
    " me-2\"></i>Bootstrap Icons</li>\n                                <li><i class=\"bi bi-" ++
    (if config.custom_css then "check" else "x") ++
    "-circle text-" ++
    (if config.custom_css then "success" else "muted") ++
    " me-2\"></i>Custom CSS</li>\n                                <li><i class=\"bi bi-" ++
    (if config.custom_js then "check" else "x") ++
    "-circle text-" ++
    (if config.custom_js then "success" else "muted") ++
    " me-2\"></i>Custom JavaScript</li>\n                                <li><i class=\"bi bi-" ++
    (if config.live_reload then "check" else "x") ++
    "-circle text-" ++
    (if config.live_reload then "success" else "muted") ++
    " me-2\"></i>Live Reload</li>\n                            </ul>\n                        </div>\n                        <div class=\"col-md-4\">\n                            <h6>Quick Actions</h6>\n                            <div class=\"d-grid gap-2\">\n                                <button class=\"btn btn-outline-primary btn-sm\" onclick=\"copyProjectConfig()\">\n                                    <i class=\"bi bi-clipboard me-1\"></i>Copy Config\n                                </button>\n                                <button class=\"btn btn-outline-success btn-sm\" onclick=\"downloadProject()\">\n                                    <i class=\"bi bi-download me-1\"></i>Download\n                                </button>\n                                <button class=\"btn btn-outline-info btn-sm\" onclick=\"shareProject()\">\n                                    <i class=\"bi bi-share me-1\"></i>Share\n                                </button>\n                            </div>\n                        </div>\n                    </div>\n                </div>\n                <div class=\"modal-footer\">\n                    <button type=\"button\" class=\"btn btn-secondary\" data-bs-dismiss=\"modal\">Close</button>\n                    <a href=\"https://getbootstrap.com/docs/" ++
    (pyIndex config.bootstrap_version 0) ++
    "." ++
    (pyIndex config.bootstrap_version 2) ++
    "/\" class=\"btn btn-primary\" target=\"_blank\">\n                        <i class=\"bi bi-book me-1\"></i>Bootstrap Docs\n                    </a>\n                </div>\n            </div>\n        </div>\n    </div>\n\n    <!-- Toast Container -->\n    <div id=\"toast-container\" class=\"toast-container position-fixed bottom-0 end-0 p-3\"></div>\n\n    <!-- Bootstrap JavaScript -->\n    <script src=\"https://cdn.jsdelivr.net/npm/bootstrap@" ++
    config.bootstrap_version ++
    "/dist/js/bootstrap.bundle.min.js\"></script>" ++
    custom_js_script ++
    live_reload_script ++
    "\n    \n    <!-- Inline JavaScript for modal actions -->\n    <script>\n        function copyProjectConfig() \x7b\n            const config = " ++
    (jsonDumpsConfig config) ++
    ";\n            navigator.clipboard.writeText(JSON.stringify(config, null, 2)).then(() => \x7b\n                showToast(\x27Project configuration copied to clipboard!\x27, \x27success\x27);\n            \x7d).catch(() => \x7b\n                showToast(\x27Failed to copy configuration\x27, \x27danger\x27);\n            \x7d);\n        \x7d\n        \n        function downloadProject() \x7b\n            showToast(\x27Download functionality would be implemented here\x27, \x27info\x27);\n        \x7d\n        \n        function shareProject() \x7b\n            if (navigator.share) \x7b\n                navigator.share(\x7b\n                    title: \x27" ++
    config.name ++
    "\x27,\n                    text: \x27" ++
    config.description ++
    "\x27,\n                    url: window.location.href\n                \x7d);\n            \x7d else \x7b\n                copyToClipboard(window.location.href);\n                showToast(\x27Project URL copied to clipboard!\x27, \x27success\x27);\n            \x7d\n        \x7d\n    </script>\n</body>\n</html>"

/-- Embeds the constant `ProjectManager.generate_advanced_css`. -/
def generate_advanced_css : String :=
  "/* Advanced CSS for Bootstrap Project Manager */\n\n:root \x7b\n  /* Extended color palette */\n  --primary-color: #667eea;\n  --primary-dark: #5a6fd8;\n  --secondary-color: #764ba2;\n  --secondary-dark: #6a4190;\n  --success-color: #28a745;\n  --danger-color: #dc3545;\n  --warning-color: #ffc107;\n  --info-color: #17a2b8;\n  --light-color: #f8f9fa;\n  --dark-color: #343a40;\n  \n  /* Gradient definitions */\n  --gradient-primary: linear-gradient(135deg, var(--primary-color), var(--secondary-color));\n  --gradient-success: linear-gradient(135deg, #28a745, #20c997);\n  --gradient-info: linear-gradient(135deg, #17a2b8, #6f42c1);\n  --gradient-warning: linear-gradient(135deg, #ffc107, #fd7e14);\n  \n  /* Spacing system */\n  --spacing-xs: 0.25rem;\n  --spacing-sm: 0.5rem;\n  --spacing-md: 1rem;\n  --spacing-lg: 1.5rem;\n  --spacing-xl: 3rem;\n  --spacing-xxl: 4.5rem;\n  \n  /* Typography */\n  --font-family-sans: system-ui, -apple-system, \"Segoe UI\", Roboto, \"Helvetica Neue\", sans-serif;\n  --font-family-mono: \"SF Mono\", \"Monaco\", \"Inconsolata\", \"Roboto Mono\", monospace;\n  \n  /* Shadows */\n  --shadow-xs: 0 1px 2px 0 rgba(0, 0, 0, 0.05);\n  --shadow-sm: 0 1px 3px 0 rgba(0, 0, 0, 0.1), 0 1px 2px 0 rgba(0, 0, 0, 0.06);\n  --shadow-md: 0 4px 6px -1px rgba(0, 0, 0, 0.1), 0 2px 4px -1px rgba(0, 0, 0, 0.06);\n  --shadow-lg: 0 10px 15px -3px rgba(0, 0, 0, 0.1), 0 4px 6px -2px rgba(0, 0, 0, 0.05);\n  --shadow-xl: 0 20px 25px -5px rgba(0, 0, 0, 0.1), 0 10px 10px -5px rgba(0, 0, 0, 0.04);\n  \n  /* Border radius */\n  --radius-sm: 0.25rem;\n  --radius-md: 0.375rem;\n  --radius-lg: 0.5rem;\n  --radius-xl: 0.75rem;\n  --radius-full: 9999px;\n  \n  /* Transitions */\n  --transition-fast: 150ms ease;\n  --transition-base: 200ms ease;\n  --transition-slow: 300ms ease;\n\x7d\n\n/* Global styles */\nbody \x7b\n  font-family: var(--font-family-sans);\n  line-height: 1.6;\n  scroll-behavior: smooth;\n\x7d\n\n/* Enhanced utility classes */\n.bg-gradient-primary \x7b\n  background: var(--gradient-primary);\n\x7d\n\n.bg-gradient-success \x7b\n  background: var(--gradient-success);\n\x7d\n\n.bg-gradient-info \x7b\n  background: var(--gradient-info);\n\x7d\n\n.bg-gradient-warning \x7b\n  background: var(--gradient-warning);\n\x7d\n\n.text-gradient \x7b\n  background: var(--gradient-primary);\n  -webkit-background-clip: text;\n  -webkit-text-fill-color: transparent;\n  background-clip: text;\n\x7d\n\n/* Shadow utilities */\n.shadow-xs \x7b box-shadow: var(--shadow-xs); \x7d\n.shadow-sm \x7b box-shadow: var(--shadow-sm); \x7d\n.shadow-md \x7b box-shadow: var(--shadow-md); \x7d\n.shadow-lg \x7b box-shadow: var(--shadow-lg); \x7d\n.shadow-xl \x7b box-shadow: var(--shadow-xl); \x7d\n\n/* Enhanced card styles */\n.card-custom \x7b\n  border: none;\n  box-shadow: var(--shadow-sm);\n  transition: all var(--transition-base);\n  border-radius: var(--radius-lg);\n\x7d\n\n.card-custom:hover \x7b\n  box-shadow: var(--shadow-lg);\n  transform: translateY(-4px);\n\x7d\n\n.card-custom .card-header \x7b\n  background: transparent;\n  border-bottom: 1px solid rgba(0,0,0,0.05);\n  font-weight: 600;\n\x7d\n\n/* Enhanced button styles */\n.btn-gradient \x7b\n  background: var(--gradient-primary);\n  border: none;\n  color: white;\n  font-weight: 500;\n  transition: all var(--transition-base);\n  position: relative;\n  overflow: hidden;\n\x7d\n\n.btn-gradient:hover \x7b\n  background: linear-gradient(135deg, var(--secondary-color), var(--primary-color));\n  color: white;\n  transform: translateY(-2px);\n  box-shadow: var(--shadow-lg);\n\x7d\n\n.btn-gradient:active \x7b\n  transform: translateY(0);\n\x7d\n\n/* Enhanced navbar */\n.navbar-custom \x7b\n  backdrop-filter: blur(20px);\n  background: rgba(255, 255, 255, 0.95);\n  box-shadow: var(--shadow-sm);\n  transition: all var(--transition-base);\n\x7d\n\n.navbar-scrolled \x7b\n  background: rgba(255, 255, 255, 0.98);\n  box-shadow: var(--shadow-md);\n\x7d\n\n/* Animation classes */\n@keyframes fadeInUp \x7b\n  from \x7b\n    opacity: 0;\n    transform: translateY(40px);\n  \x7d\n  to \x7b\n    opacity: 1;\n    transform: translateY(0);\n  \x7d\n\x7d\n\n@keyframes fadeInLeft \x7b\n  from \x7b\n    opacity: 0;\n    transform: translateX(-40px);\n  \x7d\n  to \x7b\n    opacity: 1;\n    transform: translateX(0);\n  \x7d\n\x7d\n\n@keyframes fadeInRight \x7b\n  from \x7b\n    opacity: 0;\n    transform: translateX(40px);\n  \x7d\n  to \x7b\n    opacity: 1;\n    transform: translateX(0);\n  \x7d\n\x7d\n\n@keyframes pulse \x7b\n  0%, 100% \x7b\n    opacity: 1;\n  \x7d\n  50% \x7b\n    opacity: 0.7;\n  \x7d\n\x7d\n\n@keyframes float \x7b\n  0%, 100% \x7b\n    transform: translateY(0px);\n  \x7d\n  50% \x7b\n    transform: translateY(-10px);\n  \x7d\n\x7d\n\n.fade-in-up \x7b\n  animation: fadeInUp 0.8s ease-out forwards;\n\x7d\n\n.fade-in-left \x7b\n  animation: fadeInLeft 0.8s ease-out forwards;\n\x7d\n\n.fade-in-right \x7b\n  animation: fadeInRight 0.8s ease-out forwards;\n\x7d\n\n.pulse \x7b\n  animation: pulse 2s infinite;\n\x7d\n\n.float \x7b\n  animation: float 3s ease-in-out infinite;\n\x7d\n\n/* Interactive elements */\n.hover-lift \x7b\n  transition: transform var(--transition-base);\n\x7d\n\n.hover-lift:hover \x7b\n  transform: translateY(-4px);\n\x7d\n\n.hover-scale \x7b\n  transition: transform var(--transition-base);\n\x7d\n\n.hover-scale:hover \x7b\n  transform: scale(1.05);\n\x7d\n\n.hover-rotate \x7b\n  transition: transform var(--transition-base);\n\x7d\n\n.hover-rotate:hover \x7b\n  transform: rotate(5deg);\n\x7d\n\n/* Form enhancements */\n.form-control:focus \x7b\n  border-color: var(--primary-color);\n  box-shadow: 0 0 0 0.2rem rgba(102, 126, 234, 0.25);\n\x7d\n\n.form-select:focus \x7b\n  border-color: var(--primary-color);\n  box-shadow: 0 0 0 0.2rem rgba(102, 126, 234, 0.25);\n\x7d\n\n/* Enhanced modals */\n.modal-content \x7b\n  border: none;\n  border-radius: var(--radius-xl);\n  box-shadow: var(--shadow-xl);\n\x7d\n\n.modal-header \x7b\n  border-bottom: 1px solid rgba(0,0,0,0.05);\n\x7d\n\n.modal-footer \x7b\n  border-top: 1px solid rgba(0,0,0,0.05);\n\x7d\n\n/* Responsive utilities */\n@media (max-width: 768px) \x7b\n  .mobile-center \x7b\n    text-align: center;\n  \x7d\n  \n  .mobile-stack > * \x7b\n    margin-bottom: var(--spacing-md);\n  \x7d\n  \n  .display-3 \x7b\n    font-size: 2.5rem;\n  \x7d\n  \n  .hero-section \x7b\n    padding: 2rem 0;\n  \x7d\n\x7d\n\n@media (max-width: 576px) \x7b\n  .btn-lg \x7b\n    padding: 0.75rem 1.5rem;\n    font-size: 1rem;\n  \x7d\n\x7d\n\n/* Dark mode support */\n@media (prefers-color-scheme: dark) \x7b\n  :root \x7b\n    --bs-body-bg: #1a1a1a;\n    --bs-body-color: #ffffff;\n  \x7d\n  \n  .navbar-custom \x7b\n    background: rgba(26, 26, 26, 0.95);\n  \x7d\n  \n  .card-custom \x7b\n    background: #2d2d2d;\n    color: #ffffff;\n    border: 1px solid #404040;\n  \x7d\n  \n  .bg-light \x7b\n    background-color: #2d2d2d !important;\n  \x7d\n  \n  .text-muted \x7b\n    color: #9ca3af !important;\n  \x7d\n\x7d\n\n/* Print styles */\n@media print \x7b\n  .no-print \x7b\n    display: none !important;\n  \x7d\n  \n  .card \x7b\n    break-inside: avoid;\n    box-shadow: none;\n    border: 1px solid #ddd;\n  \x7d\n  \n  .btn \x7b\n    display: none;\n  \x7d\n\x7d\n\n/* Custom scrollbar */\n::-webkit-scrollbar \x7b\n  width: 8px;\n\x7d\n\n::-webkit-scrollbar-track \x7b\n  background: #f1f1f1;\n\x7d\n\n::-webkit-scrollbar-thumb \x7b\n  background: var(--primary-color);\n  border-radius: var(--radius-full);\n\x7d\n\n::-webkit-scrollbar-thumb:hover \x7b\n  background: var(--primary-dark);\n\x7d\n\n/* Loading states */\n.loading \x7b\n  position: relative;\n  pointer-events: none;\n\x7d\n\n.loading::after \x7b\n  content: \x27\x27;\n  position: absolute;\n  top: 0;\n  left: 0;\n  right: 0;\n  bottom: 0;\n  background: rgba(255, 255, 255, 0.8);\n  display: flex;\n  align-items: center;\n  justify-content: center;\n\x7d\n\n.loading::before \x7b\n  content: \x27\x27;\n  position: absolute;\n  top: 50%;\n  left: 50%;\n  transform: translate(-50%, -50%);\n  width: 20px;\n  height: 20px;\n  border: 2px solid var(--primary-color);\n  border-top: 2px solid transparent;\n  border-radius: 50%;\n  animation: spin 1s linear infinite;\n  z-index: 1;\n\x7d\n\n@keyframes spin \x7b\n  0% \x7b transform: translate(-50%, -50%) rotate(0deg); \x7d\n  100% \x7b transform: translate(-50%, -50%) rotate(360deg); \x7d\n\x7d\n"

/-- Embeds the constant `ProjectManager.generate_advanced_js`. -/
def generate_advanced_js : String :=
  "// Advanced JavaScript for Bootstrap Project Manager\n\n// Enhanced DOM ready with performance timing\ndocument.addEventListener(\x27DOMContentLoaded\x27, function() \x7b\n    const startTime = performance.now();\n    \n    console.log(\x27🚀 Bootstrap Project Manager loaded\x27);\n    \n    // Initialize all components\n    initializeTooltips();\n    initializePopovers();\n    initializeSmoothScrolling();\n    initializeFormValidation();\n    initializeAnimations();\n    initializeNavbarEffects();\n    initializeUtilities();\n    \n    const endTime = performance.now();\n    console.log(\x60⚡ Initialization completed in $\x7b(endTime - startTime).toFixed(2)\x7dms\x60);\n\x7d);\n\n/**\n * Initialize Bootstrap tooltips with custom options\n */\nfunction initializeTooltips() \x7b\n    const tooltipTriggerList = [].slice.call(document.querySelectorAll(\x27[data-bs-toggle=\"tooltip\"]\x27));\n    tooltipTriggerList.map(function (tooltipTriggerEl) \x7b\n        return new bootstrap.Tooltip(tooltipTriggerEl, \x7b\n            placement: \x27auto\x27,\n            trigger: \x27hover focus\x27\n        \x7d);\n    \x7d);\n\x7d\n\n/**\n * Initialize Bootstrap popovers\n */\nfunction initializePopovers() \x7b\n    const popoverTriggerList = [].slice.call(document.querySelectorAll(\x27[data-bs-toggle=\"popover\"]\x27));\n    popoverTriggerList.map(function (popoverTriggerEl) \x7b\n        return new bootstrap.Popover(popoverTriggerEl);\n    \x7d);\n\x7d\n\n/**\n * Enhanced smooth scrolling with offset compensation\n */\nfunction initializeSmoothScrolling() \x7b\n    document.querySelectorAll(\x27a[href^=\"#\"]\x27).forEach(anchor => \x7b\n        anchor.addEventListener(\x27click\x27, function (e) \x7b\n            e.preventDefault();\n            const target = document.querySelector(this.getAttribute(\x27href\x27));\n            if (target) \x7b\n                const navbarHeight = document.querySelector(\x27.navbar\x27)?.offsetHeight || 0;\n                const targetPosition = target.offsetTop - navbarHeight - 20;\n                \n                window.scrollTo(\x7b\n                    top: targetPosition,\n                    behavior: \x27smooth\x27\n                \x7d);\n            \x7d\n        \x7d);\n    \x7d);\n\x7d\n\n/**\n * Enhanced form validation with custom styling\n */\nfunction initializeFormValidation() \x7b\n    const forms = document.querySelectorAll(\x27.needs-validation\x27);\n    \n    Array.from(forms).forEach(form => \x7b\n        form.addEventListener(\x27submit\x27, event => \x7b\n            event.preventDefault();\n            event.stopPropagation();\n            \n            if (form.checkValidity()) \x7b\n                handleFormSubmit(form);\n            \x7d else \x7b\n                // Focus on first invalid field\n                const firstInvalid = form.querySelector(\x27:invalid\x27);\n                if (firstInvalid) \x7b\n                    firstInvalid.focus();\n                    showToast(\x27Please check the form for errors\x27, \x27warning\x27);\n                \x7d\n            \x7d\n            \n            form.classList.add(\x27was-validated\x27);\n        \x7d, false);\n        \n        // Real-time validation\n        const inputs = form.querySelectorAll(\x27input, select, textarea\x27);\n        inputs.forEach(input => \x7b\n            input.addEventListener(\x27blur\x27, function() \x7b\n                if (this.checkValidity()) \x7b\n                    this.classList.remove(\x27is-invalid\x27);\n                    this.classList.add(\x27is-valid\x27);\n                \x7d else \x7b\n                    this.classList.remove(\x27is-valid\x27);\n                    this.classList.add(\x27is-invalid\x27);\n                \x7d\n            \x7d);\n        \x7d);\n    \x7d);\n\x7d\n\n/**\n * Handle form submission\n */\nfunction handleFormSubmit(form) \x7b\n    const formData = new FormData(form);\n    const data = Object.fromEntries(formData.entries());\n    \n    // Add loading state\n    const submitBtn = form.querySelector(\x27button[type=\"submit\"]\x27);\n    const originalText = submitBtn.innerHTML;\n    submitBtn.innerHTML = \x27<i class=\"bi bi-arrow-clockwise spin me-2\"></i>Sending...\x27;\n    submitBtn.disabled = true;\n    \n    // Simulate API call\n    setTimeout(() => \x7b\n        console.log(\x27Form submitted:\x27, data);\n        showToast(\x27Message sent successfully!\x27, \x27success\x27);\n        \n        // Reset form\n        form.reset();\n        form.classList.remove(\x27was-validated\x27);\n        \n        // Reset button\n        submitBtn.innerHTML = originalText;\n        submitBtn.disabled = false;\n        \n        // Clear validation classes\n        form.querySelectorAll(\x27.is-valid, .is-invalid\x27).forEach(el => \x7b\n            el.classList.remove(\x27is-valid\x27, \x27is-invalid\x27);\n        \x7d);\n    \x7d, 2000);\n\x7d\n\n/**\n * Initialize scroll-triggered animations with Intersection Observer\n */\nfunction initializeAnimations() \x7b\n    const observerOptions = \x7b\n        threshold: 0.1,\n        rootMargin: \x270px 0px -50px 0px\x27\n    \x7d;\n    \n    const observer = new IntersectionObserver(function(entries) \x7b\n        entries.forEach((entry, index) => \x7b\n            if (entry.isIntersecting) \x7b\n                // Add delay for staggered animations\n                setTimeout(() => \x7b\n                    entry.target.classList.add(\x27fade-in-up\x27);\n                \x7d, index * 100);\n                observer.unobserve(entry.target);\n            \x7d\n        \x7d);\n    \x7d, observerOptions);\n    \n    // Observe elements with animation class\n    document.querySelectorAll(\x27.animate-on-scroll\x27).forEach(el => \x7b\n        observer.observe(el);\n    \x7d);\n\x7d\n\n/**\n * Initialize navbar scroll effects\n */\nfunction initializeNavbarEffects() \x7b\n    const navbar = document.querySelector(\x27.navbar\x27);\n    if (!navbar) return;\n    \n    let lastScrollY = window.scrollY;\n    \n    window.addEventListener(\x27scroll\x27, debounce(() => \x7b\n        const currentScrollY = window.scrollY;\n        \n        if (currentScrollY > 100) \x7b\n            navbar.classList.add(\x27navbar-scrolled\x27);\n        \x7d else \x7b\n            navbar.classList.remove(\x27navbar-scrolled\x27);\n        \x7d\n        \n        // Hide navbar on scroll down, show on scroll up\n        if (currentScrollY > lastScrollY && currentScrollY > 200) \x7b\n            navbar.style.transform = \x27translateY(-100%)\x27;\n        \x7d else \x7b\n            navbar.style.transform = \x27translateY(0)\x27;\n        \x7d\n        \n        lastScrollY = currentScrollY;\n    \x7d, 10));\n\x7d\n\n/**\n * Initialize utility functions and event listeners\n */\nfunction initializeUtilities() \x7b\n    // Add keyboard navigation support\n    document.addEventListener(\x27keydown\x27, function(e) \x7b\n        // ESC key closes modals and dropdowns\n        if (e.key === \x27Escape\x27) \x7b\n            const openModal = document.querySelector(\x27.modal.show\x27);\n            if (openModal) \x7b\n                const modal = bootstrap.Modal.getInstance(openModal);\n                if (modal) modal.hide();\n            \x7d\n        \x7d\n    \x7d);\n    \n    // Add click-to-copy functionality for code blocks\n    document.querySelectorAll(\x27pre code\x27).forEach(block => \x7b\n        block.style.cursor = \x27pointer\x27;\n        block.title = \x27Click to copy\x27;\n        block.addEventListener(\x27click\x27, () => \x7b\n            copyToClipboard(block.textContent);\n        \x7d);\n    \x7d);\n    \n    // Add loading states to external links\n    document.querySelectorAll(\x27a[target=\"_blank\"]\x27).forEach(link => \x7b\n        link.addEventListener(\x27click\x27, function() \x7b\n            this.classList.add(\x27loading\x27);\n            setTimeout(() => \x7b\n                this.classList.remove(\x27loading\x27);\n            \x7d, 1000);\n        \x7d);\n    \x7d);\n\x7d\n\n/**\n * Enhanced toast notification system\n */\nfunction showToast(message, type = \x27primary\x27, duration = 5000) \x7b\n    const toastContainer = document.getElementById(\x27toast-container\x27) || createToastContainer();\n    \n    const toastId = \x27toast-\x27 + Date.now();\n    const toastElement = document.createElement(\x27div\x27);\n    toastElement.id = toastId;\n    toastElement.className = \x60toast align-items-center text-white bg-$\x7btype\x7d border-0\x60;\n    toastElement.setAttribute(\x27role\x27, \x27alert\x27);\n    toastElement.setAttribute(\x27data-bs-delay\x27, duration);\n    \n    const icon = getToastIcon(type);\n    toastElement.innerHTML = \x60\n        <div class=\"d-flex\">\n            <div class=\"toast-body\">\n                <i class=\"bi bi-$\x7bicon\x7d me-2\"></i>$\x7bmessage\x7d\n            </div>\n            <button type=\"button\" class=\"btn-close btn-close-white me-2 m-auto\" data-bs-dismiss=\"toast\"></button>\n        </div>\n    \x60;\n    \n    toastContainer.appendChild(toastElement);\n    \n    const toast = new bootstrap.Toast(toastElement, \x7b delay: duration \x7d);\n    toast.show();\n    \n    // Remove toast element after it\x27s hidden\n    toastElement.addEventListener(\x27hidden.bs.toast\x27, function() \x7b\n        toastElement.remove();\n    \x7d);\n    \n    return toast;\n\x7d\n\n/**\n * Get appropriate icon for toast type\n */\nfunction getToastIcon(type) \x7b\n    const icons = \x7b\n        \x27primary\x27: \x27info-circle\x27,\n        \x27secondary\x27: \x27info-circle\x27,\n        \x27success\x27: \x27check-circle\x27,\n        \x27danger\x27: \x27exclamation-circle\x27,\n        \x27warning\x27: \x27exclamation-triangle\x27,\n        \x27info\x27: \x27info-circle\x27,\n        \x27light\x27: \x27info-circle\x27,\n        \x27dark\x27: \x27info-circle\x27\n    \x7d;\n    return icons[type] || \x27info-circle\x27;\n\x7d\n\n/**\n * Create toast container if it doesn\x27t exist\n */\nfunction createToastContainer() \x7b\n    const container = document.createElement(\x27div\x27);\n    container.id = \x27toast-container\x27;\n    container.className = \x27toast-container position-fixed bottom-0 end-0 p-3\x27;\n    container.style.zIndex = \x271080\x27;\n    document.body.appendChild(container);\n    return container;\n\x7d\n\n/**\n * Enhanced clipboard functionality with fallback\n */\nasync function copyToClipboard(text) \x7b\n    try \x7b\n        if (navigator.clipboard && window.isSecureContext) \x7b\n            await navigator.clipboard.writeText(text);\n            showToast(\x27Copied to clipboard!\x27, \x27success\x27);\n            return true;\n        \x7d else \x7b\n            // Fallback for older browsers\n            const textArea = document.createElement(\x27textarea\x27);\n            textArea.value = text;\n            textArea.style.position = \x27fixed\x27;\n            textArea.style.left = \x27-999999px\x27;\n            textArea.style.top = \x27-999999px\x27;\n            document.body.appendChild(textArea);\n            textArea.focus();\n            textArea.select();\n            \n            try \x7b\n                const result = document.execCommand(\x27copy\x27);\n                textArea.remove();\n                if (result) \x7b\n                    showToast(\x27Copied to clipboard!\x27, \x27success\x27);\n                    return true;\n                \x7d else \x7b\n                    throw new Error(\x27Copy command failed\x27);\n                \x7d\n            \x7d catch (err) \x7b\n                textArea.remove();\n                throw err;\n            \x7d\n        \x7d\n    \x7d catch (err) \x7b\n        console.error(\x27Failed to copy: \x27, err);\n        showToast(\x27Failed to copy to clipboard\x27, \x27danger\x27);\n        return false;\n    \x7d\n\x7d\n\n/**\n * Enhanced API request function with loading states\n */\nasync function apiRequest(url, options = \x7b\x7d) \x7b\n    const defaultOptions = \x7b\n        headers: \x7b\n            \x27Content-Type\x27: \x27application/json\x27\n        \x7d\n    \x7d;\n    \n    const config = \x7b ...defaultOptions, ...options \x7d;\n    \n    try \x7b\n        const response = await fetch(url, config);\n        \n        if (!response.ok) \x7b\n            throw new Error(\x60HTTP error! status: $\x7bresponse.status\x7d\x60);\n        \x7d\n        \n        const data = await response.json();\n        return data;\n    \x7d catch (error) \x7b\n        console.error(\x27API request failed:\x27, error);\n        showToast(\x60Request failed: $\x7berror.message\x7d\x60, \x27danger\x27);\n        throw error;\n    \x7d\n\x7d\n\n/**\n * Enhanced debounce function\n */\nfunction debounce(func, wait, immediate = false) \x7b\n    let timeout;\n    return function executedFunction(...args) \x7b\n        const later = () => \x7b\n            timeout = null;\n            if (!immediate) func.apply(this, args);\n        \x7d;\n        const callNow = immediate && !timeout;\n        clearTimeout(timeout);\n        timeout = setTimeout(later, wait);\n        if (callNow) func.apply(this, args);\n    \x7d;\n\x7d\n\n/**\n * Throttle function for performance-critical events\n */\nfunction throttle(func, wait) \x7b\n    let lastTime = 0;\n    return function executedFunction(...args) \x7b\n        const now = Date.now();\n        if (now - lastTime >= wait) \x7b\n            func.apply(this, args);\n            lastTime = now;\n        \x7d\n    \x7d;\n\x7d\n\n/**\n * Enhanced storage utilities with encryption option\n */\nconst storage = \x7b\n    set(key, value, encrypt = false) \x7b\n        try \x7b\n            let dataToStore = JSON.stringify(value);\n            if (encrypt) \x7b\n                dataToStore = btoa(dataToStore); // Simple base64 encoding\n            \x7d\n            localStorage.setItem(key, dataToStore);\n            return true;\n        \x7d catch (error) \x7b\n            console.error(\x27Failed to save to localStorage:\x27, error);\n            showToast(\x27Failed to save data locally\x27, \x27warning\x27);\n            return false;\n        \x7d\n    \x7d,\n    \n    get(key, defaultValue = null, encrypted = false) \x7b\n        try \x7b\n            let item = localStorage.getItem(key);\n            if (!item) return defaultValue;\n            \n            if (encrypted) \x7b\n                item = atob(item); // Simple base64 decoding\n            \x7d\n            \n            return JSON.parse(item);\n        \x7d catch (error) \x7b\n            console.error(\x27Failed to read from localStorage:\x27, error);\n            return defaultValue;\n        \x7d\n    \x7d,\n    \n    remove(key) \x7b\n        try \x7b\n            localStorage.removeItem(key);\n            return true;\n        \x7d catch (error) \x7b\n            console.error(\x27Failed to remove from localStorage:\x27, error);\n            return false;\n        \x7d\n    \x7d,\n    \n    clear() \x7b\n        try \x7b\n            localStorage.clear();\n            return true;\n        \x7d catch (error) \x7b\n            console.error(\x27Failed to clear localStorage:\x27, error);\n            return false;\n        \x7d\n    \x7d\n\x7d;\n\n/**\n * Performance monitoring utilities\n */\nconst performance_monitor = \x7b\n    marks: \x7b\x7d,\n    \n    mark(name) \x7b\n        this.marks[name] = performance.now();\n    \x7d,\n    \n    measure(name, startMark) \x7b\n        const endTime = performance.now();\n        const startTime = this.marks[startMark];\n        if (startTime) \x7b\n            const duration = endTime - startTime;\n            console.log(\x60⏱️ $\x7bname\x7d: $\x7bduration.toFixed(2)\x7dms\x60);\n            return duration;\n        \x7d\n        return null;\n    \x7d\n\x7d;\n\n/**\n * Enhanced date formatting with locale support\n */\nfunction formatDate(date, options = \x7b\x7d) \x7b\n    const defaultOptions = \x7b\n        year: \x27numeric\x27,\n        month: \x27long\x27,\n        day: \x27numeric\x27\n    \x7d;\n    \n    const locale = navigator.language || \x27en-US\x27;\n    return new Intl.DateTimeFormat(locale, \x7b ...defaultOptions, ...options \x7d).format(new Date(date));\n\x7d\n\n/**\n * URL utilities\n */\nconst urlUtils = \x7b\n    getParams() \x7b\n        return new URLSearchParams(window.location.search);\n    \x7d,\n    \n    getParam(name, defaultValue = null) \x7b\n        return this.getParams().get(name) || defaultValue;\n    \x7d,\n    \n    setParam(name, value) \x7b\n        const url = new URL(window.location);\n        url.searchParams.set(name, value);\n        window.history.replaceState(\x7b\x7d, \x27\x27, url);\n    \x7d,\n    \n    removeParam(name) \x7b\n        const url = new URL(window.location);\n        url.searchParams.delete(name);\n        window.history.replaceState(\x7b\x7d, \x27\x27, url);\n    \x7d\n\x7d;\n\n/**\n * Enhanced error handling with user feedback\n */\nwindow.addEventListener(\x27error\x27, function(e) \x7b\n    console.error(\x27JavaScript error:\x27, e.error);\n    showToast(\x27An error occurred. Please refresh the page.\x27, \x27danger\x27);\n\x7d);\n\nwindow.addEventListener(\x27unhandledrejection\x27, function(e) \x7b\n    console.error(\x27Unhandled promise rejection:\x27, e.reason);\n    showToast(\x27A network error occurred. Please try again.\x27, \x27warning\x27);\n\x7d);\n\n/**\n * Accessibility enhancements\n */\nfunction enhanceAccessibility() \x7b\n    // Add focus visible support for older browsers\n    if (!CSS.supports(\x27selector(:focus-visible)\x27)) \x7b\n        document.addEventListener(\x27keydown\x27, function() \x7b\n            document.body.classList.add(\x27keyboard-nav\x27);\n        \x7d);\n        \n        document.addEventListener(\x27mousedown\x27, function() \x7b\n            document.body.classList.remove(\x27keyboard-nav\x27);\n        \x7d);\n    \x7d\n    \n    // Enhanced skip link functionality\n    const skipLink = document.querySelector(\x27.skip-link\x27);\n    if (skipLink) \x7b\n        skipLink.addEventListener(\x27click\x27, function(e) \x7b\n            e.preventDefault();\n            const target = document.querySelector(this.getAttribute(\x27href\x27));\n            if (target) \x7b\n                target.focus();\n                target.scrollIntoView();\n            \x7d\n        \x7d);\n    \x7d\n\x7d\n\n/**\n * Progressive Web App utilities\n */\nconst pwaUtils = \x7b\n    isStandalone() \x7b\n        return window.matchMedia(\x27(display-mode: standalone)\x27).matches ||\n               window.navigator.standalone === true;\n    \x7d,\n    \n    canInstall() \x7b\n        return \x27beforeinstallprompt\x27 in window;\n    \x7d,\n    \n    async requestInstall() \x7b\n        if (this.installPrompt) \x7b\n            const result = await this.installPrompt.prompt();\n            console.log(\x27Install prompt result:\x27, result);\n            this.installPrompt = null;\n            return result;\n        \x7d\n        return null;\n    \x7d\n\x7d;\n\n// Store install prompt for later use\nwindow.addEventListener(\x27beforeinstallprompt\x27, (e) => \x7b\n    e.preventDefault();\n    pwaUtils.installPrompt = e;\n\x7d);\n\n/**\n * Export utilities for module systems\n */\nif (typeof module !== \x27undefined\x27 && module.exports) \x7b\n    module.exports = \x7b\n        showToast,\n        copyToClipboard,\n        apiRequest,\n        formatDate,\n        debounce,\n        throttle,\n        storage,\n        urlUtils,\n        performance_monitor,\n        pwaUtils\n    \x7d;\n\x7d\n\n// Add CSS animation for spinning icons\nconst style = document.createElement(\x27style\x27);\nstyle.textContent = \x60\n    .spin \x7b\n        animation: spin 1s linear infinite;\n    \x7d\n    \n    @keyframes spin \x7b\n        from \x7b transform: rotate(0deg); \x7d\n        to \x7b transform: rotate(360deg); \x7d\n    \x7d\n    \n    .keyboard-nav *:focus \x7b\n        outline: 2px solid var(--primary-color);\n        outline-offset: 2px;\n    \x7d\n\x60;\ndocument.head.appendChild(style);\n\nconsole.log(\x27✨ Advanced JavaScript utilities loaded\x27);\n"

/-- Embeds `ProjectManager.generate_readme` of `src/api/project_manager.py`. -/
def generate_readme (config : Config) (clock : Clock) : String :=
  "# " ++
    config.name ++
    "\n\n" ++
    config.description ++
    "\n\n## 🚀 Features\n\n- **Bootstrap " ++
    config.bootstrap_version ++
    "** - Latest Bootstrap framework\n- **" ++
    (if config.bootstrap_icons then "✅" else "❌") ++
    " Bootstrap Icons** - Comprehensive icon library\n- **" ++
    (if config.custom_css then "✅" else "❌") ++
    " Advanced CSS** - Custom utilities and animations  \n- **" ++
    (if config.custom_js then "✅" else "❌") ++
    " Enhanced JavaScript** - Modern ES6+ utilities\n- **" ++
    (if config.live_reload then "✅" else "❌") ++
    " Live Reload** - Development server with auto-refresh\n- **Responsive Design** - Mobile-first approach\n- **Accessibility** - WCAG 2.1 compliant\n- **Performance** - Optimized loading and rendering\n\n## 📁 Project Structure\n\n\x60\x60\x60\n" ++
    (pySlug config.name) ++
    "/\n├── index.html              # Main HTML file\n├── css/\n│   └── style.css          # Advanced custom styles\n├── js/\n│   └── script.js          # Enhanced JavaScript utilities\n├── images/                # Image assets directory\n├── components/            # Reusable component templates\n├── project.json          # Project configuration\n├── .bootstrap-config.json # Generator configuration\n└── README.md             # Documentation\n\x60\x60\x60\n\n## 🛠️ Development\n\n### Local Development\n\n\x60\x60\x60bash\n# Serve the project locally\npython -m http.server 8080\n\n# Or use any static file server\nnpx serve .\n\x60\x60\x60\n\n### Using the API\n\n\x60\x60\x60bash\n# Generate a new project\ncurl -X POST -H \"Content-Type: application/json\" \\\n  -d \x27\x7b\"name\":\"My Project\",\"author\":\"Your Name\"\x7d\x27 \\\n  /api/project_manager\n\n# Get project information\ncurl /api/project_manager?action=info&project=my-project\n\x60\x60\x60\n\n## 🎨 Customization\n\n### CSS Variables\n\nThe project uses CSS custom properties for easy theming:\n\n\x60\x60\x60css\n:root \x7b\n  --primary-color: #667eea;\n  --secondary-color: #764ba2;\n  --gradient-primary: linear-gradient(135deg, var(--primary-color), var(--secondary-color));\n\x7d\n\x60\x60\x60\n\n### JavaScript Utilities\n\nBuilt-in utility functions available:\n\n- \x60showToast(message, type, duration)\x60 - Toast notifications\n- \x60copyToClipboard(text)\x60 - Clipboard operations\n- \x60apiRequest(url, options)\x60 - Enhanced fetch wrapper\n- \x60storage\x60 - localStorage utilities with encryption\n- \x60urlUtils\x60 - URL parameter management\n- \x60performance_monitor\x60 - Performance tracking\n\n### Components\n\nAdd reusable components in the \x60components/\x60 directory:\n\n\x60\x60\x60html\n<!-- components/alert.html -->\n<div class=\"alert alert-\x7btype\x7d d-flex align-items-center\" role=\"alert\">\n    <i class=\"bi bi-\x7bicon\x7d me-2\"></i>\n    <div>\x7bmessage\x7d</div>\n</div>\n\x60\x60\x60\n\n## 🚀 Deployment\n\n### Static Hosting\n\nPerfect for static hosting platforms:\n\n- **Vercel**: \x60vercel --prod\x60\n- **Netlify**: Drag and drop or Git integration\n- **GitHub Pages**: Push to \x60gh-pages\x60 branch\n- **AWS S3**: Upload to S3 bucket with static hosting\n\n### Build Optimization\n\nFor production builds:\n\n1. Minify CSS and JavaScript\n2. Optimize images\n3. Enable gzip compression\n4. Set appropriate cache headers\n\n## 📊 Performance\n\n- **Lighthouse Score**: 90+ across all metrics\n- **First Contentful Paint**: < 1.5s\n- **Largest Contentful Paint**: < 2.5s\n- **Cumulative Layout Shift**: < 0.1\n\n## 🧪 Testing\n\n### Browser Testing\n\nTested on:\n- Chrome 90+\n- Firefox 88+\n- Safari 14+\n- Edge 90+\n\n### Accessibility Testing\n\n- Screen reader compatible\n- Keyboard navigation support\n- High contrast mode support\n- WCAG 2.1 AA compliant\n\n## 📚 Resources\n\n- [Bootstrap Documentation](https://getbootstrap.com/docs/" ++
    (pyIndex config.bootstrap_version 0) ++
    "." ++
    (pyIndex config.bootstrap_version 2) ++
    "/)\n- [Bootstrap Icons](https://icons.getbootstrap.com/)\n- [CSS Grid Guide](https://css-tricks.com/snippets/css/complete-guide-grid/)\n- [JavaScript ES6+ Features](https://developer.mozilla.org/en-US/docs/Web/JavaScript)\n\n## 🐛 Troubleshooting\n\n### Common Issues\n\n1. **Icons not loading**: Check Bootstrap Icons CDN connection\n2. **Animations not working**: Verify JavaScript is enabled\n3. **Responsive issues**: Check viewport meta tag\n\n### Browser Support\n\n- Modern browsers with ES6+ support\n- Internet Explorer not supported\n- Progressive enhancement for older browsers\n\n## 📄 License\n\nThis project template is free to use and modify under the MIT License.\n\n## 🤝 Contributing\n\n1. Fork the repository\n2. Create a feature branch\n3. Make your changes\n4. Submit a pull request\n\n---\n\n**Project Information**\n- Created: " ++
    clock.date ++
    "\n- Author: " ++
    (if config.author = "" then "Anonymous" else config.author) ++
    "\n- Generator: Bootstrap Project Manager v" ++
    version ++
    "\n- Bootstrap: v" ++
    config.bootstrap_version ++
    "\n"

/-- Result dictionary of `ProjectManager.create_project_structure`. -/
structure CreateResult where
  status : String
  message : String
  config : Config
  files : List (String × String)
deriving DecidableEq

/-- Embeds `ProjectManager.create_project_structure`: the configuration is
built, and the `files` mapping holds exactly the six generated entries in
insertion order. -/
def create_project_structure (name : String) (options : Options)
    (clock : Clock) : CreateResult :=
  let config := create_project_config name options clock.iso
  { status := "success",
    message := "Advanced project \"" ++ name ++ "\" created successfully",
    config := config,
    files :=
      [("index.html", generate_advanced_template config clock),
       ("css/style.css", generate_advanced_css),
       ("js/script.js", generate_advanced_js),
       ("project.json", jsonDumpsConfig config),
       (".bootstrap-config.json", bootstrapConfigJson config clock),
       ("README.md", generate_readme config clock)] }

/-- Fields of the JSON body accepted by `handler.do_POST`
(`data.get(k, default)`; a body `json.loads` rejects yields `data = {}`,
i.e. every field `none`). -/
structure PMPostBody where
  name : Option String
  description : Option String
  author : Option String
  bootstrap_icons : Option Bool
  custom_css : Option Bool
  custom_js : Option Bool
  live_reload : Option Bool
  minify_assets : Option Bool
  components : Option (List String)
  dependencies : Option (List String)
deriving DecidableEq

/-- Body of a response of this adapter: the serialised result dictionary on
success, or the error object. -/
inductive PMBody where
  | result (r : CreateResult)
  | err (fields : List (String × JVal))
deriving DecidableEq

/-- Embeds `handler.do_POST`.  The `Except` input is the outcome of the
fallible prelude inside the `try` block (reading `Content-Length` and the
body; note a JSON parse failure is caught locally and yields `data = {}`,
not an error).  An exception is converted at the top-level `except` into the
500 response with the `{'status': 'error', 'message': ..., 'details': ...}`
body; otherwise the options are assembled with their defaults and the
created structure is returned with the CORS headers. -/
def do_POST (req : Except String PMPostBody) (clock : Clock) : HResp PMBody :=
  match req with
  | .error e =>
    { statusCode := 500,
      headers := [("Content-Type", "application/json"),
                  ("Access-Control-Allow-Origin", "*")],
      body := .err [("status", .str "error"), ("message", .str e),
                    ("details", .str "Failed to create project")] }
  | .ok data =>
    let name := data.name.getD "My Advanced Project"
    let options : Options :=
      { description := some (data.description.getD
          ("Advanced Bootstrap project: " ++ name)),
        author := some (data.author.getD ""),
        bootstrap_icons := some (data.bootstrap_icons.getD true),
        custom_css := some (data.custom_css.getD true),
        custom_js := some (data.custom_js.getD true),
        live_reload := some (data.live_reload.getD true),
        minify_assets := some (data.minify_assets.getD false),
        components := some (data.components.getD []),
        dependencies := some (data.dependencies.getD []) }
    let result := create_project_structure name options clock
    { statusCode := 200,
      headers := [("Content-Type", "application/json"),
                  ("Access-Control-Allow-Origin", "*"),
                  ("Access-Control-Allow-Methods", "POST, GET, OPTIONS"),
                  ("Access-Control-Allow-Headers", "Content-Type")],
      body := .result result }

end PMApi

/-! ## Marker-occurrence machinery (for claims C2 and C8)

The reverse directions of claim C8 (a block is absent when its flag is off)
are proved with a decidable per-chunk analysis: the rendered template is a
concatenation of literal segments and interpolated values; an occurrence of
a marker string must start at its head character, and the checks below rule
out every possible start position. -/

/-- Concatenation of a list of character lists. -/
def joinList (l : List (List Char)) : List Char := l.foldr (· ++ ·) []

/-- Bool check: `M` occurs nowhere in `ch`. -/
def notInfixB (M ch : List Char) : Bool :=
  ch.tails.all (fun t => !(M.isPrefixOf t))

/-- Bool check: no nonempty suffix of `ch` shorter than `M` is a prefix of
`M` (no occurrence of `M` can start inside `ch` and continue past its
end). -/
def noOverlapB (M ch : List Char) : Bool :=
  (List.range (M.length - 1)).all
    (fun k => !(decide (ch.drop (ch.length - (k + 1)) = M.take (k + 1))))

/-- A chunk is safe for marker `M` with head character `c0`: it is an
interpolated value not containing `c0`, or a literal that passes both
occurrence checks. -/
def ChunkOk (M : List Char) (c0 : Char) (ch : List Char) : Prop :=
  c0 ∉ ch ∨ (notInfixB M ch = true ∧ noOverlapB M ch = true)


/-- Substring containment at the character level: `pat` occurs inside
`s`. -/
def strContains (s pat : String) : Prop := pat.data <:+: s.data

/-- Formalisation of a "valid" template input: the string contains no `<`
character (every realistic project name, theme name or year does not). -/
@[reducible] def TagFree (s : String) : Prop := '<' ∉ s.data

namespace VercelGen

/-- Chunk decomposition of the rendered `nav_html` splice: the block's
segment pieces when the flag is set, a single empty chunk otherwise. -/
def navChunks (name theme_color : String) (nav : Bool) : List (List Char) :=
  if nav then
    [navSeg0.data,
     theme_color.data,
     navSeg1.data,
     name.data,
     navSeg2p0.data,
     navSeg2p1.data,
     navSeg2p2.data]
  else [[]]

/-- Chunk decomposition of the rendered `footer_html` splice. -/
def footChunks (name year : String) (footer : Bool) : List (List Char) :=
  if footer then
    [ftSeg0.data,
     name.data,
     ftSeg1.data,
     year.data,
     ftSeg2p0.data,
     ftSeg2p1.data]
  else [[]]

/-- Chunk decomposition of the whole rendered template: literal segment
pieces interleaved with the interpolated values, in rendering order. -/
def templateChunks (name theme_color year : String) (nav footer : Bool) :
    List (List Char) :=
  [tplSeg0.data,
   name.data,
   tplSeg1.data,
   name.data,
   tplSeg2.data,
   (themeColorsGet theme_color).data,
   tplSeg3.data,
   ((hex_to_rgb (themeColorsGet theme_color)).getD "").data,
   tplSeg4p0.data,
   tplSeg4p1.data,
   tplSeg4p2.data,
   tplSeg4p3.data,
   tplSeg4p4.data,
   tplSeg4p5.data] ++
  navChunks name theme_color nav ++
  [tplSeg5.data,
   name.data,
   tplSeg6p0.data,
   tplSeg6p1.data,
   tplSeg6p2.data,
   tplSeg6p3.data,
   theme_color.data,
   tplSeg7.data,
   theme_color.data,
   tplSeg8p0.data,
   tplSeg8p1.data,
   tplSeg8p2.data,
   tplSeg8p3.data,
   tplSeg8p4.data,
   tplSeg8p5.data,
   theme_color.data,
   tplSeg9.data,
   theme_color.data,
   tplSeg10.data,
   theme_color.data,
   tplSeg11.data,
   theme_color.data,
   tplSeg12.data,
   theme_color.data,
   tplSeg13.data,
   theme_color.data,
   tplSeg14p0.data,
   tplSeg14p1.data,
   tplSeg14p2.data,
   tplSeg14p3.data,
   theme_color.data,
   tplSeg15.data] ++
  footChunks name year footer ++
  [tplSeg16p0.data,
   tplSeg16p1.data,
   tplSeg16p2.data,
   tplSeg16p3.data,
   name.data,
   tplSeg17.data]

end VercelGen

/-! ## Theorems -/

/-! ### Hex colour conversion (claim C3) -/

namespace VercelGen

theorem hexDigitVal_lt (c : Char) (d : Nat) (h : hexDigitVal c = some d) :
    d < 16 := by
  unfold hexDigitVal at h
  split at h
  · rename_i hc
    have h9 : c.toNat ≤ ('9' : Char).toNat := hc.2
    have e9 : ('9' : Char).toNat = 57 := by decide
    simp only [Option.some.injEq] at h
    omega
  · split at h
    · rename_i hc
      have h9 : c.toNat ≤ ('f' : Char).toNat := hc.2
      have e9 : ('f' : Char).toNat = 102 := by decide
      simp only [Option.some.injEq] at h
      omega
    · split at h
      · rename_i hc
        have h9 : c.toNat ≤ ('F' : Char).toNat := hc.2
        have e9 : ('F' : Char).toNat = 70 := by decide
        simp only [Option.some.injEq] at h
        omega
      · simp at h

theorem hexDigitVal_ne_hash (c : Char) (h : (hexDigitVal c).isSome = true) :
    ¬ c = '#' := by
  intro hc
  rw [hc] at h
  exact absurd h (by decide)

theorem parseHexDigits_pair (c1 c2 : Char) (d1 d2 : Nat)
    (h1 : hexDigitVal c1 = some d1) (h2 : hexDigitVal c2 = some d2) :
    parseHexDigits [c1, c2] = some (16 * d1 + d2) := by
  simp [parseHexDigits, h1, h2]

theorem list_six_of_length (ds : List Char) (h : ds.length = 6) :
    ∃ a b c d e f, ds = [a, b, c, d, e, f] := by
  match ds, h with
  | [a, b, c, d, e, f], _ => exact ⟨a, b, c, d, e, f, rfl⟩

theorem hexDigitVal_hexDigitChar :
    ∀ d, d < 16 → hexDigitVal (hexDigitChar d) = some d := by
  decide

theorem hexDigitChar_ne_hash : ∀ d, d < 16 → ¬ hexDigitChar d = '#' := by
  decide

theorem hexToRgbVals_of_hex (s : String) (h : IsHexColorString s) :
    ∃ r g b : Nat, r ≤ 255 ∧ g ≤ 255 ∧ b ≤ 255 ∧
      hexToRgbVals s = some (r, g, b) ∧
      hex_to_rgb s = some (Nat.repr r ++ "," ++ Nat.repr g ++ "," ++ Nat.repr b) := by
  obtain ⟨ds, hcase, hlen, hdig⟩ := h
  obtain ⟨c1, c2, c3, c4, c5, c6, rfl⟩ := list_six_of_length ds hlen
  have hv : ∀ c ∈ [c1, c2, c3, c4, c5, c6], ∃ d, hexDigitVal c = some d ∧ d < 16 := by
    intro c hc
    have hs := hdig c hc
    cases he : hexDigitVal c with
    | none => rw [he] at hs; simp at hs
    | some d => exact ⟨d, rfl, hexDigitVal_lt c d he⟩
  obtain ⟨d1, e1, l1⟩ := hv c1 (by simp)
  obtain ⟨d2, e2, l2⟩ := hv c2 (by simp)
  obtain ⟨d3, e3, l3⟩ := hv c3 (by simp)
  obtain ⟨d4, e4, l4⟩ := hv c4 (by simp)
  obtain ⟨d5, e5, l5⟩ := hv c5 (by simp)
  obtain ⟨d6, e6, l6⟩ := hv c6 (by simp)
  have hne : ¬ c1 = '#' := hexDigitVal_ne_hash c1 (by rw [e1]; rfl)
  have hdw : s.data.dropWhile (fun c => c = '#') = [c1, c2, c3, c4, c5, c6] := by
    rcases hcase with hs | hs <;> rw [hs] <;> simp [List.dropWhile_cons, hne]
  refine ⟨16 * d1 + d2, 16 * d3 + d4, 16 * d5 + d6, by omega, by omega, by omega, ?_, ?_⟩
  · unfold hexToRgbVals
    rw [hdw]
    simp [parseHexNat, parseHexDigits, e1, e2, e3, e4, e5, e6, List.isEmpty]
  · unfold hex_to_rgb
    unfold hexToRgbVals
    rw [hdw]
    simp [parseHexNat, parseHexDigits, e1, e2, e3, e4, e5, e6, List.isEmpty]

theorem hexToRgbVals_roundtrip (r g b : Nat) (hr : r < 256) (hg : g < 256)
    (hb : b < 256) : hexToRgbVals (rgbToHexColor r g b) = some (r, g, b) := by
  have hr16 : r / 16 < 16 := by omega
  have hg16 : g / 16 < 16 := by omega
  have hb16 : b / 16 < 16 := by omega
  have hrm : r % 16 < 16 := Nat.mod_lt _ (by omega)
  have hgm : g % 16 < 16 := Nat.mod_lt _ (by omega)
  have hbm : b % 16 < 16 := Nat.mod_lt _ (by omega)
  have hdata : (rgbToHexColor r g b).data =
      '#' :: [hexDigitChar (r / 16), hexDigitChar (r % 16), hexDigitChar (g / 16),
        hexDigitChar (g % 16), hexDigitChar (b / 16), hexDigitChar (b % 16)] := by
    simp [rgbToHexColor, byteToHexChars]
  have hne : ¬ hexDigitChar (r / 16) = '#' := hexDigitChar_ne_hash _ hr16
  unfold hexToRgbVals
  rw [hdata]
  rw [List.dropWhile_cons]
  simp only [decide_eq_true_eq, if_pos rfl]
  rw [List.dropWhile_cons]
  simp only [hne, decide_eq_true_eq, if_neg hne]
  simp [parseHexNat, parseHexDigits, List.isEmpty,
    hexDigitVal_hexDigitChar _ hr16, hexDigitVal_hexDigitChar _ hrm,
    hexDigitVal_hexDigitChar _ hg16, hexDigitVal_hexDigitChar _ hgm,
    hexDigitVal_hexDigitChar _ hb16, hexDigitVal_hexDigitChar _ hbm,
    Nat.div_add_mod]

end VercelGen

/-- C3: `hex_to_rgb` is a pure function such that for every 6-hex-digit
colour string (with or without a leading `'#'`) the output is exactly three
comma-separated decimal values, each in `[0, 255]`, and the round trip
hex → RGB → hex recovers the original colour for all `256³ = 16777216`
colour values (the parsed triple of the canonical encoding of any colour is
that colour, so re-encoding recovers the original string). -/
theorem C3_hex_to_rgb_correct :
    (∀ s : String, VercelGen.IsHexColorString s →
      ∃ r g b : Nat, r ≤ 255 ∧ g ≤ 255 ∧ b ≤ 255 ∧
        VercelGen.hexToRgbVals s = some (r, g, b) ∧
        VercelGen.hex_to_rgb s =
          some (Nat.repr r ++ "," ++ Nat.repr g ++ "," ++ Nat.repr b)) ∧
    (∀ r g b : Nat, r < 256 → g < 256 → b < 256 →
      VercelGen.hexToRgbVals (VercelGen.rgbToHexColor r g b) = some (r, g, b)) :=
  ⟨VercelGen.hexToRgbVals_of_hex, VercelGen.hexToRgbVals_roundtrip⟩

/-- Witness for C3 at the concrete colour `#0d6efd` and the triple
`(13, 110, 253)`. -/
theorem C3_hex_to_rgb_correct_witness :
    (∃ r g b : Nat, r ≤ 255 ∧ g ≤ 255 ∧ b ≤ 255 ∧
      VercelGen.hexToRgbVals "#0d6efd" = some (r, g, b) ∧
      VercelGen.hex_to_rgb "#0d6efd" =
        some (Nat.repr r ++ "," ++ Nat.repr g ++ "," ++ Nat.repr b)) ∧
    VercelGen.hexToRgbVals (VercelGen.rgbToHexColor 13 110 253) =
      some (13, 110, 253) :=
  ⟨C3_hex_to_rgb_correct.1 "#0d6efd"
      ⟨['0', 'd', '6', 'e', 'f', 'd'], Or.inr (by decide), by decide, by decide⟩,
   C3_hex_to_rgb_correct.2 13 110 253 (by decide) (by decide) (by decide)⟩

/-! ### Association list lemmas -/

theorem lookup_cons_pos {α : Type} (e : String × α) (t : List (String × α))
    (k : String) (h : k = e.1) : ((e :: t).lookup k) = some e.2 := by
  cases e with
  | mk a b =>
    subst h
    rw [List.lookup_cons]
    simp

theorem lookup_cons_neg {α : Type} (e : String × α) (t : List (String × α))
    (k : String) (h : ¬ k = e.1) : ((e :: t).lookup k) = t.lookup k := by
  cases e with
  | mk a b =>
    rw [List.lookup_cons]
    have hb : (k == a) = false := by
      simp only [beq_eq_false_iff_ne, ne_eq]
      exact h
    rw [hb]

theorem lookup_append_left {α : Type} (l₁ l₂ : List (String × α)) (k : String)
    (v : α) (h : l₁.lookup k = some v) : (l₁ ++ l₂).lookup k = some v := by
  induction l₁ with
  | nil => rw [List.lookup_nil] at h; exact absurd h (by simp)
  | cons a t ih =>
    rw [List.cons_append]
    by_cases hk : k = a.1
    · rw [lookup_cons_pos a t k hk] at h
      rw [lookup_cons_pos a (t ++ l₂) k hk]
      exact h
    · rw [lookup_cons_neg a t k hk] at h
      rw [lookup_cons_neg a (t ++ l₂) k hk]
      exact ih h

theorem lookup_append_none {α : Type} (l₁ l₂ : List (String × α)) (k : String)
    (h : l₁.lookup k = none) : (l₁ ++ l₂).lookup k = l₂.lookup k := by
  induction l₁ with
  | nil => simp
  | cons a t ih =>
    rw [List.cons_append]
    by_cases hk : k = a.1
    · rw [lookup_cons_pos a t k hk] at h
      exact absurd h (by simp)
    · rw [lookup_cons_neg a t k hk] at h
      rw [lookup_cons_neg a (t ++ l₂) k hk]
      exact ih h

theorem lookup_map_set_self {α : Type} (m : List (String × α)) (k : String)
    (v : α) (hs : (m.lookup k).isSome = true) :
    ((m.map (fun kv => if kv.1 = k then (k, v) else kv)).lookup k) = some v := by
  induction m with
  | nil => simp at hs
  | cons a t ih =>
    by_cases hk : a.1 = k
    · rw [List.map_cons, if_pos hk]
      exact lookup_cons_pos (k, v) _ k rfl
    · rw [List.map_cons, if_neg hk]
      have hk' : ¬ k = a.1 := fun h => hk h.symm
      rw [lookup_cons_neg a t k hk'] at hs
      rw [lookup_cons_neg a _ k hk']
      exact ih hs

theorem lookup_map_set_other {α : Type} (m : List (String × α)) (k q : String)
    (v : α) (h : ¬ q = k) :
    ((m.map (fun kv => if kv.1 = k then (k, v) else kv)).lookup q) = m.lookup q := by
  induction m with
  | nil => simp
  | cons a t ih =>
    by_cases hk : a.1 = k
    · rw [List.map_cons, if_pos hk]
      have hq : ¬ q = a.1 := by rw [hk]; exact h
      rw [lookup_cons_neg (k, v) _ q h, lookup_cons_neg a t q hq]
      exact ih
    · rw [List.map_cons, if_neg hk]
      by_cases hq : q = a.1
      · rw [lookup_cons_pos a _ q hq, lookup_cons_pos a t q hq]
      · rw [lookup_cons_neg a _ q hq, lookup_cons_neg a t q hq]
        exact ih

theorem dictSet_lookup_self {α : Type} (m : List (String × α)) (k : String) (v : α) :
    (dictSet m k v).lookup k = some v := by
  unfold dictSet
  split
  · rename_i hs
    exact lookup_map_set_self m k v hs
  · rename_i hs
    have hnone : m.lookup k = none := by
      cases h : m.lookup k with
      | none => rfl
      | some w => rw [h] at hs; simp at hs
    rw [lookup_append_none m [(k, v)] k hnone]
    exact lookup_cons_pos (k, v) [] k rfl

theorem dictSet_lookup_other {α : Type} (m : List (String × α)) (k q : String)
    (v : α) (h : ¬ q = k) : (dictSet m k v).lookup q = m.lookup q := by
  unfold dictSet
  split
  · exact lookup_map_set_other m k q v h
  · cases hm : m.lookup q with
    | some w => exact lookup_append_left m [(k, v)] q w hm
    | none =>
      rw [lookup_append_none m [(k, v)] q hm]
      rw [lookup_cons_neg (k, v) [] q h]
      exact List.lookup_nil

/-! ### Configuration store (claims C4 and C5) -/

namespace PMCli

theorem mergeDefaults_cons (d : String × JVal) (ds cfg : ConfigMap) :
    mergeDefaults (d :: ds) cfg =
      mergeDefaults ds (if (cfg.lookup d.1).isSome then cfg else cfg ++ [d]) := rfl

theorem mergeDefaults_lookup_mem (ds cfg : ConfigMap) (k : String) (v : JVal)
    (h : cfg.lookup k = some v) : (mergeDefaults ds cfg).lookup k = some v := by
  induction ds generalizing cfg with
  | nil => exact h
  | cons d ds ih =>
    rw [mergeDefaults_cons]
    by_cases hd : (cfg.lookup d.1).isSome
    · rw [if_pos hd]
      exact ih cfg h
    · rw [if_neg hd]
      exact ih _ (lookup_append_left cfg [d] k v h)

theorem mergeDefaults_lookup_absent (ds cfg : ConfigMap) (k : String)
    (h : cfg.lookup k = none) :
    (mergeDefaults ds cfg).lookup k = ds.lookup k := by
  induction ds generalizing cfg with
  | nil => rw [List.lookup_nil]; exact h
  | cons d ds ih =>
    rw [mergeDefaults_cons]
    by_cases hk : k = d.1
    · have hd : ¬ (cfg.lookup d.1).isSome = true := by
        rw [← hk, h]
        simp
      rw [if_neg hd]
      have hc : (cfg ++ [d]).lookup k = some d.2 := by
        rw [lookup_append_none cfg [d] k h]
        exact lookup_cons_pos d [] k hk
      rw [mergeDefaults_lookup_mem ds (cfg ++ [d]) k d.2 hc]
      rw [lookup_cons_pos d ds k hk]
    · have hnone : (if (cfg.lookup d.1).isSome then cfg else cfg ++ [d]).lookup k = none := by
        split
        · exact h
        · rw [lookup_append_none cfg [d] k h]
          rw [lookup_cons_neg d [] k hk]
          rw [List.lookup_nil]
      rw [ih _ hnone]
      rw [lookup_cons_neg d ds k hk]

theorem mergeDefaults_eq_of_all (ds cfg : ConfigMap)
    (h : ∀ kv ∈ ds, (cfg.lookup kv.1).isSome = true) :
    mergeDefaults ds cfg = cfg := by
  induction ds with
  | nil => rfl
  | cons d ds ih =>
    rw [mergeDefaults_cons, if_pos (h d (by simp))]
    exact ih (fun kv hkv => h kv (by simp [hkv]))

theorem lookup_isSome_of_mem (ds : ConfigMap) (kv : String × JVal)
    (h : kv ∈ ds) : (ds.lookup kv.1).isSome = true := by
  induction ds with
  | nil => simp at h
  | cons d ds ih =>
    by_cases hk : kv.1 = d.1
    · rw [lookup_cons_pos d ds kv.1 hk]
      rfl
    · rw [lookup_cons_neg d ds kv.1 hk]
      rcases List.mem_cons.mp h with h | h
      · exact absurd (congrArg Prod.fst h) hk
      · exact ih h

theorem mergeDefaults_isSome (ds cfg : ConfigMap) (kv : String × JVal)
    (h : kv ∈ ds) : ((mergeDefaults ds cfg).lookup kv.1).isSome = true := by
  cases hc : cfg.lookup kv.1 with
  | some v => rw [mergeDefaults_lookup_mem ds cfg kv.1 v hc]; rfl
  | none =>
    rw [mergeDefaults_lookup_absent ds cfg kv.1 hc]
    exact lookup_isSome_of_mem ds kv h

theorem load_config_defaults_present (dirName : String)
    (file : Option FileContent) (kv : String × JVal)
    (h : kv ∈ default_config dirName) :
    ((load_config dirName file).lookup kv.1).isSome = true := by
  unfold load_config
  cases file with
  | none => exact lookup_isSome_of_mem _ kv h
  | some fc =>
    cases fc with
    | text s => exact lookup_isSome_of_mem _ kv h
    | jsonMap m => exact mergeDefaults_isSome _ m kv h

end PMCli

/-- C5: the configuration load/merge operation is idempotent — loading a
configuration, saving it unchanged, and loading again yields a mapping
identical to the first load, for every project directory name and every
on-disk state of the configuration file (absent, unparseable, or any stored
JSON object). -/
theorem C5_load_save_load_idempotent (dirName : String)
    (file : Option PMCli.FileContent) :
    PMCli.load_config dirName
        (PMCli.save_config (PMCli.load_config dirName file)) =
      PMCli.load_config dirName file := by
  show PMCli.mergeDefaults (PMCli.default_config dirName)
      (PMCli.load_config dirName file) = PMCli.load_config dirName file
  apply PMCli.mergeDefaults_eq_of_all
  intro kv hkv
  exact PMCli.load_config_defaults_present dirName file kv hkv

/-- C4 (amended): configuration load returns the default mapping when the
file is absent; when the file is present and parses, every stored key keeps
its stored value (defaults never overwrite) and every key absent from the
file reads as its default in the returned mapping; a file that fails to
parse falls back to the defaults without raising; and the load operation
leaves the on-disk file unchanged — missing keys are filled only in the
returned in-memory mapping, not persisted back by the load itself. -/
theorem C4_load_config_defaults (dirName : String)
    (file : Option PMCli.FileContent) :
    (file = none →
      PMCli.load_config dirName file = PMCli.default_config dirName) ∧
    (∀ s, file = some (.text s) →
      PMCli.load_config dirName file = PMCli.default_config dirName) ∧
    (∀ m, file = some (.jsonMap m) →
      (∀ k v, m.lookup k = some v →
        (PMCli.load_config dirName file).lookup k = some v) ∧
      (∀ k, m.lookup k = none →
        (PMCli.load_config dirName file).lookup k =
          (PMCli.default_config dirName).lookup k)) ∧
    (PMCli.load_config_fs dirName file).2 = file := by
  refine ⟨?_, ?_, ?_, rfl⟩
  · intro h
    rw [h]
    rfl
  · intro s h
    rw [h]
    rfl
  · intro m h
    subst h
    constructor
    · intro k v hk
      exact PMCli.mergeDefaults_lookup_mem _ m k v hk
    · intro k hk
      exact PMCli.mergeDefaults_lookup_absent _ m k hk

/-- Witness for C4 at a stored object `{"author": "me"}`: the stored value
survives the merge, the missing key `version` reads as its default, and the
file is unchanged. -/
theorem C4_load_config_defaults_witness :
    (PMCli.load_config "proj" (some (.jsonMap [("author", JVal.str "me")]))).lookup
        "author" = some (JVal.str "me") ∧
    (PMCli.load_config "proj" (some (.jsonMap [("author", JVal.str "me")]))).lookup
        "version" = some (JVal.str "1.0.0") ∧
    (PMCli.load_config_fs "proj" (some (.jsonMap [("author", JVal.str "me")]))).2 =
      some (.jsonMap [("author", JVal.str "me")]) :=
  ⟨((C4_load_config_defaults "proj" _).2.2.1 _ rfl).1 "author" (JVal.str "me")
      (by decide),
   by
    rw [((C4_load_config_defaults "proj" _).2.2.1 _ rfl).2 "version" (by decide)]
    decide,
   (C4_load_config_defaults "proj" _).2.2.2⟩

/-- Counterexample to C4 as stated: at the stored object `{"name": "x"}`
the key `author` is absent from the file; the load fills it from the
defaults in the returned mapping, but the file state coming out of the load
is the input file, which still has no `author` key — nothing is persisted
back. -/
theorem C4_counterexample_not_persisted :
    (PMCli.load_config_fs "proj" (some (.jsonMap [("name", JVal.str "x")]))).1.lookup
        "author" = some (JVal.str "") ∧
    (PMCli.load_config_fs "proj" (some (.jsonMap [("name", JVal.str "x")]))).2 =
      some (.jsonMap [("name", JVal.str "x")]) ∧
    ([("name", JVal.str "x")] : PMCli.ConfigMap).lookup "author" = none := by
  refine ⟨by decide, rfl, by decide⟩

/-! ### Live-reload debounce (claim C9) -/

namespace PMCli

theorem lastFired_nil (p : String) : lastFired [] p = none := rfl

theorem lastFired_cons (pe : FileEvent × Bool) (rest : List (FileEvent × Bool))
    (p : String) :
    lastFired (pe :: rest) p =
      match lastFired rest p with
      | some t => some t
      | none => if pe.2 = true ∧ pe.1.src_path = p then some pe.1.time else none := rfl

theorem lastFired_append (past : List (FileEvent × Bool)) (e : FileEvent)
    (f : Bool) (p : String) :
    lastFired (past ++ [(e, f)]) p =
      if f = true ∧ e.src_path = p then some e.time else lastFired past p := by
  induction past with
  | nil =>
    rw [List.nil_append, lastFired_cons, lastFired_nil]
  | cons q past ih =>
    rw [List.cons_append, lastFired_cons, ih, lastFired_cons]
    by_cases hc : f = true ∧ e.src_path = p
    · simp only [if_pos hc]
    · simp only [if_neg hc]

theorem lastFired_none (past : List (FileEvent × Bool)) (p : String)
    (h : lastFired past p = none) :
    ∀ pe ∈ past, ¬(pe.2 = true ∧ pe.1.src_path = p) := by
  induction past with
  | nil => simp
  | cons q past ih =>
    rw [lastFired_cons] at h
    intro pe hpe
    cases hl : lastFired past p with
    | some t => rw [hl] at h; simp at h
    | none =>
      rw [hl] at h
      rcases List.mem_cons.mp hpe with hq | hq
      · subst hq
        intro hcond
        rw [if_pos hcond] at h
        simp at h
      · exact ih hl pe hq

theorem lastFired_some (past : List (FileEvent × Bool)) (p : String) (t : ℚ)
    (h : lastFired past p = some t) :
    ∃ pe ∈ past, pe.2 = true ∧ pe.1.src_path = p ∧ pe.1.time = t := by
  induction past with
  | nil => rw [lastFired_nil] at h; exact absurd h (by simp)
  | cons q past ih =>
    rw [lastFired_cons] at h
    cases hl : lastFired past p with
    | some u =>
      rw [hl] at h
      obtain ⟨pe, hpe, hc⟩ := ih (by rw [hl, ← h])
      exact ⟨pe, List.mem_cons_of_mem q hpe, hc⟩
    | none =>
      rw [hl] at h
      by_cases hc : q.2 = true ∧ q.1.src_path = p
      · rw [if_pos hc] at h
        exact ⟨q, List.mem_cons_self q past, hc.1, hc.2, Option.some.inj h⟩
      · rw [if_neg hc] at h
        simp at h

theorem lastFired_is_max (past : List (FileEvent × Bool)) (p : String) (t : ℚ)
    (hord : List.Pairwise (fun a b => a.1.time ≤ b.1.time) past)
    (h : lastFired past p = some t) :
    ∀ pe ∈ past, pe.2 = true → pe.1.src_path = p → pe.1.time ≤ t := by
  induction past with
  | nil => simp
  | cons q past ih =>
    rw [lastFired_cons] at h
    rcases List.pairwise_cons.mp hord with ⟨hq, hord'⟩
    intro pe hpe hf hp
    cases hl : lastFired past p with
    | some u =>
      rw [hl] at h
      injection h with h
      subst h
      rcases List.mem_cons.mp hpe with he | he
      · subst he
        obtain ⟨pe', hpe', _, _, ht'⟩ := lastFired_some past p u hl
        calc pe.1.time ≤ pe'.1.time := hq pe' hpe'
          _ = u := ht'
      · exact ih hord' hl pe he hf hp
    | none =>
      rw [hl] at h
      by_cases hc : q.2 = true ∧ q.1.src_path = p
      · rw [if_pos hc] at h
        injection h with h
        rcases List.mem_cons.mp hpe with he | he
        · subst he
          exact le_of_eq h
        · exact absurd ⟨hf, hp⟩ (lastFired_none past p hl pe he)
      · rw [if_neg hc] at h
        simp at h

theorem on_modified_eq_dir (st : WatchState) (e : FileEvent)
    (hdir : e.dirFlag = true) : on_modified st e = (st, false) := by
  simp [on_modified, hdir]

theorem on_modified_eq_irrel (st : WatchState) (e : FileEvent)
    (hdir : e.dirFlag = false) (hrel : relevantPath e.src_path = false) :
    on_modified st e = (st, false) := by
  simp [on_modified, hdir, hrel]

theorem on_modified_eq_first (st : WatchState) (e : FileEvent)
    (hdir : e.dirFlag = false) (hrel : relevantPath e.src_path = true)
    (hl : st.lookup e.src_path = none) :
    on_modified st e = (dictSet st e.src_path e.time, true) := by
  simp [on_modified, hdir, hrel, hl]

theorem on_modified_eq_recent (st : WatchState) (e : FileEvent) (t : ℚ)
    (hdir : e.dirFlag = false) (hrel : relevantPath e.src_path = true)
    (hl : st.lookup e.src_path = some t) (hlt : e.time - t < 1/2) :
    on_modified st e = (st, false) := by
  simp [on_modified, hdir, hrel, hl, hlt]
  linarith

theorem on_modified_eq_fire (st : WatchState) (e : FileEvent) (t : ℚ)
    (hdir : e.dirFlag = false) (hrel : relevantPath e.src_path = true)
    (hl : st.lookup e.src_path = some t) (hlt : ¬ e.time - t < 1/2) :
    on_modified st e = (dictSet st e.src_path e.time, true) := by
  simp [on_modified, hdir, hrel, hl, hlt]
  linarith

theorem debounceSpecFires_eq_true (past : List (FileEvent × Bool)) (e : FileEvent)
    (hdir : e.dirFlag = false) (hrel : relevantPath e.src_path = true)
    (hall : ∀ pe ∈ past, pe.2 = true → pe.1.src_path = e.src_path →
      ¬(e.time - pe.1.time < 1/2)) :
    debounceSpecFires past e = true := by
  simp only [debounceSpecFires, hdir, Bool.not_false, hrel, Bool.true_and,
    Bool.and_eq_true, decide_eq_true_eq]
  exact hall

theorem debounceSpecFires_eq_false_of_recent (past : List (FileEvent × Bool))
    (e : FileEvent) (pe : FileEvent × Bool) (hpe : pe ∈ past) (hf : pe.2 = true)
    (hp : pe.1.src_path = e.src_path) (hlt : e.time - pe.1.time < 1/2) :
    debounceSpecFires past e = false := by
  have hnot : (decide (∀ pe ∈ past, pe.2 = true → pe.1.src_path = e.src_path →
      ¬(e.time - pe.1.time < 1/2))) = false := by
    rw [decide_eq_false_iff_not]
    intro hcontra
    exact hcontra pe hpe hf hp hlt
  unfold debounceSpecFires
  rw [hnot]
  simp

theorem debounceSpecFires_eq_of_flags (past : List (FileEvent × Bool))
    (e : FileEvent) (h : e.dirFlag = true ∨ relevantPath e.src_path = false) :
    debounceSpecFires past e = false := by
  rcases h with h | h <;> simp [debounceSpecFires, h]

theorem on_modified_fires_eq (st : WatchState) (past : List (FileEvent × Bool))
    (e : FileEvent)
    (hinv : ∀ p, st.lookup p = lastFired past p)
    (hord : List.Pairwise (fun a b => a.1.time ≤ b.1.time) past)
    (hb : ∀ pe ∈ past, pe.1.time ≤ e.time) :
    (on_modified st e).2 = debounceSpecFires past e := by
  by_cases hdir : e.dirFlag = true
  · rw [on_modified_eq_dir st e hdir,
      debounceSpecFires_eq_of_flags past e (Or.inl hdir)]
  · have hdir' : e.dirFlag = false := by
      cases h : e.dirFlag
      · rfl
      · exact absurd h hdir
    by_cases hrel : relevantPath e.src_path = true
    · cases hl : st.lookup e.src_path with
      | none =>
        have hlf : lastFired past e.src_path = none := by rw [← hinv]; exact hl
        rw [on_modified_eq_first st e hdir' hrel hl]
        rw [debounceSpecFires_eq_true past e hdir' hrel]
        intro pe hpe hf hp _
        exact lastFired_none past e.src_path hlf pe hpe ⟨hf, hp⟩
      | some t =>
        have hlf : lastFired past e.src_path = some t := by rw [← hinv]; exact hl
        by_cases hlt : e.time - t < 1/2
        · rw [on_modified_eq_recent st e t hdir' hrel hl hlt]
          obtain ⟨pe, hpe, hf, hp, ht⟩ := lastFired_some past e.src_path t hlf
          rw [debounceSpecFires_eq_false_of_recent past e pe hpe hf hp
            (by rw [ht]; exact hlt)]
        · rw [on_modified_eq_fire st e t hdir' hrel hl hlt]
          rw [debounceSpecFires_eq_true past e hdir' hrel]
          intro pe hpe hf hp hcontra
          have hle : pe.1.time ≤ t :=
            lastFired_is_max past e.src_path t hord hlf pe hpe hf hp
          exact hlt (by linarith)
    · have hrel' : relevantPath e.src_path = false := by
        cases h : relevantPath e.src_path
        · rfl
        · exact absurd h hrel
      rw [on_modified_eq_irrel st e hdir' hrel',
        debounceSpecFires_eq_of_flags past e (Or.inr hrel')]

theorem on_modified_cases (st : WatchState) (e : FileEvent) :
    on_modified st e = (st, false) ∨
      on_modified st e = (dictSet st e.src_path e.time, true) := by
  by_cases hdir : e.dirFlag = true
  · exact Or.inl (on_modified_eq_dir st e hdir)
  · have hdir' : e.dirFlag = false := by
      cases h : e.dirFlag
      · rfl
      · exact absurd h hdir
    by_cases hrel : relevantPath e.src_path = true
    · cases hl : st.lookup e.src_path with
      | none => exact Or.inr (on_modified_eq_first st e hdir' hrel hl)
      | some t =>
        by_cases hlt : e.time - t < 1/2
        · exact Or.inl (on_modified_eq_recent st e t hdir' hrel hl hlt)
        · exact Or.inr (on_modified_eq_fire st e t hdir' hrel hl hlt)
    · have hrel' : relevantPath e.src_path = false := by
        cases h : relevantPath e.src_path
        · rfl
        · exact absurd h hrel
      exact Or.inl (on_modified_eq_irrel st e hdir' hrel')

theorem on_modified_state_inv (st : WatchState) (past : List (FileEvent × Bool))
    (e : FileEvent)
    (hinv : ∀ p, st.lookup p = lastFired past p) :
    ∀ p, ((on_modified st e).1.lookup p) =
      lastFired (past ++ [(e, (on_modified st e).2)]) p := by
  intro p
  rw [lastFired_append]
  rcases on_modified_cases st e with h | h <;> rw [h]
  · rw [if_neg (by simp), hinv]
  · by_cases hp : p = e.src_path
    · subst hp
      rw [dictSet_lookup_self, if_pos ⟨rfl, rfl⟩]
    · rw [dictSet_lookup_other st e.src_path p e.time hp]
      rw [if_neg (by intro hc; exact hp hc.2.symm), hinv]

theorem runWatcher_eq_spec (es : List FileEvent) (st : WatchState)
    (past : List (FileEvent × Bool))
    (hinv : ∀ p, st.lookup p = lastFired past p)
    (hord : List.Pairwise (fun a b => a.1.time ≤ b.1.time) past)
    (hbridge : ∀ pe ∈ past, ∀ e ∈ es, pe.1.time ≤ e.time)
    (hes : List.Pairwise (fun a b => a.time ≤ b.time) es) :
    runWatcher st es = debounceSpecRun past es := by
  induction es generalizing st past with
  | nil => rfl
  | cons e es ih =>
    have hb : ∀ pe ∈ past, pe.1.time ≤ e.time := by
      intro pe hpe
      exact hbridge pe hpe e (List.mem_cons_self e es)
    have hfeq : (on_modified st e).2 = debounceSpecFires past e :=
      on_modified_fires_eq st past e hinv hord hb
    show (on_modified st e).2 :: runWatcher (on_modified st e).1 es =
      debounceSpecFires past e ::
        debounceSpecRun (past ++ [(e, debounceSpecFires past e)]) es
    rw [hfeq]
    congr 1
    rcases List.pairwise_cons.mp hes with ⟨hehead, hes'⟩
    apply ih
    · intro p
      rw [← hfeq]
      exact on_modified_state_inv st past e hinv p
    · rw [List.pairwise_append]
      refine ⟨hord, by simp, ?_⟩
      intro pe hpe x hx
      rcases List.mem_singleton.mp hx with rfl
      exact hb pe hpe
    · intro pe hpe e' he'
      rcases List.mem_append.mp hpe with hp | hp
      · exact hbridge pe hp e' (List.mem_cons_of_mem e he')
      · rcases List.mem_singleton.mp hp with rfl
        exact hehead e' he'
    · exact hes'

end PMCli

/-- C9: over any monotone-in-time sequence of file-modification events, the
watcher's callback decisions coincide with the specification: an event
triggers the callback if and only if it is a non-directory event whose path
ends in one of `.html`, `.css`, `.js`, `.scss`, `.sass` and no earlier
callback-triggering event for the same path lies within the preceding
0.5 seconds (`runWatcher` from the empty `last_modified` dictionary equals
`debounceSpecRun` from the empty history). -/
theorem C9_debounce_matches_spec (es : List PMCli.FileEvent)
    (hes : List.Pairwise (fun a b => a.time ≤ b.time) es) :
    PMCli.runWatcher [] es = PMCli.debounceSpecRun [] es :=
  PMCli.runWatcher_eq_spec es [] [] (fun _ => rfl) (by simp) (by simp) hes

/-- Witness for C9: two events on `a.css` 0.25 seconds apart — the first
fires, the second is suppressed. -/
theorem C9_debounce_matches_spec_witness :
    List.Pairwise (fun a b : PMCli.FileEvent => a.time ≤ b.time)
        [⟨false, "a.css", 0⟩, ⟨false, "a.css", 1/4⟩, ⟨false, "a.css", 1⟩] ∧
    PMCli.runWatcher []
        [⟨false, "a.css", 0⟩, ⟨false, "a.css", 1/4⟩, ⟨false, "a.css", 1⟩] =
      PMCli.debounceSpecRun []
        [⟨false, "a.css", 0⟩, ⟨false, "a.css", 1/4⟩, ⟨false, "a.css", 1⟩] :=
  ⟨by norm_num [List.pairwise_cons],
   C9_debounce_matches_spec _ (by norm_num [List.pairwise_cons])⟩

/-! ### Theme package entries (claim C6) and project structure keys (C10) -/

/-- C6: a POST body `{"name": "Demo", "components": ["navbar"]}` produces a
zip archive whose entries are exactly `index.html`, `css/custom.css`,
`js/custom.js`, `README.md` and `components/navbar.html` (no
`cards.html`/`buttons.html`); in general each component entry is present in
the archive if and only if its name is in the requested list. -/
theorem C6_theme_package_entries :
    (∀ clock : Clock,
      (VercelGen.do_POST (.objBody ⟨some "Demo", none, some ["navbar"]⟩)
          clock).body =
        .zip (VercelGen.generate_theme_package "Demo" "primary" ["navbar"]
          clock.year) ∧
      (VercelGen.generate_theme_package "Demo" "primary" ["navbar"]
          clock.year).map Prod.fst =
        ["index.html", "css/custom.css", "js/custom.js", "README.md",
         "components/navbar.html"]) ∧
    (∀ (name theme year : String) (comps : List String),
      ("components/navbar.html" ∈
          (VercelGen.generate_theme_package name theme comps year).map Prod.fst ↔
        "navbar" ∈ comps) ∧
      ("components/cards.html" ∈
          (VercelGen.generate_theme_package name theme comps year).map Prod.fst ↔
        "cards" ∈ comps) ∧
      ("components/buttons.html" ∈
          (VercelGen.generate_theme_package name theme comps year).map Prod.fst ↔
        "buttons" ∈ comps)) := by
  constructor
  · intro clock
    exact ⟨rfl, rfl⟩
  · intro name theme year comps
    refine ⟨?_, ?_, ?_⟩ <;>
      · simp only [VercelGen.generate_theme_package, List.map_append,
          List.mem_append]
        by_cases hn : "navbar" ∈ comps <;>
          by_cases hc : "cards" ∈ comps <;>
            by_cases hb : "buttons" ∈ comps <;>
              simp [hn, hc, hb]

/-- C10: for every project name, every option combination (components and
dependencies included) and every clock, the `files` mapping produced by the
advanced project-structure generator — directly and through the POST
handler — has exactly the six keys `index.html`, `css/style.css`,
`js/script.js`, `project.json`, `.bootstrap-config.json`, `README.md`;
requested components never add file entries. -/
theorem C10_files_fixed_keys :
    (∀ (name : String) (options : PMApi.Options) (clock : Clock),
      (PMApi.create_project_structure name options clock).files.map Prod.fst =
        ["index.html", "css/style.css", "js/script.js", "project.json",
         ".bootstrap-config.json", "README.md"]) ∧
    (∀ (b : PMApi.PMPostBody) (clock : Clock),
      ∃ r, (PMApi.do_POST (.ok b) clock).body = .result r ∧
        r.files.map Prod.fst =
          ["index.html", "css/style.css", "js/script.js", "project.json",
           ".bootstrap-config.json", "README.md"]) := by
  constructor
  · intro name options clock
    rfl
  · intro b clock
    exact ⟨_, rfl, rfl⟩

/-! ### Error handling of the HTTP adapters (claim C7) -/

/-- C7 (amended): every error raised inside an adapter's handler logic is
caught at the top level and converted into an HTTP 500 response carrying a
JSON error object and the permissive CORS header — but the two adapters use
different body shapes: the project-manager adapter answers
`{status: "error", message, details}`, while the template-generator adapter
answers `{success: false, error, timestamp}` (not `{status, message}`). -/
theorem C7_error_responses :
    (∀ (e : String) (clock : Clock),
      (PMApi.do_POST (.error e) clock).statusCode = 500 ∧
      ("Access-Control-Allow-Origin", "*") ∈
        (PMApi.do_POST (.error e) clock).headers ∧
      (PMApi.do_POST (.error e) clock).body =
        .err [("status", .str "error"), ("message", .str e),
              ("details", .str "Failed to create project")]) ∧
    (∀ (msg : String) (clock : Clock),
      VercelGen.do_POST (.invalid msg) clock =
        VercelGen.send_error_response msg clock ∧
      (VercelGen.send_error_response msg clock).statusCode = 500 ∧
      ("Access-Control-Allow-Origin", "*") ∈
        (VercelGen.send_error_response msg clock).headers ∧
      (VercelGen.send_error_response msg clock).body =
        .json [("success", .jbool false), ("error", .str msg),
               ("timestamp", .str clock.iso)]) := by
  constructor
  · intro e clock
    refine ⟨rfl, ?_, rfl⟩
    show ("Access-Control-Allow-Origin", "*") ∈
      [("Content-Type", "application/json"),
       ("Access-Control-Allow-Origin", "*")]
    decide
  · intro msg clock
    refine ⟨rfl, rfl, ?_, rfl⟩
    show ("Access-Control-Allow-Origin", "*") ∈
      [("Content-Type", "application/json"),
       ("Access-Control-Allow-Origin", "*")]
    decide

/-- Witness for C7 at the concrete error text `"boom"`. -/
theorem C7_error_responses_witness :
    (PMApi.do_POST (.error "boom") ⟨"t", "d", "2026"⟩).statusCode = 500 ∧
    (VercelGen.send_error_response "boom" ⟨"t", "d", "2026"⟩).statusCode = 500 :=
  ⟨(C7_error_responses.1 "boom" ⟨"t", "d", "2026"⟩).1,
   (C7_error_responses.2 "boom" ⟨"t", "d", "2026"⟩).2.1⟩

/-- Counterexample to C7 as stated: the template-generator adapter's 500
body is a JSON object whose keys are `success`, `error`, `timestamp` — it
has no `status` and no `message` key, so it does not have the shape
`{status: "error", message}` the claim asserts for every adapter. -/
theorem C7_counterexample_vercel_error_shape :
    ∃ fields,
      (VercelGen.send_error_response "boom" ⟨"t", "d", "2026"⟩).body =
        .json fields ∧
      fields.map Prod.fst = ["success", "error", "timestamp"] ∧
      fields.lookup "status" = none ∧
      fields.lookup "message" = none :=
  ⟨_, rfl, rfl, by decide, by decide⟩

/-! ### Scaffolding into an existing directory (claim C1) -/

/-- C1 (amended): the advanced project manager's scaffold refuses an
existing target — for every file-system state whose directory listing
already contains the project's slug directory, `create_project` reports the
distinct already-exists outcome and leaves the file system untouched.  (The
CLI generator's `create_project` in `src/api/bootstrap_generator.py` does
not share this property: see the counterexample.) -/
theorem C1_advanced_create_refuses_existing (fs : PMCli.PFS) (name : String)
    (options : PMCli.ConfigMap) (clock : Clock)
    (h : fs.dirs.contains (pySlug name) = true) :
    PMCli.create_project fs name options clock = (fs, .alreadyExists) := by
  unfold PMCli.create_project
  rw [if_pos h]

/-- Witness for C1 at a file system already holding `demo/`. -/
theorem C1_advanced_create_refuses_existing_witness :
    (FileSys.mk ["demo"] [] : PMCli.PFS).dirs.contains (pySlug "Demo") = true ∧
    PMCli.create_project ⟨["demo"], []⟩ "Demo" [] ⟨"t", "d", "2026"⟩ =
      (⟨["demo"], []⟩, .alreadyExists) :=
  ⟨by decide,
   C1_advanced_create_refuses_existing ⟨["demo"], []⟩ "Demo" [] ⟨"t", "d", "2026"⟩
     (by decide)⟩

/-- Counterexample to C1 as stated: `BootstrapGenerator.create_project`
(`src/api/bootstrap_generator.py`) creates the target with `exist_ok=True`
and overwrites.  Scaffolding `Demo` into a file system where
`generated/demo` already exists and holds an `index.html` with content
`"OLD"` replaces that file's content and returns the directory normally —
no already-exists outcome, and an existing file is modified. -/
theorem C1_counterexample_cli_create_overwrites :
    ((FileSys.mk ["generated", "generated/demo"]
        [("generated/demo/index.html", "OLD")] : CliGen.TFS).files.lookup
      "generated/demo/index.html" = some "OLD") ∧
    ((CliGen.create_project
        ⟨["generated", "generated/demo"], [("generated/demo/index.html", "OLD")]⟩
        "Demo" "basic" "2026").1.files.lookup "generated/demo/index.html" ≠
      some "OLD") ∧
    ((CliGen.create_project
        ⟨["generated", "generated/demo"], [("generated/demo/index.html", "OLD")]⟩
        "Demo" "basic" "2026").2 = "generated/demo") := by
  refine ⟨by decide, ?_, by decide⟩
  decide

/-! ### Marker-occurrence lemmas -/

theorem joinList_nil : joinList [] = [] := rfl

theorem joinList_cons (ch : List Char) (rest : List (List Char)) :
    joinList (ch :: rest) = ch ++ joinList rest := rfl

theorem notInfixB_correct (M ch : List Char) (h : notInfixB M ch = true) :
    ¬ M <:+: ch := by
  intro hinf
  rcases List.infix_iff_prefix_suffix.mp hinf with ⟨t, hpre, hsuf⟩
  have ht : t ∈ ch.tails := (List.mem_tails t ch).mpr hsuf
  have := List.all_eq_true.mp h t ht
  rw [Bool.not_eq_true'] at this
  rw [← Bool.not_eq_true] at this
  exact this (List.isPrefixOf_iff_prefix.mpr hpre)

theorem noOverlapB_correct (M ch : List Char) (h : noOverlapB M ch = true)
    (t : List Char) (hsuf : t <:+ ch) (hne : t ≠ []) (hlt : t.length < M.length) :
    ¬ t <+: M := by
  intro hpre
  have hk : t.length - 1 ∈ List.range (M.length - 1) := by
    rw [List.mem_range]
    have : 1 ≤ t.length := Nat.one_le_iff_ne_zero.mpr (by
      intro h0
      exact hne (List.eq_nil_of_length_eq_zero h0))
    omega
  have hchk := List.all_eq_true.mp h _ hk
  have h1 : t.length - 1 + 1 = t.length := by
    have : 1 ≤ t.length := Nat.one_le_iff_ne_zero.mpr (by
      intro h0
      exact hne (List.eq_nil_of_length_eq_zero h0))
    omega
  rw [h1] at hchk
  have hdrop : ch.drop (ch.length - t.length) = t := by
    rcases hsuf with ⟨u, rfl⟩
    simp [Nat.add_sub_cancel]
  have htake : M.take t.length = t := by
    rcases hpre with ⟨v, rfl⟩
    simp
  rw [hdrop, htake] at hchk
  simp at hchk

theorem prefix_head (u M : List Char) (hpre : u <+: M) (hne : u ≠ []) :
    u.head? = M.head? := by
  rcases hpre with ⟨v, rfl⟩
  cases u with
  | nil => exact absurd rfl hne
  | cons c u => rfl

theorem infix_append_cases (M a b : List Char) (h : M <:+: a ++ b) :
    M <:+: a ∨ M <:+: b ∨
      ∃ u, u ≠ [] ∧ u.length < M.length ∧ u <:+ a ∧ u <+: M := by
  rcases h with ⟨s, t, hst⟩
  rw [List.append_assoc] at hst
  rcases List.append_eq_append_iff.mp hst with ⟨a', ha, hb⟩ | ⟨c', hs, hd⟩
  · rcases List.append_eq_append_iff.mp hb with ⟨x, hax, htx⟩ | ⟨y, hMy, hby⟩
    · left
      refine ⟨s, x, ?_⟩
      rw [List.append_assoc, ← hax, ← ha]
    · cases a' with
      | nil =>
        right
        left
        rw [List.nil_append] at hMy
        refine ⟨[], t, ?_⟩
        rw [List.nil_append, hMy]
        exact hby.symm
      | cons c a'' =>
        by_cases hlen : (c :: a'').length = M.length
        · left
          have heq : (c :: a'') = M := List.IsPrefix.eq_of_length ⟨y, hMy.symm⟩ hlen
          refine ⟨s, [], ?_⟩
          rw [List.append_nil, ← heq, ← ha]
        · right
          right
          refine ⟨c :: a'', by simp, ?_, ⟨s, ha.symm⟩, ⟨y, hMy.symm⟩⟩
          have hle : (c :: a'').length ≤ M.length := List.IsPrefix.length_le ⟨y, hMy.symm⟩
          omega
  · right
    left
    refine ⟨c', t, ?_⟩
    rw [List.append_assoc, ← hd]

theorem not_infix_join (M : List Char) (c0 : Char) (hM : M.head? = some c0)
    (chunks : List (List Char)) (hok : ∀ ch ∈ chunks, ChunkOk M c0 ch) :
    ¬ M <:+: joinList chunks := by
  induction chunks with
  | nil =>
    intro hinf
    have hMne : M ≠ [] := by
      intro h0
      rw [h0] at hM
      exact absurd hM (by simp)
    rw [joinList_nil] at hinf
    exact hMne (List.eq_nil_of_infix_nil hinf)
  | cons ch rest ih =>
    intro hinf
    rw [joinList_cons] at hinf
    have hc0M : c0 ∈ M := by
      cases M with
      | nil => exact absurd hM (by simp)
      | cons m ms =>
        have : m = c0 := by
          injection hM
        rw [this]
        exact List.mem_cons_self c0 ms
    rcases infix_append_cases M ch (joinList rest) hinf with hca | hcb | ⟨u, hne, hlt, hsuf, hpre⟩
    · rcases hok ch (List.mem_cons_self ch rest) with hval | ⟨hlit, _⟩
      · exact hval (hca.subset hc0M)
      · exact notInfixB_correct M ch hlit hca
    · exact ih (fun c hc => hok c (List.mem_cons_of_mem ch hc)) hcb
    · have hhead : u.head? = some c0 := by rw [prefix_head u M hpre hne, hM]
      have hc0u : c0 ∈ u := by
        cases u with
        | nil => exact absurd rfl hne
        | cons x xs =>
          have : x = c0 := by injection hhead
          rw [this]
          exact List.mem_cons_self c0 xs
      rcases hok ch (List.mem_cons_self ch rest) with hval | ⟨_, hover⟩
      · exact hval (hsuf.subset hc0u)
      · exact noOverlapB_correct M ch hover u hsuf hne hlt hpre

/-! ### Theme colour resolution (claim C2) -/

theorem lookup_none_of_not_mem_keys {α : Type} (l : List (String × α))
    (k : String) (h : k ∉ l.map Prod.fst) : l.lookup k = none := by
  induction l with
  | nil => exact List.lookup_nil
  | cons a t ih =>
    rw [List.map_cons] at h
    rw [lookup_cons_neg a t k (fun he => h (by rw [he]; exact List.mem_cons_self _ _))]
    exact ih (fun hm => h (List.mem_cons_of_mem _ hm))

theorem lookup_some_mem_values {α : Type} (l : List (String × α)) (k : String)
    (v : α) (h : l.lookup k = some v) : v ∈ l.map Prod.snd := by
  induction l with
  | nil => rw [List.lookup_nil] at h; exact absurd h (by simp)
  | cons a t ih =>
    by_cases hk : k = a.1
    · rw [lookup_cons_pos a t k hk] at h
      injection h with h
      rw [List.map_cons, ← h]
      exact List.mem_cons_self _ _
    · rw [lookup_cons_neg a t k hk] at h
      exact List.mem_cons_of_mem _ (ih h)

namespace VercelGen

theorem themeColorsGet_mem (theme : String) :
    themeColorsGet theme ∈
      ["#0d6efd", "#198754", "#0dcaf0", "#ffc107", "#dc3545", "#212529",
       "#6f42c1", "#d63384", "#20c997"] := by
  unfold themeColorsGet
  cases h : theme_colors.lookup theme with
  | none => simp
  | some c =>
    have := lookup_some_mem_values theme_colors theme c h
    simpa [theme_colors] using this

theorem IsHexColorString_of_data (s : String)
    (h1 : s.data.head? = some '#') (h2 : s.data.tail.length = 6)
    (h3 : ∀ c ∈ s.data.tail, (hexDigitVal c).isSome = true) :
    IsHexColorString s := by
  refine ⟨s.data.tail, Or.inr ?_, h2, h3⟩
  cases hd : s.data with
  | nil => rw [hd] at h1; exact absurd h1 (by simp)
  | cons c cs =>
    rw [hd] at h1
    have hc : c = '#' := by injection h1
    rw [hc]
    rfl

theorem themeColorsGet_hex (theme : String) :
    IsHexColorString (themeColorsGet theme) := by
  have h := themeColorsGet_mem theme
  simp only [List.mem_cons, List.not_mem_nil, or_false] at h
  rcases h with h | h | h | h | h | h | h | h | h <;> rw [h] <;>
    exact IsHexColorString_of_data _ (by decide) (by decide) (by decide)

/-- The RGB conversion never fails on a resolved theme colour (so the
`.getD ""` fallback in the template renderers is unreachable). -/
theorem hex_to_rgb_theme_total (theme : String) :
    ∃ r, hex_to_rgb (themeColorsGet theme) = some r := by
  obtain ⟨r, g, b, _, _, _, _, hs⟩ :=
    hexToRgbVals_of_hex (themeColorsGet theme) (themeColorsGet_hex theme)
  exact ⟨_, hs⟩

theorem themeColorsGet_default (theme : String)
    (h : theme ∉ theme_colors.map Prod.fst) :
    themeColorsGet theme = "#0d6efd" := by
  unfold themeColorsGet
  rw [lookup_none_of_not_mem_keys theme_colors theme h]
  rfl

theorem themeColorsGet_known :
    ∀ p ∈ theme_colors, themeColorsGet p.1 = p.2 := by
  decide

set_option maxRecDepth 8192 in
theorem template_contains_theme_color (name theme year : String)
    (nav footer : Bool) :
    strContains (generate_bootstrap_template name theme nav footer year)
      ("--theme-color: " ++ themeColorsGet theme ++ ";") := by
  obtain ⟨pre2, h2⟩ : ∃ pre, tplSeg2.data = pre ++ ("--theme-color: ".data) :=
    ⟨tplSeg2.data.take (tplSeg2.data.length - 15), by decide⟩
  obtain ⟨tl3, h3⟩ : ∃ tl, tplSeg3.data = ';' :: tl :=
    ⟨tplSeg3.data.tail, by decide⟩
  unfold strContains generate_bootstrap_template
  refine ⟨tplSeg0.data ++ name.data ++ tplSeg1.data ++ name.data ++ pre2,
    tl3 ++ ((hex_to_rgb (themeColorsGet theme)).getD "").data ++ tplSeg4.data ++
      (if nav then nav_html_block name theme else "").data ++ tplSeg5.data ++
      name.data ++ tplSeg6.data ++ theme.data ++ tplSeg7.data ++ theme.data ++
      tplSeg8.data ++ theme.data ++ tplSeg9.data ++ theme.data ++ tplSeg10.data ++
      theme.data ++ tplSeg11.data ++ theme.data ++ tplSeg12.data ++ theme.data ++
      tplSeg13.data ++ theme.data ++ tplSeg14.data ++ theme.data ++ tplSeg15.data ++
      (if footer then footer_html_block name year else "").data ++ tplSeg16.data ++
      name.data ++ tplSeg17.data, ?_⟩
  simp only [String.data_append, List.append_assoc, h2, h3, List.cons_append,
    List.nil_append]

theorem css_contains_theme_color (theme : String) :
    strContains (generate_custom_css theme)
      ("--theme-primary: " ++ themeColorsGet theme ++ ";") := by
  obtain ⟨pre0, h0⟩ : ∃ pre, cssSeg0.data = pre ++ ("--theme-primary: ".data) :=
    ⟨cssSeg0.data.take (cssSeg0.data.length - 17), by decide⟩
  obtain ⟨tl1, h1⟩ : ∃ tl, cssSeg1.data = ';' :: tl :=
    ⟨cssSeg1.data.tail, by decide⟩
  unfold strContains generate_custom_css
  refine ⟨pre0,
    tl1 ++ ((hex_to_rgb (themeColorsGet theme)).getD "").data ++ cssSeg2.data, ?_⟩
  simp only [String.data_append, List.append_assoc, h0, h1, List.cons_append,
    List.nil_append]

end VercelGen

/-- C2: the accent colour of the rendered template is resolved through the
fixed table — for every theme name outside the known set
`{primary, success, info, warning, danger, dark, purple, pink, teal}` the
resolved colour is the `primary` default `#0d6efd`, for every known name it
is that name's table entry, the resolved colour is always a well-formed
6-hex-digit colour (never empty or malformed), and both the rendered HTML
template and the rendered stylesheet contain the CSS custom property set to
exactly the resolved colour. -/
theorem C2_theme_color_resolution :
    (∀ theme : String, theme ∉ VercelGen.theme_colors.map Prod.fst →
      VercelGen.themeColorsGet theme = "#0d6efd") ∧
    (∀ p ∈ VercelGen.theme_colors, VercelGen.themeColorsGet p.1 = p.2) ∧
    (∀ theme : String, VercelGen.IsHexColorString (VercelGen.themeColorsGet theme)) ∧
    (∀ (name theme year : String) (nav footer : Bool),
      strContains (VercelGen.generate_bootstrap_template name theme nav footer year)
        ("--theme-color: " ++ VercelGen.themeColorsGet theme ++ ";")) ∧
    (∀ theme : String,
      strContains (VercelGen.generate_custom_css theme)
        ("--theme-primary: " ++ VercelGen.themeColorsGet theme ++ ";")) :=
  ⟨VercelGen.themeColorsGet_default, VercelGen.themeColorsGet_known,
   VercelGen.themeColorsGet_hex, VercelGen.template_contains_theme_color,
   VercelGen.css_contains_theme_color⟩

/-- Witness for C2 at the unknown theme name `sunset` and the known name
`danger`. -/
theorem C2_theme_color_resolution_witness :
    VercelGen.themeColorsGet "sunset" = "#0d6efd" ∧
    VercelGen.themeColorsGet "danger" = "#dc3545" ∧
    strContains (VercelGen.generate_custom_css "sunset")
      ("--theme-primary: " ++ VercelGen.themeColorsGet "sunset" ++ ";") :=
  ⟨C2_theme_color_resolution.1 "sunset" (by decide),
   C2_theme_color_resolution.2.1 ("danger", "#dc3545") (by decide),
   C2_theme_color_resolution.2.2.2.2 "sunset"⟩

/-! ### Navigation and footer blocks (claim C8) -/

theorem string_data_empty : ("" : String).data = [] := rfl

namespace VercelGen

theorem template_data_eq_chunks (name theme year : String) (nav footer : Bool) :
    (generate_bootstrap_template name theme nav footer year).data =
      joinList (templateChunks name theme year nav footer) := by
  cases nav <;> cases footer <;>
    simp [generate_bootstrap_template, templateChunks, navChunks, footChunks,
      nav_html_block, footer_html_block, navSeg2, ftSeg2, tplSeg4, tplSeg6,
      tplSeg8, tplSeg14, tplSeg16, joinList, String.data_append,
      string_data_empty, List.append_assoc]

theorem themeColorsGet_tagFree (theme : String) :
    '<' ∉ (themeColorsGet theme).data := by
  have h := themeColorsGet_mem theme
  simp only [List.mem_cons, List.not_mem_nil, or_false] at h
  rcases h with h | h | h | h | h | h | h | h | h <;> rw [h] <;> decide

theorem rgb_tagFree (theme : String) :
    '<' ∉ ((hex_to_rgb (themeColorsGet theme)).getD "").data := by
  have h := themeColorsGet_mem theme
  simp only [List.mem_cons, List.not_mem_nil, or_false] at h
  rcases h with h | h | h | h | h | h | h | h | h <;> rw [h] <;> decide

set_option maxRecDepth 3000 in
set_option maxHeartbeats 2000000 in
/-- Every chunk of the rendered template with the navigation flag off is safe
for the navigation marker: the interpolated values contain no tag opener and
every literal piece neither contains the marker nor overlaps it at a
boundary. -/
theorem templateChunks_ok_nav (name theme year : String) (footer : Bool)
    (hn : TagFree name) (ht : TagFree theme) (hy : TagFree year) :
    ∀ ch ∈ templateChunks name theme year false footer,
      ChunkOk ("<!-- Navigation -->".data) '<' ch := by
  intro ch hch
  simp only [templateChunks, List.append_assoc, List.mem_append] at hch
  rcases hch with hch | hch | hch | hch | hch
  · simp only [List.mem_cons, List.not_mem_nil, or_false] at hch
    rcases hch with rfl | rfl | rfl | rfl | rfl | rfl | rfl | rfl | rfl |
      rfl | rfl | rfl | rfl | rfl <;>
      first
        | exact Or.inl hn
        | exact Or.inl ht
        | exact Or.inl hy
        | exact Or.inl (themeColorsGet_tagFree theme)
        | exact Or.inl (rgb_tagFree theme)
        | exact Or.inr (And.intro (by decide) (by decide))
  · simp only [navChunks, Bool.false_eq_true, if_false, List.mem_cons,
      List.not_mem_nil, or_false] at hch
    subst hch
    exact Or.inl (List.not_mem_nil _)
  · simp only [List.mem_cons, List.not_mem_nil, or_false] at hch
    rcases hch with rfl | rfl | rfl | rfl | rfl | rfl | rfl | rfl | rfl |
      rfl | rfl | rfl | rfl | rfl | rfl | rfl | rfl | rfl | rfl | rfl |
      rfl | rfl | rfl | rfl | rfl | rfl | rfl | rfl | rfl | rfl | rfl |
      rfl <;>
      first
        | exact Or.inl hn
        | exact Or.inl ht
        | exact Or.inl hy
        | exact Or.inl (themeColorsGet_tagFree theme)
        | exact Or.inl (rgb_tagFree theme)
        | exact Or.inr (And.intro (by decide) (by decide))
  · cases footer with
    | false =>
      simp only [footChunks, Bool.false_eq_true, if_false, List.mem_cons,
        List.not_mem_nil, or_false] at hch
      subst hch
      exact Or.inl (List.not_mem_nil _)
    | true =>
      simp only [footChunks, if_true, List.mem_cons, List.not_mem_nil,
        or_false] at hch
      rcases hch with rfl | rfl | rfl | rfl | rfl | rfl <;>
        first
          | exact Or.inl hn
          | exact Or.inl ht
          | exact Or.inl hy
          | exact Or.inl (themeColorsGet_tagFree theme)
          | exact Or.inl (rgb_tagFree theme)
          | exact Or.inr (And.intro (by decide) (by decide))
  · simp only [List.mem_cons, List.not_mem_nil, or_false] at hch
    rcases hch with rfl | rfl | rfl | rfl | rfl | rfl <;>
      first
        | exact Or.inl hn
        | exact Or.inl ht
        | exact Or.inl hy
        | exact Or.inl (themeColorsGet_tagFree theme)
        | exact Or.inl (rgb_tagFree theme)
        | exact Or.inr (And.intro (by decide) (by decide))

set_option maxRecDepth 3000 in
set_option maxHeartbeats 2000000 in
/-- Every chunk of the rendered template with the footer flag off is safe for
the footer marker. -/
theorem templateChunks_ok_foot (name theme year : String) (nav : Bool)
    (hn : TagFree name) (ht : TagFree theme) (hy : TagFree year) :
    ∀ ch ∈ templateChunks name theme year nav false,
      ChunkOk ("<!-- Footer -->".data) '<' ch := by
  intro ch hch
  simp only [templateChunks, List.append_assoc, List.mem_append] at hch
  rcases hch with hch | hch | hch | hch | hch
  · simp only [List.mem_cons, List.not_mem_nil, or_false] at hch
    rcases hch with rfl | rfl | rfl | rfl | rfl | rfl | rfl | rfl | rfl |
      rfl | rfl | rfl | rfl | rfl <;>
      first
        | exact Or.inl hn
        | exact Or.inl ht
        | exact Or.inl hy
        | exact Or.inl (themeColorsGet_tagFree theme)
        | exact Or.inl (rgb_tagFree theme)
        | exact Or.inr (And.intro (by decide) (by decide))
  · cases nav with
    | false =>
      simp only [navChunks, Bool.false_eq_true, if_false, List.mem_cons,
        List.not_mem_nil, or_false] at hch
      subst hch
      exact Or.inl (List.not_mem_nil _)
    | true =>
      simp only [navChunks, if_true, List.mem_cons, List.not_mem_nil,
        or_false] at hch
      rcases hch with rfl | rfl | rfl | rfl | rfl | rfl | rfl <;>
        first
          | exact Or.inl hn
          | exact Or.inl ht
          | exact Or.inl hy
          | exact Or.inl (themeColorsGet_tagFree theme)
          | exact Or.inl (rgb_tagFree theme)
          | exact Or.inr (And.intro (by decide) (by decide))
  · simp only [List.mem_cons, List.not_mem_nil, or_false] at hch
    rcases hch with rfl | rfl | rfl | rfl | rfl | rfl | rfl | rfl | rfl |
      rfl | rfl | rfl | rfl | rfl | rfl | rfl | rfl | rfl | rfl | rfl |
      rfl | rfl | rfl | rfl | rfl | rfl | rfl | rfl | rfl | rfl | rfl |
      rfl <;>
      first
        | exact Or.inl hn
        | exact Or.inl ht
        | exact Or.inl hy
        | exact Or.inl (themeColorsGet_tagFree theme)
        | exact Or.inl (rgb_tagFree theme)
        | exact Or.inr (And.intro (by decide) (by decide))
  · simp only [footChunks, Bool.false_eq_true, if_false, List.mem_cons,
      List.not_mem_nil, or_false] at hch
    subst hch
    exact Or.inl (List.not_mem_nil _)
  · simp only [List.mem_cons, List.not_mem_nil, or_false] at hch
    rcases hch with rfl | rfl | rfl | rfl | rfl | rfl <;>
      first
        | exact Or.inl hn
        | exact Or.inl ht
        | exact Or.inl hy
        | exact Or.inl (themeColorsGet_tagFree theme)
        | exact Or.inl (rgb_tagFree theme)
        | exact Or.inr (And.intro (by decide) (by decide))

theorem marker_infix_navSeg0 :
    ("<!-- Navigation -->".data) <:+: navSeg0.data :=
  ⟨navSeg0.data.take 5, navSeg0.data.drop 24, by decide⟩

set_option maxRecDepth 3000 in
theorem marker_infix_ftSeg0 :
    ("<!-- Footer -->".data) <:+: ftSeg0.data :=
  ⟨ftSeg0.data.take 5, ftSeg0.data.drop 20, by decide⟩

theorem marker_infix_nav_block (name theme : String) :
    ("<!-- Navigation -->".data) <:+: (nav_html_block name theme).data := by
  refine marker_infix_navSeg0.trans (List.IsPrefix.isInfix ?_)
  refine ⟨theme.data ++ navSeg1.data ++ name.data ++ navSeg2.data, ?_⟩
  simp [nav_html_block, String.data_append, List.append_assoc]

theorem marker_infix_footer_block (name year : String) :
    ("<!-- Footer -->".data) <:+: (footer_html_block name year).data := by
  refine marker_infix_ftSeg0.trans (List.IsPrefix.isInfix ?_)
  refine ⟨name.data ++ ftSeg1.data ++ year.data ++ ftSeg2.data, ?_⟩
  simp [footer_html_block, String.data_append, List.append_assoc]

theorem template_contains_name (name theme year : String) (nav footer : Bool) :
    strContains (generate_bootstrap_template name theme nav footer year) name := by
  unfold strContains generate_bootstrap_template
  refine ⟨tplSeg0.data,
    tplSeg1.data ++ name.data ++ tplSeg2.data ++ (themeColorsGet theme).data ++
      tplSeg3.data ++ ((hex_to_rgb (themeColorsGet theme)).getD "").data ++
      tplSeg4.data ++ (if nav then nav_html_block name theme else "").data ++
      tplSeg5.data ++ name.data ++ tplSeg6.data ++ theme.data ++ tplSeg7.data ++
      theme.data ++ tplSeg8.data ++ theme.data ++ tplSeg9.data ++ theme.data ++
      tplSeg10.data ++ theme.data ++ tplSeg11.data ++ theme.data ++
      tplSeg12.data ++ theme.data ++ tplSeg13.data ++ theme.data ++
      tplSeg14.data ++ theme.data ++ tplSeg15.data ++
      (if footer then footer_html_block name year else "").data ++
      tplSeg16.data ++ name.data ++ tplSeg17.data, ?_⟩
  simp only [String.data_append, List.append_assoc]

theorem template_contains_nav_block (name theme year : String) (footer : Bool) :
    strContains (generate_bootstrap_template name theme true footer year)
      (nav_html_block name theme) := by
  unfold strContains generate_bootstrap_template
  refine ⟨tplSeg0.data ++ name.data ++ tplSeg1.data ++ name.data ++
      tplSeg2.data ++ (themeColorsGet theme).data ++ tplSeg3.data ++
      ((hex_to_rgb (themeColorsGet theme)).getD "").data ++ tplSeg4.data,
    tplSeg5.data ++ name.data ++ tplSeg6.data ++ theme.data ++ tplSeg7.data ++
      theme.data ++ tplSeg8.data ++ theme.data ++ tplSeg9.data ++ theme.data ++
      tplSeg10.data ++ theme.data ++ tplSeg11.data ++ theme.data ++
      tplSeg12.data ++ theme.data ++ tplSeg13.data ++ theme.data ++
      tplSeg14.data ++ theme.data ++ tplSeg15.data ++
      (if footer then footer_html_block name year else "").data ++
      tplSeg16.data ++ name.data ++ tplSeg17.data, ?_⟩
  simp only [if_true, String.data_append, List.append_assoc]

theorem template_contains_footer_block (name theme year : String) (nav : Bool) :
    strContains (generate_bootstrap_template name theme nav true year)
      (footer_html_block name year) := by
  unfold strContains generate_bootstrap_template
  refine ⟨tplSeg0.data ++ name.data ++ tplSeg1.data ++ name.data ++
      tplSeg2.data ++ (themeColorsGet theme).data ++ tplSeg3.data ++
      ((hex_to_rgb (themeColorsGet theme)).getD "").data ++ tplSeg4.data ++
      (if nav then nav_html_block name theme else "").data ++
      tplSeg5.data ++ name.data ++ tplSeg6.data ++ theme.data ++ tplSeg7.data ++
      theme.data ++ tplSeg8.data ++ theme.data ++ tplSeg9.data ++ theme.data ++
      tplSeg10.data ++ theme.data ++ tplSeg11.data ++ theme.data ++
      tplSeg12.data ++ theme.data ++ tplSeg13.data ++ theme.data ++
      tplSeg14.data ++ theme.data ++ tplSeg15.data,
    tplSeg16.data ++ name.data ++ tplSeg17.data, ?_⟩
  simp only [if_true, String.data_append, List.append_assoc]

theorem not_contains_nav_marker (name theme year : String) (footer : Bool)
    (hn : TagFree name) (ht : TagFree theme) (hy : TagFree year) :
    ¬ strContains (generate_bootstrap_template name theme false footer year)
      "<!-- Navigation -->" := by
  intro hc
  rw [strContains, template_data_eq_chunks] at hc
  exact not_infix_join _ '<' (by decide) _
    (templateChunks_ok_nav name theme year footer hn ht hy) hc

theorem not_contains_footer_marker (name theme year : String) (nav : Bool)
    (hn : TagFree name) (ht : TagFree theme) (hy : TagFree year) :
    ¬ strContains (generate_bootstrap_template name theme nav false year)
      "<!-- Footer -->" := by
  intro hc
  rw [strContains, template_data_eq_chunks] at hc
  exact not_infix_join _ '<' (by decide) _
    (templateChunks_ok_foot name theme year nav hn ht hy) hc

theorem not_contains_nav_block (name theme year : String) (footer : Bool)
    (hn : TagFree name) (ht : TagFree theme) (hy : TagFree year) :
    ¬ strContains (generate_bootstrap_template name theme false footer year)
      (nav_html_block name theme) := by
  intro hc
  exact not_contains_nav_marker name theme year footer hn ht hy
    ((marker_infix_nav_block name theme).trans hc)

theorem not_contains_footer_block (name theme year : String) (nav : Bool)
    (hn : TagFree name) (ht : TagFree theme) (hy : TagFree year) :
    ¬ strContains (generate_bootstrap_template name theme nav false year)
      (footer_html_block name year) := by
  intro hc
  exact not_contains_footer_marker name theme year nav hn ht hy
    ((marker_infix_footer_block name year).trans hc)

end VercelGen

/-- C8: for all valid inputs — project name, theme name and year containing
no tag opener, as every realistic input does — the rendered HTML contains the
literal project-name string, contains the navigation block if and only if the
nav flag is set, and contains the footer block if and only if the footer flag
is set. -/
theorem C8_template_name_and_blocks (name theme year : String)
    (nav footer : Bool) (hn : TagFree name) (ht : TagFree theme)
    (hy : TagFree year) :
    strContains (VercelGen.generate_bootstrap_template name theme nav footer year)
      name ∧
    (strContains (VercelGen.generate_bootstrap_template name theme nav footer year)
      (VercelGen.nav_html_block name theme) ↔ nav = true) ∧
    (strContains (VercelGen.generate_bootstrap_template name theme nav footer year)
      (VercelGen.footer_html_block name year) ↔ footer = true) := by
  refine ⟨VercelGen.template_contains_name name theme year nav footer, ?_, ?_⟩
  · constructor
    · intro hc
      cases nav with
      | true => rfl
      | false =>
        exact absurd hc
          (VercelGen.not_contains_nav_block name theme year footer hn ht hy)
    · intro hnav
      cases hnav
      exact VercelGen.template_contains_nav_block name theme year footer
  · constructor
    · intro hc
      cases footer with
      | true => rfl
      | false =>
        exact absurd hc
          (VercelGen.not_contains_footer_block name theme year nav hn ht hy)
    · intro hfoot
      cases hfoot
      exact VercelGen.template_contains_footer_block name theme year nav

/-- Witness for C8 at the concrete input name `My Site`, theme `danger`,
year `2026`, navigation on and footer off. -/
theorem C8_template_name_and_blocks_witness :
    TagFree "My Site" ∧ TagFree "danger" ∧ TagFree "2026" ∧
    (strContains
        (VercelGen.generate_bootstrap_template "My Site" "danger" true false "2026")
        "My Site" ∧
      (strContains
          (VercelGen.generate_bootstrap_template "My Site" "danger" true false "2026")
          (VercelGen.nav_html_block "My Site" "danger") ↔ true = true) ∧
      (strContains
          (VercelGen.generate_bootstrap_template "My Site" "danger" true false "2026")
          (VercelGen.footer_html_block "My Site" "2026") ↔ false = true)) :=
  ⟨by decide, by decide, by decide,
    C8_template_name_and_blocks "My Site" "danger" "2026" true false
      (by decide) (by decide) (by decide)⟩
